import Mathlib

/-!
# raspijpgs and RaspiMJPEG: a shallow embedding

The two C programs of the repository (`raspijpgs.c`, `RaspiMJPEG.c`) drive
the Raspberry Pi camera through the MMAL library.  The embedding keeps the
C names.  A C function that mutates the global `state` becomes a function on
a state record; a call of `errx`/`err` (process exit) becomes the `exit`
outcome of `Result`; every call into the MMAL library is appended to a trace,
and what the library answers is read from an oracle (`Hardware`), so that a
theorem quantified over the oracle speaks about every behaviour of the
hardware.  C strings are lists of characters, byte buffers are lists of
numbers, machine integers are `Nat`/`Int` with explicit `% 2 ^ 32`.
-/

namespace MMAL

/-- Status codes of the MMAL library.  The sources compare a status only with
`MMAL_SUCCESS` and `MMAL_ENOSYS`; any other error code is `MMAL_FAILURE`. -/
inductive MMAL_STATUS_T where
  | MMAL_SUCCESS
  | MMAL_ENOSYS
  | MMAL_FAILURE (code : Nat)
  deriving DecidableEq

/-- The three hardware components that the programs create. -/
inductive Component where
  | camera
  | jpegencoder
  | resizer
  deriving DecidableEq

/-- The ports that the programs touch: `c->control`, `c->output[0]`,
`c->input[0]`. -/
inductive Port where
  | control (c : Component)
  | output0 (c : Component)
  | input0 (c : Component)
  deriving DecidableEq

/-- The two tunnel connections held in `con_cam_res` and `con_res_jpeg`. -/
inductive Connection where
  | con_cam_res
  | con_res_jpeg
  deriving DecidableEq

inductive MMAL_PARAM_EXPOSUREMODE_T where
  | OFF | AUTO | NIGHT | NIGHTPREVIEW | BACKLIGHT | SPOTLIGHT | SPORTS | SNOW
  | BEACH | VERYLONG | FIXEDFPS | ANTISHAKE | FIREWORKS
  deriving DecidableEq

inductive MMAL_PARAM_AWBMODE_T where
  | OFF | AUTO | SUNLIGHT | CLOUDY | SHADE | TUNGSTEN | FLUORESCENT
  | INCANDESCENT | FLASH | HORIZON
  deriving DecidableEq

inductive MMAL_PARAM_IMAGEFX_T where
  | NONE | NEGATIVE | SOLARIZE | SKETCH | DENOISE | EMBOSS | OILPAINT | HATCH
  | GPEN | PASTEL | WATERCOLOUR | FILM | BLUR | SATURATION | COLOURSWAP
  | WASHEDOUT | POSTERISE | COLOURPOINT | COLOURBALANCE | CARTOON
  deriving DecidableEq

inductive MMAL_PARAM_EXPOSUREMETERINGMODE_T where
  | AVERAGE | SPOT | BACKLIT | MATRIX
  deriving DecidableEq

inductive MMAL_PARAM_MIRROR_T where
  | NONE | VERTICAL | HORIZONTAL | BOTH
  deriving DecidableEq

/-- Identifiers of the parameters set through the typed setters
(`mmal_port_parameter_set_uint32`, `_int32`, `_rational`, `_boolean`). -/
inductive ParameterId where
  | SHARPNESS | CONTRAST | BRIGHTNESS | SATURATION | ISO
  | VIDEO_STABILISATION | EXPOSURE_COMP | ROTATION | SHUTTER_SPEED
  | JPEG_Q_FACTOR
  deriving DecidableEq

/-- A parameter together with the value handed to the library. -/
inductive Parameter where
  | camera_config (max_stills_w max_stills_h max_preview_video_w max_preview_video_h : Nat)
  | uint32 (id : ParameterId) (value : Nat)
  | int32 (id : ParameterId) (value : Int)
  | rational (id : ParameterId) (num den : Int)
  | boolean (id : ParameterId) (value : Nat)
  | exposure_mode (mode : MMAL_PARAM_EXPOSUREMODE_T)
  | awb_mode (mode : MMAL_PARAM_AWBMODE_T)
  | image_effect (mode : MMAL_PARAM_IMAGEFX_T)
  | colour_effect (enable : Nat) (u v : Nat)
  | exp_metering_mode (mode : MMAL_PARAM_EXPOSUREMETERINGMODE_T)
  | mirror (value : MMAL_PARAM_MIRROR_T)
  | input_crop (x y width height : Int)
  | annotate (enable : Nat) (text : List Char) (black_text_background : Nat)
  deriving DecidableEq

/-- The format fields the programs write before `mmal_port_format_commit`:
a video format, or the encoder output format (a copy of the encoder input
format with the encoding replaced by JPEG). -/
inductive Format where
  | video (width height crop_x crop_y crop_width crop_height
      frame_rate_num frame_rate_den : Nat)
  | jpeg
  deriving DecidableEq

/-- A delivered buffer header: `handle` stands for the pointer, `data` for
the `length` payload bytes at `buffer->data`, `flags` for `buffer->flags`. -/
structure MMAL_BUFFER_HEADER_T where
  handle : Nat
  data : List Nat
  flags : Nat
  deriving DecidableEq

/-- The field `buffer->length`: the number of payload bytes. -/
def MMAL_BUFFER_HEADER_T.length (buffer : MMAL_BUFFER_HEADER_T) : Nat :=
  buffer.data.length

/-- The frame-end bit of `buffer->flags` (bit 2 in `mmal_buffer.h`). -/
def MMAL_BUFFER_HEADER_FLAG_FRAME_END : Nat := 4

/-- The C test `buffer->flags & MMAL_BUFFER_HEADER_FLAG_FRAME_END`. -/
def MMAL_BUFFER_HEADER_T.frame_end (buffer : MMAL_BUFFER_HEADER_T) : Bool :=
  buffer.flags &&& MMAL_BUFFER_HEADER_FLAG_FRAME_END != 0

/-- The port handed to a buffer callback: which port it is and the value of
`port->is_enabled` that the callback reads. -/
structure MMAL_PORT_T where
  id : Port
  is_enabled : Bool
  deriving DecidableEq

/-- Every call into the MMAL library made by the two programs.  A call that
returns something other than a status carries its result. -/
inductive Call where
  | mmal_component_create (c : Component)
  | mmal_component_enable (c : Component)
  | mmal_component_disable (c : Component)
  | mmal_component_destroy (c : Component)
  | mmal_port_enable (p : Port)
  | mmal_port_disable (p : Port)
  | mmal_port_parameter_set (p : Port) (param : Parameter)
  | mmal_port_format_commit (p : Port) (format : Format)
  | mmal_format_copy
  | mmal_port_pool_create (p : Port)
  | mmal_port_pool_destroy (p : Port)
  | mmal_connection_create (c : Connection)
  | mmal_connection_enable (c : Connection)
  | mmal_connection_destroy (c : Connection)
  | mmal_queue_length (result : Nat)
  | mmal_queue_get (result : Option Nat)
  | mmal_port_send_buffer (p : Port) (handle : Nat)
  | mmal_buffer_header_mem_lock (handle : Nat)
  | mmal_buffer_header_mem_unlock (handle : Nat)
  | mmal_buffer_header_release (handle : Nat)
  deriving DecidableEq

/-- What the MMAL library answers.  Each answer is indexed by the number of
events logged before the call, so an arbitrary `Hardware` is an arbitrary
behaviour of the library.  `status` is the returned status (for
`mmal_port_pool_create`, `MMAL_SUCCESS` stands for a non-NULL pool),
`queue_get` the handle returned by `mmal_queue_get` (`none` is NULL) and
`queue_length` the result of `mmal_queue_length`. -/
structure Hardware where
  status : Nat → MMAL_STATUS_T
  queue_get : Nat → Option Nat
  queue_length : Nat → Nat

/-- The hardware on which every call succeeds; the pool queue holds
`n` buffers with handles `100, 101, ...`. -/
def Hardware.allSuccess (n : Nat) : Hardware where
  status := fun _ => MMAL_STATUS_T.MMAL_SUCCESS
  queue_get := fun i => some (100 + i)
  queue_length := fun _ => n

end MMAL

open MMAL

/-- What is observable of a run: the MMAL calls with the status returned,
the frames handed to `distribute_jpeg`, warnings, messages written to the
internal pipe, the file operations of RaspiMJPEG, a marker for each
invocation of `start_all` and `stop_all`, and the datagrams sent to clients
(`sun_path` of the destination, the bytes, whether `sendto` succeeded). -/
inductive Event where
  | call (c : Call) (status : MMAL_STATUS_T)
  | distribute_jpeg (frame : List Nat)
  | warnx (msg : String)
  | pipe_write (port : MMAL_PORT_T) (buffer : MMAL_BUFFER_HEADER_T)
  | fopen (name : List Char) (ok : Bool)
  | fwrite (data : List Nat) (written : Nat)
  | fclose (name : List Char)
  | rename (old new : List Char)
  | invoke (function : String)
  | sendto (sun_path : List Char) (data : List Char) (ok : Bool)
  deriving DecidableEq

/-- Outcome of a C function that may end the process with `errx`/`err`:
`ok s` is a normal return in state `s`, `exit s msg` is process exit with the
state reached when `errx` was called. -/
inductive Result (σ : Type) where
  | ok (s : σ)
  | exit (s : σ) (msg : String)

/-- Sequencing: the second function runs only if the first returned. -/
def Result.andThen {σ : Type} (r : Result σ) (f : σ → Result σ) : Result σ :=
  match r with
  | Result.ok s => f s
  | Result.exit s msg => Result.exit s msg

/-- The state in which the function returned or the process ended. -/
def Result.state {σ : Type} (r : Result σ) : σ :=
  match r with
  | Result.ok s => s
  | Result.exit s _ => s

/-- Whether the process was ended. -/
def Result.exited {σ : Type} (r : Result σ) : Bool :=
  match r with
  | Result.ok _ => false
  | Result.exit _ _ => true

/-- The call `memcpy(&dst[off], src, n)` as a function of `dst`: the bytes at
offsets `off .. off+n-1` are replaced by the first `n` bytes of `src`. -/
def memcpy (dst : List Nat) (off : Nat) (src : List Nat) (n : Nat) : List Nat :=
  dst.take off ++ src.take n ++ dst.drop (off + n)

/-! ## The C library functions used by the programs -/

namespace Libc

/-- Width in bits of `long` and `unsigned long` on the target (32-bit ARM,
the only platform of the MMAL library). -/
def LONG_BITS : Nat := 32

/-- Conversion to `int` / `int32_t` (two's complement wrap-around). -/
def to_int32 (n : Int) : Int := (n + 2 ^ 31) % 2 ^ 32 - 2 ^ 31

/-- Conversion to `unsigned int` / `uint32_t`. -/
def to_uint32 (n : Int) : Nat := (n % 2 ^ 32).toNat

/-- The function `isspace` in the C locale. -/
def isspace (c : Char) : Bool :=
  c.toNat = 32 || (9 ≤ c.toNat && c.toNat ≤ 13)

/-- The value of `c` as a digit of a base up to 36. -/
def digit_value (c : Char) : Option Nat :=
  if 48 ≤ c.toNat ∧ c.toNat ≤ 57 then some (c.toNat - 48)
  else if 97 ≤ c.toNat ∧ c.toNat ≤ 122 then some (c.toNat - 87)
  else if 65 ≤ c.toNat ∧ c.toNat ≤ 90 then some (c.toNat - 55)
  else none

/-- Whether `c` is a digit of the base. -/
def is_digit (base : Nat) (c : Char) : Bool :=
  match digit_value c with
  | some d => d < base
  | none => false

/-- The value of the longest run of digits of the base at the head of the
string, starting from `acc`. -/
def scan_digits (base : Nat) : List Char → Nat → Nat
  | [], acc => acc
  | c :: cs, acc =>
    match digit_value c with
    | some d => if d < base then scan_digits base cs (acc * base + d) else acc
    | none => acc

/-- The subject sequence of `strtol`/`strtoul`: leading white space is
skipped, then an optional sign is read. -/
def scan_sign (s : List Char) : Bool × List Char :=
  match s.dropWhile isspace with
  | '-' :: t => (true, t)
  | '+' :: t => (false, t)
  | t => (false, t)

/-- The magnitude read by `strtol(s, 0, 0)` after the sign: hexadecimal after
`0x`, octal after `0`, decimal otherwise; 0 when there is no digit. -/
def scan_magnitude_base0 (s : List Char) : Nat :=
  match s with
  | '0' :: x :: h :: t =>
    if (x = 'x' ∨ x = 'X') ∧ is_digit 16 h = true then scan_digits 16 (h :: t) 0
    else scan_digits 8 s 0
  | _ =>
    match s with
    | '0' :: _ => scan_digits 8 s 0
    | _ => scan_digits 10 s 0

/-- The call `strtol(s, 0, 0)`: the result is clamped to the range of `long`. -/
def strtol (s : List Char) : Int :=
  let m : Int := scan_magnitude_base0 (scan_sign s).2
  if (scan_sign s).1 then max (-(2 ^ (LONG_BITS - 1))) (-m)
  else min (2 ^ (LONG_BITS - 1) - 1) m

/-- The call `strtoul(s, 0, 0)`: `ULONG_MAX` on overflow, and a value with a
minus sign is negated in the unsigned type. -/
def strtoul (s : List Char) : Nat :=
  let m := scan_magnitude_base0 (scan_sign s).2
  if m ≥ 2 ^ LONG_BITS then 2 ^ LONG_BITS - 1
  else if (scan_sign s).1 then (2 ^ LONG_BITS - m) % 2 ^ LONG_BITS
  else m

/-- The call `strtoull(s, NULL, 0)`, with a 64-bit `unsigned long long`. -/
def strtoull (s : List Char) : Nat :=
  let m := scan_magnitude_base0 (scan_sign s).2
  if m ≥ 2 ^ 64 then 2 ^ 64 - 1
  else if (scan_sign s).1 then (2 ^ 64 - m) % 2 ^ 64
  else m

/-- The function `atoi`: `(int) strtol(s, NULL, 10)`. -/
def atoi (s : List Char) : Int :=
  let m : Int := scan_digits 10 (scan_sign s).2 0
  to_int32 (if (scan_sign s).1 then max (-(2 ^ (LONG_BITS - 1))) (-m)
    else min (2 ^ (LONG_BITS - 1) - 1) m)

/-- The conversion `%d` of `sscanf`: white space, an optional sign and at
least one decimal digit; gives the value and the rest of the input. -/
def scan_d (s : List Char) : Option (Int × List Char) :=
  match (scan_sign s).2 with
  | [] => none
  | c :: cs =>
    if is_digit 10 c then
      some ((if (scan_sign s).1 then -(scan_digits 10 (c :: cs) 0 : Int)
          else (scan_digits 10 (c :: cs) 0 : Int)),
        (c :: cs).dropWhile (is_digit 10))
    else none

/-- The call `sscanf(str, "%d:%d", &u, &v)` on `u = v = 0`: the number of
conversions done and the two values afterwards. -/
def sscanf_d_colon_d (s : List Char) : Nat × Int × Int :=
  match scan_d s with
  | none => (0, 0, 0)
  | some (u, rest) =>
    match rest with
    | ':' :: rest =>
      match scan_d rest with
      | none => (1, u, 0)
      | some (v, _) => (2, u, v)
    | _ => (1, u, 0)

/-- The C string starting at `s`: the characters before the first NUL. -/
def cstr (s : List Char) : List Char := s.takeWhile (fun c => c.toNat ≠ 0)

/-- The function `getenv`: `none` is NULL. -/
def getenv (env : List (List Char × List Char)) (key : List Char) : Option (List Char) :=
  match env with
  | [] => none
  | (k, v) :: rest => if k = key then some v else getenv rest key

/-- The function `setenv(key, value, replace)`; failure for lack of memory
is not modelled. -/
def setenv (env : List (List Char × List Char)) (key value : List Char) (replace : Int) :
    List (List Char × List Char) :=
  match env with
  | [] => [(key, value)]
  | (k, v) :: rest =>
    if k = key then (if replace ≠ 0 then (k, value) :: rest else (k, v) :: rest)
    else (k, v) :: setenv rest key value replace

/-- The function `unsetenv`. -/
def unsetenv (env : List (List Char × List Char)) (key : List Char) :
    List (List Char × List Char) :=
  env.filter (fun kv => kv.1 ≠ key)

/-- What the operating system answers to RaspiMJPEG, indexed like
`Hardware` by the number of events logged before the call: whether `fopen`
succeeds, how many bytes `fwrite` writes of those requested, the file name
that `asprintf` makes of the pattern `jpeg_filename` and the image counter,
and the annotation text made of the template and the local time. -/
structure OS where
  fopen_ok : Nat → Bool
  fwrite : Nat → Nat → Nat
  asprintf : List Char → Nat → List Char
  annotation_text : Nat → List Char → List Char

/-- The operating system on which every file operation succeeds; the file
name is the pattern followed by one character for the counter. -/
def OS.allSuccess : OS where
  fopen_ok := fun _ => true
  fwrite := fun _ n => n
  asprintf := fun pattern cnt => pattern ++ [Char.ofNat (48 + cnt % 10)]
  annotation_text := fun _ template => template

end Libc

namespace Raspijpgs

def MAX_CLIENTS : Nat := 8

def MAX_DATA_BUFFER_SIZE : Nat := 65536

/-- The parts of `struct sockaddr_un` that the program reads. -/
structure sockaddr_un where
  sun_family : Nat
  sun_path : List Char
  deriving DecidableEq

/-- The global `state` of raspijpgs.c (`struct raspijpgs_state`) together
with the process environment (`getenv`/`setenv`) and the trace of observable
events.  The MMAL resource pointers of the C struct are represented by the
trace of the calls that created them. -/
structure raspijpgs_state where
  lock_filename : Option (List Char)
  config_filename : Option (List Char)
  framing : Option (List Char)
  setlist : Option (List Char)
  count : Int
  user_wants_server : Int
  user_wants_client : Int
  is_server : Int
  buffer : List Nat
  buffer_ix : Nat
  client_addrs : List sockaddr_un
  env : List (List Char × List Char)
  trace : List Event

/-- The zero-initialised `state` (`= {0}`) after `main` has allocated
`state.buffer` with `malloc(MAX_DATA_BUFFER_SIZE)`; `garbage` is the content
of the fresh allocation. -/
def initial_state (garbage : List Nat) : raspijpgs_state where
  lock_filename := none
  config_filename := none
  framing := none
  setlist := none
  count := 0
  user_wants_server := 0
  user_wants_client := 0
  is_server := 0
  buffer := garbage
  buffer_ix := 0
  client_addrs := List.replicate MAX_CLIENTS { sun_family := 0, sun_path := [] }
  env := []
  trace := []

/-- Log an MMAL call whose status the oracle decides; returns the status. -/
def mmal (hw : Hardware) (c : Call) (state : raspijpgs_state) :
    MMAL_STATUS_T × raspijpgs_state :=
  (hw.status state.trace.length,
    { state with trace := state.trace ++ [Event.call c (hw.status state.trace.length)] })

/-- Log an MMAL call that returns nothing. -/
def mmal_void (c : Call) (state : raspijpgs_state) : raspijpgs_state :=
  { state with trace := state.trace ++ [Event.call c MMAL_STATUS_T.MMAL_SUCCESS] }

/-- The call `mmal_queue_get(state.pool_jpegencoder->queue)`. -/
def mmal_queue_get (hw : Hardware) (state : raspijpgs_state) :
    Option Nat × raspijpgs_state :=
  (hw.queue_get state.trace.length,
    { state with trace := state.trace ++
        [Event.call (Call.mmal_queue_get (hw.queue_get state.trace.length))
          MMAL_STATUS_T.MMAL_SUCCESS] })

/-- The function `warnx`: a diagnostic on stderr, the process goes on. -/
def warnx (msg : String) (state : raspijpgs_state) : raspijpgs_state :=
  { state with trace := state.trace ++ [Event.warnx msg] }

/-- The function `distribute_jpeg(buf, len)` of raspijpgs.c.  Its body only
prints the length; the event records the `len` bytes at `buf` it was handed. -/
def distribute_jpeg (buf : List Nat) (len : Nat) (state : raspijpgs_state) :
    raspijpgs_state :=
  { state with trace := state.trace ++ [Event.distribute_jpeg (buf.take len)] }

/-- The tail shared by `jpegencoder_buffer_callback_impl` and the zero-length
branch of `jpegencoder_buffer_callback`: release the buffer and, if the port
is enabled, take a buffer from the pool queue and send it to the port. -/
def release_and_resubmit (hw : Hardware) (port : MMAL_PORT_T)
    (buffer : MMAL_BUFFER_HEADER_T) (state : raspijpgs_state) :
    Result raspijpgs_state :=
  let state := mmal_void (Call.mmal_buffer_header_release buffer.handle) state
  if port.is_enabled then
    match mmal_queue_get hw state with
    | (none, state) => Result.exit state "Could not send buffers to port"
    | (some new_buffer, state) =>
      match mmal hw (Call.mmal_port_send_buffer port.id new_buffer) state with
      | (MMAL_STATUS_T.MMAL_SUCCESS, state) => Result.ok state
      | (_, state) => Result.exit state "Could not send buffers to port"
  else
    Result.ok state

/-- The frame-assembly part of `jpegencoder_buffer_callback_impl`
(raspijpgs.c lines 781-796).  The sum `state.buffer_ix + buffer->length` is
computed in 32-bit unsigned arithmetic, as in C. -/
def assemble (buffer : MMAL_BUFFER_HEADER_T) (state : raspijpgs_state) :
    raspijpgs_state :=
  if state.buffer_ix = 0 ∧ buffer.frame_end = true ∧
      buffer.length ≤ MAX_DATA_BUFFER_SIZE then
    -- Easy case: JPEG all in one buffer
    distribute_jpeg buffer.data buffer.length state
  else
    -- Hard case: assemble JPEG
    if (state.buffer_ix + buffer.length) % 2 ^ 32 > MAX_DATA_BUFFER_SIZE then
      warnx "Frame too large. Dropping. Adjust MAX_DATA_BUFFER_SIZE." state
    else
      let state := { state with
        buffer := memcpy state.buffer state.buffer_ix buffer.data buffer.length
        buffer_ix := (state.buffer_ix + buffer.length) % 2 ^ 32 }
      if buffer.frame_end then
        distribute_jpeg state.buffer state.buffer_ix state
      else
        state

/-- The function `jpegencoder_buffer_callback_impl` of raspijpgs.c.  `msg` is
what `read` obtained from the internal pipe: `none` when the read did not
return a whole message. -/
def jpegencoder_buffer_callback_impl (hw : Hardware)
    (msg : Option (MMAL_PORT_T × MMAL_BUFFER_HEADER_T))
    (state : raspijpgs_state) : Result raspijpgs_state :=
  match msg with
  | none => Result.exit state "read from internal pipe broke"
  | some (port, buffer) =>
    let state := (mmal hw (Call.mmal_buffer_header_mem_lock buffer.handle) state).2
    let state := assemble buffer state
    let state := mmal_void (Call.mmal_buffer_header_mem_unlock buffer.handle) state
    let state := if state.count ≥ 0 then { state with count := state.count - 1 } else state
    release_and_resubmit hw port buffer state

/-- The function `jpegencoder_buffer_callback` of raspijpgs.c, run on the MMAL
thread.  `pipe_ok` says whether `write` to the internal pipe wrote the whole
message. -/
def jpegencoder_buffer_callback (hw : Hardware) (pipe_ok : Bool)
    (port : MMAL_PORT_T) (buffer : MMAL_BUFFER_HEADER_T)
    (state : raspijpgs_state) : Result raspijpgs_state :=
  if buffer.length ≠ 0 then
    if pipe_ok then
      Result.ok { state with trace := state.trace ++ [Event.pipe_write port buffer] }
    else
      Result.exit state "write to internal pipe broke"
  else
    release_and_resubmit hw port buffer state

/-! ### Options of raspijpgs.c -/

def RASPIJPGS_WIDTH : List Char := "RASPIJPGS_WIDTH".toList
def RASPIJPGS_ANNOTATION : List Char := "RASPIJPGS_ANNOTATION".toList
def RASPIJPGS_ANNO_BACKGROUND : List Char := "RASPIJPGS_ANNO_BACKGROUND".toList
def RASPIJPGS_SHARPNESS : List Char := "RASPIJPGS_SHARPNESS".toList
def RASPIJPGS_CONTRAST : List Char := "RASPIJPGS_CONTRAST".toList
def RASPIJPGS_BRIGHTNESS : List Char := "RASPIJPGS_BRIGHTNESS".toList
def RASPIJPGS_SATURATION : List Char := "RASPIJPGS_SATURATION".toList
def RASPIJPGS_ISO : List Char := "RASPIJPGS_ISO".toList
def RASPIJPGS_VSTAB : List Char := "RASPIJPGS_VSTAB".toList
def RASPIJPGS_EV : List Char := "RASPIJPGS_EV".toList
def RASPIJPGS_EXPOSURE : List Char := "RASPIJPGS_EXPOSURE".toList
def RASPIJPGS_AWB : List Char := "RASPIJPGS_AWB".toList
def RASPIJPGS_IMXFX : List Char := "RASPIJPGS_IMXFX".toList
def RASPIJPGS_COLFX : List Char := "RASPIJPGS_COLFX".toList
def RASPIJPGS_METERING : List Char := "RASPIJPGS_METERING".toList
def RASPIJPGS_ROTATION : List Char := "RASPIJPGS_ROTATION".toList
def RASPIJPGS_HFLIP : List Char := "RASPIJPGS_HFLIP".toList
def RASPIJPGS_VFLIP : List Char := "RASPIJPGS_VFLIP".toList
def RASPIJPGS_ROI : List Char := "RASPIJPGS_ROI".toList
def RASPIJPGS_SHUTTER : List Char := "RASPIJPGS_SHUTTER".toList
def RASPIJPGS_QUALITY : List Char := "RASPIJPGS_QUALITY".toList
def RASPIJPGS_SOCKET : List Char := "RASPIJPGS_SOCKET".toList
def RASPIJPGS_OUTPUT : List Char := "RASPIJPGS_OUTPUT".toList
def RASPIJPGS_COUNT : List Char := "RASPIJPGS_COUNT".toList
def RASPIJPGS_LOCKFILE : List Char := "RASPIJPGS_LOCKFILE".toList

inductive config_context where
  | config_context_file
  | config_context_server_start
  | config_context_client_request
  deriving DecidableEq

/-- The functions stored in the `set` field of the option table. -/
inductive SetFn where
  | default_set | config_set | framing_set | set_set | quit_set | server_set
  | client_set | help
  deriving DecidableEq

/-- The functions stored in the `apply` field of the option table. -/
inductive ApplyFn where
  | width_apply | annotation_apply | anno_background_apply | sharpness_apply
  | contrast_apply | brightness_apply | saturation_apply | ISO_apply
  | vstab_apply | ev_apply | exposure_apply | awb_apply | imxfx_apply
  | colfx_apply | metering_apply | rotation_apply | flip_apply | roi_apply
  | shutter_apply | quality_apply | count_apply
  deriving DecidableEq

/-- One row of the option table (`struct raspi_config_opt`); `none` is a
null pointer. -/
structure raspi_config_opt where
  long_option : List Char
  short_option : Option (List Char)
  env_key : Option (List Char)
  help : List Char
  default_value : Option (List Char)
  set : SetFn
  apply : Option ApplyFn
  deriving DecidableEq

/-- The table `opts[]` without its terminating all-zero row. -/
def opts : List raspi_config_opt :=
  [ ⟨"width".toList, some "w".toList, some RASPIJPGS_WIDTH, "Set image width <size>".toList, some "320".toList, SetFn.default_set, some ApplyFn.width_apply⟩,
    ⟨"annotation".toList, some "a".toList, some RASPIJPGS_ANNOTATION, "Annotation on the video frames".toList, some "".toList, SetFn.default_set, some ApplyFn.annotation_apply⟩,
    ⟨"anno_background".toList, some "ab".toList, some RASPIJPGS_ANNO_BACKGROUND, "Turn on a black background behind the annotation".toList, some "off".toList, SetFn.default_set, some ApplyFn.anno_background_apply⟩,
    ⟨"sharpness".toList, some "sh".toList, some RASPIJPGS_SHARPNESS, "Set image sharpness (-100 to 100)".toList, some "0".toList, SetFn.default_set, some ApplyFn.sharpness_apply⟩,
    ⟨"contrast".toList, some "co".toList, some RASPIJPGS_CONTRAST, "Set image contrast (-100 to 100)".toList, some "0".toList, SetFn.default_set, some ApplyFn.contrast_apply⟩,
    ⟨"brightness".toList, some "br".toList, some RASPIJPGS_BRIGHTNESS, "Set image brightness (0 to 100)".toList, some "50".toList, SetFn.default_set, some ApplyFn.brightness_apply⟩,
    ⟨"saturation".toList, some "sa".toList, some RASPIJPGS_SATURATION, "Set image saturation (-100 to 100)".toList, some "0".toList, SetFn.default_set, some ApplyFn.saturation_apply⟩,
    ⟨"ISO".toList, some "ISO".toList, some RASPIJPGS_ISO, "Set capture ISO (100 to 800)".toList, some "0".toList, SetFn.default_set, some ApplyFn.ISO_apply⟩,
    ⟨"vstab".toList, some "vs".toList, some RASPIJPGS_VSTAB, "Turn on video stabilisation".toList, some "off".toList, SetFn.default_set, some ApplyFn.vstab_apply⟩,
    ⟨"ev".toList, some "ev".toList, some RASPIJPGS_EV, "Set EV compensation (-10 to 10)".toList, some "0".toList, SetFn.default_set, some ApplyFn.ev_apply⟩,
    ⟨"exposure".toList, some "ex".toList, some RASPIJPGS_EXPOSURE, "Set exposure mode".toList, some "auto".toList, SetFn.default_set, some ApplyFn.exposure_apply⟩,
    ⟨"awb".toList, some "awb".toList, some RASPIJPGS_AWB, "Set Automatic White Balance (AWB) mode".toList, some "auto".toList, SetFn.default_set, some ApplyFn.awb_apply⟩,
    ⟨"imxfx".toList, some "ifx".toList, some RASPIJPGS_IMXFX, "Set image effect".toList, some "none".toList, SetFn.default_set, some ApplyFn.imxfx_apply⟩,
    ⟨"colfx".toList, some "cfx".toList, some RASPIJPGS_COLFX, "Set colour effect <U:V>".toList, some "".toList, SetFn.default_set, some ApplyFn.colfx_apply⟩,
    ⟨"metering".toList, some "mm".toList, some RASPIJPGS_METERING, "Set metering mode".toList, some "average".toList, SetFn.default_set, some ApplyFn.metering_apply⟩,
    ⟨"rotation".toList, some "rot".toList, some RASPIJPGS_ROTATION, "Set image rotation (0-359)".toList, some "0".toList, SetFn.default_set, some ApplyFn.rotation_apply⟩,
    ⟨"hflip".toList, some "hf".toList, some RASPIJPGS_HFLIP, "Set horizontal flip".toList, some "off".toList, SetFn.default_set, some ApplyFn.flip_apply⟩,
    ⟨"vflip".toList, some "vf".toList, some RASPIJPGS_VFLIP, "Set vertical flip".toList, some "off".toList, SetFn.default_set, some ApplyFn.flip_apply⟩,
    ⟨"roi".toList, some "roi".toList, some RASPIJPGS_ROI, "Set sensor region of interest".toList, some "0:0:65536:65536".toList, SetFn.default_set, some ApplyFn.roi_apply⟩,
    ⟨"shutter".toList, some "ss".toList, some RASPIJPGS_SHUTTER, "Set shutter speed".toList, some "0".toList, SetFn.default_set, some ApplyFn.shutter_apply⟩,
    ⟨"quality".toList, some "q".toList, some RASPIJPGS_QUALITY, "Set the JPEG quality (0-100)".toList, some "75".toList, SetFn.default_set, some ApplyFn.quality_apply⟩,
    ⟨"socket".toList, none, some RASPIJPGS_SOCKET, "Specify the socket filename for communication".toList, some "/tmp/raspijpgs_socket".toList, SetFn.default_set, none⟩,
    ⟨"output".toList, some "o".toList, some RASPIJPGS_OUTPUT, "Specify an output filename or '-' for stdout".toList, some "".toList, SetFn.default_set, none⟩,
    ⟨"count".toList, none, some RASPIJPGS_COUNT, "How many frames to capture before quiting (-1 = no limit)".toList, some "-1".toList, SetFn.default_set, some ApplyFn.count_apply⟩,
    ⟨"lockfile".toList, none, some RASPIJPGS_LOCKFILE, "Specify a lock filename to prevent multiple runs".toList, some "/tmp/raspijpgs_lock".toList, SetFn.default_set, none⟩,
    -- options that can't be overridden using environment variables
    ⟨"config".toList, some "c".toList, none, "Specify a config file to read for options".toList, none, SetFn.config_set, none⟩,
    ⟨"framing".toList, some "fr".toList, none, "Specify the output framing (cat, mime, header, replace)".toList, some "cat".toList, SetFn.framing_set, none⟩,
    ⟨"set".toList, none, none, "Set this parameter on the server (e.g. --set shutter=1000)".toList, none, SetFn.set_set, none⟩,
    ⟨"server".toList, none, none, "Run as a server".toList, none, SetFn.server_set, none⟩,
    ⟨"client".toList, none, none, "Run as a client".toList, none, SetFn.client_set, none⟩,
    ⟨"quit".toList, none, none, "Tell a server to quit".toList, none, SetFn.quit_set, none⟩,
    ⟨"help".toList, some "h".toList, none, "Print this help message".toList, none, SetFn.help, none⟩ ]

/-- The loop `for (opt = opts; opt->long_option; opt++) if (strcmp(opt->long_option, key) == 0) break;`:
the first row with that long name, `none` when the loop reaches the
terminating row. -/
def find_long_option (key : List Char) : List raspi_config_opt → Option raspi_config_opt
  | [] => none
  | o :: rest => if o.long_option = key then some o else find_long_option key rest

/-- The function `default_set`. -/
def default_set (opt : raspi_config_opt) (value : Option (List Char)) (replace : Int)
    (state : raspijpgs_state) : Result raspijpgs_state :=
  match opt.env_key with
  | none => Result.ok state
  | some env_key =>
    match value with
    | some value => Result.ok { state with env := Libc.setenv state.env env_key value replace }
    | none =>
      if replace ≠ 0 then Result.ok { state with env := Libc.unsetenv state.env env_key }
      else Result.ok state

/-- The function `set_set`: the key before `=` must be a long option name;
the value is appended to the set list after a newline. -/
def set_set (value : List Char) (state : raspijpgs_state) : Result raspijpgs_state :=
  match find_long_option (value.takeWhile (fun c => c ≠ '=')) opts with
  | none => Result.exit state "Unexpected key used in --set. Check help"
  | some _ =>
    match state.setlist with
    | some old_setlist => Result.ok { state with setlist := some (old_setlist ++ '\n' :: value) }
    | none => Result.ok { state with setlist := some value }

/-- Call through the `set` pointer of an option.  The setters other than
`default_set` dereference `value`, so a NULL value crashes them. -/
def call_set (opt : raspi_config_opt) (value : Option (List Char)) (replace : Int)
    (state : raspijpgs_state) : Result raspijpgs_state :=
  match opt.set with
  | SetFn.default_set => default_set opt value replace state
  | SetFn.config_set =>
    match value with
    | some v => Result.ok { state with config_filename := some v }
    | none => Result.exit state "null pointer"
  | SetFn.framing_set =>
    match value with
    | some v => Result.ok { state with framing := some v }
    | none => Result.exit state "null pointer"
  | SetFn.set_set =>
    match value with
    | some v => set_set v state
    | none => Result.exit state "null pointer"
  | SetFn.quit_set => Result.ok { state with count := 0 }
  | SetFn.server_set => Result.ok { state with user_wants_server := 1 }
  | SetFn.client_set => Result.ok { state with user_wants_client := 1 }
  | SetFn.help => Result.ok state

/-- Log a status-returning MMAL call and end the process with `msg` unless it
returned `MMAL_SUCCESS`. -/
def expect_success (hw : Hardware) (c : Call) (msg : String) (state : raspijpgs_state) :
    Result raspijpgs_state :=
  match mmal hw c state with
  | (MMAL_STATUS_T.MMAL_SUCCESS, state) => Result.ok state
  | (_, state) => Result.exit state msg

/-- The creation of the encoder and of the resizer in `start_all`, up to the
first use of the created component: `status = mmal_component_create(...)`, the
test `status != MMAL_SUCCESS && status != MMAL_ENOSYS` with its `errx`, and the
dereference of the component pointer in the statement that follows
(`state.jpegencoder->output[0]`, `state.resizer->output[0]`).  The test lets
`MMAL_ENOSYS` through, but no component was created then and the pointer is
NULL: the dereference ends the process before any other hardware call. -/
def expect_success_or_enosys (hw : Hardware) (c : Call) (msg : String)
    (state : raspijpgs_state) : Result raspijpgs_state :=
  match mmal hw c state with
  | (MMAL_STATUS_T.MMAL_SUCCESS, state) => Result.ok state
  | (MMAL_STATUS_T.MMAL_ENOSYS, state) => Result.exit state "null pointer"
  | (_, state) => Result.exit state msg

/-- Read `getenv(key)` and go on with the string; a NULL result is
dereferenced by the callers, which ends the process. -/
def with_getenv (key : Option (List Char)) (state : raspijpgs_state)
    (f : List Char → Result raspijpgs_state) : Result raspijpgs_state :=
  match key with
  | none => Result.exit state "null pointer"
  | some key =>
    match Libc.getenv state.env key with
    | none => Result.exit state "null pointer"
    | some str => f str

/-- The function `rational_param_apply`. -/
def rational_param_apply (hw : Hardware) (mmal_param : ParameterId) (opt : raspi_config_opt)
    (context : config_context) (state : raspijpgs_state) : Result raspijpgs_state :=
  with_getenv opt.env_key state fun str =>
    let value := Libc.strtoul str
    if value > 100 then
      if context = config_context.config_context_server_start then
        Result.exit state "must be between 0 and 100"
      else
        Result.ok state
    else
      expect_success hw
        (Call.mmal_port_parameter_set (Port.control Component.camera)
          (Parameter.rational mmal_param value 100))
        "Could not set" state

/-- The string comparisons of `exposure_apply`. -/
def exposure_mode_of (str : List Char) : Option MMAL_PARAM_EXPOSUREMODE_T :=
  if str = "off".toList then some MMAL_PARAM_EXPOSUREMODE_T.OFF
  else if str = "auto".toList then some MMAL_PARAM_EXPOSUREMODE_T.AUTO
  else if str = "night".toList then some MMAL_PARAM_EXPOSUREMODE_T.NIGHT
  else if str = "nightpreview".toList then some MMAL_PARAM_EXPOSUREMODE_T.NIGHTPREVIEW
  else if str = "backlight".toList then some MMAL_PARAM_EXPOSUREMODE_T.BACKLIGHT
  else if str = "spotlight".toList then some MMAL_PARAM_EXPOSUREMODE_T.SPOTLIGHT
  else if str = "sports".toList then some MMAL_PARAM_EXPOSUREMODE_T.SPORTS
  else if str = "snow".toList then some MMAL_PARAM_EXPOSUREMODE_T.SNOW
  else if str = "beach".toList then some MMAL_PARAM_EXPOSUREMODE_T.BEACH
  else if str = "verylong".toList then some MMAL_PARAM_EXPOSUREMODE_T.VERYLONG
  else if str = "fixedfps".toList then some MMAL_PARAM_EXPOSUREMODE_T.FIXEDFPS
  else if str = "antishake".toList then some MMAL_PARAM_EXPOSUREMODE_T.ANTISHAKE
  else if str = "fireworks".toList then some MMAL_PARAM_EXPOSUREMODE_T.FIREWORKS
  else none

/-- The string comparisons of `awb_apply`. -/
def awb_mode_of (str : List Char) : Option MMAL_PARAM_AWBMODE_T :=
  if str = "off".toList then some MMAL_PARAM_AWBMODE_T.OFF
  else if str = "auto".toList then some MMAL_PARAM_AWBMODE_T.AUTO
  else if str = "sun".toList then some MMAL_PARAM_AWBMODE_T.SUNLIGHT
  else if str = "cloudy".toList then some MMAL_PARAM_AWBMODE_T.CLOUDY
  else if str = "shade".toList then some MMAL_PARAM_AWBMODE_T.SHADE
  else if str = "tungsten".toList then some MMAL_PARAM_AWBMODE_T.TUNGSTEN
  else if str = "fluorescent".toList then some MMAL_PARAM_AWBMODE_T.FLUORESCENT
  else if str = "incandescent".toList then some MMAL_PARAM_AWBMODE_T.INCANDESCENT
  else if str = "flash".toList then some MMAL_PARAM_AWBMODE_T.FLASH
  else if str = "horizon".toList then some MMAL_PARAM_AWBMODE_T.HORIZON
  else none

/-- The string comparisons of `imxfx_apply`. -/
def imagefx_of (str : List Char) : Option MMAL_PARAM_IMAGEFX_T :=
  if str = "none".toList then some MMAL_PARAM_IMAGEFX_T.NONE
  else if str = "negative".toList then some MMAL_PARAM_IMAGEFX_T.NEGATIVE
  else if str = "solarise".toList then some MMAL_PARAM_IMAGEFX_T.SOLARIZE
  else if str = "sketch".toList then some MMAL_PARAM_IMAGEFX_T.SKETCH
  else if str = "denoise".toList then some MMAL_PARAM_IMAGEFX_T.DENOISE
  else if str = "emboss".toList then some MMAL_PARAM_IMAGEFX_T.EMBOSS
  else if str = "oilpaint".toList then some MMAL_PARAM_IMAGEFX_T.OILPAINT
  else if str = "hatch".toList then some MMAL_PARAM_IMAGEFX_T.HATCH
  else if str = "gpen".toList then some MMAL_PARAM_IMAGEFX_T.GPEN
  else if str = "pastel".toList then some MMAL_PARAM_IMAGEFX_T.PASTEL
  else if str = "watercolour".toList then some MMAL_PARAM_IMAGEFX_T.WATERCOLOUR
  else if str = "film".toList then some MMAL_PARAM_IMAGEFX_T.FILM
  else if str = "blur".toList then some MMAL_PARAM_IMAGEFX_T.BLUR
  else if str = "saturation".toList then some MMAL_PARAM_IMAGEFX_T.SATURATION
  else if str = "colourswap".toList then some MMAL_PARAM_IMAGEFX_T.COLOURSWAP
  else if str = "washedout".toList then some MMAL_PARAM_IMAGEFX_T.WASHEDOUT
  else if str = "posterise".toList then some MMAL_PARAM_IMAGEFX_T.POSTERISE
  else if str = "colourpoint".toList then some MMAL_PARAM_IMAGEFX_T.COLOURPOINT
  else if str = "colourbalance".toList then some MMAL_PARAM_IMAGEFX_T.COLOURBALANCE
  else if str = "cartoon".toList then some MMAL_PARAM_IMAGEFX_T.CARTOON
  else none

/-- The string comparisons of `metering_apply`. -/
def metering_mode_of (str : List Char) : Option MMAL_PARAM_EXPOSUREMETERINGMODE_T :=
  if str = "average".toList then some MMAL_PARAM_EXPOSUREMETERINGMODE_T.AVERAGE
  else if str = "spot".toList then some MMAL_PARAM_EXPOSUREMETERINGMODE_T.SPOT
  else if str = "backlit".toList then some MMAL_PARAM_EXPOSUREMETERINGMODE_T.BACKLIT
  else if str = "matrix".toList then some MMAL_PARAM_EXPOSUREMETERINGMODE_T.MATRIX
  else none

/-- The common shape of `exposure_apply`, `awb_apply`, `imxfx_apply` and
`metering_apply`: an unknown name ends the process in the server-start
context and returns otherwise; a known one is set on the camera control port. -/
def enum_param_apply (hw : Hardware) (param : Option Parameter) (context : config_context)
    (state : raspijpgs_state) : Result raspijpgs_state :=
  match param with
  | none =>
    if context = config_context.config_context_server_start then
      Result.exit state "Invalid"
    else
      Result.ok state
  | some param =>
    expect_success hw (Call.mmal_port_parameter_set (Port.control Component.camera) param)
      "Could not set" state

/-- The function `exposure_apply`. -/
def exposure_apply (hw : Hardware) (opt : raspi_config_opt) (context : config_context)
    (state : raspijpgs_state) : Result raspijpgs_state :=
  with_getenv opt.env_key state fun str =>
    enum_param_apply hw ((exposure_mode_of str).map Parameter.exposure_mode) context state

/-- The function `awb_apply`. -/
def awb_apply (hw : Hardware) (opt : raspi_config_opt) (context : config_context)
    (state : raspijpgs_state) : Result raspijpgs_state :=
  with_getenv opt.env_key state fun str =>
    enum_param_apply hw ((awb_mode_of str).map Parameter.awb_mode) context state

/-- The function `imxfx_apply`. -/
def imxfx_apply (hw : Hardware) (opt : raspi_config_opt) (context : config_context)
    (state : raspijpgs_state) : Result raspijpgs_state :=
  with_getenv opt.env_key state fun str =>
    enum_param_apply hw ((imagefx_of str).map Parameter.image_effect) context state

/-- The function `metering_apply`. -/
def metering_apply (hw : Hardware) (opt : raspi_config_opt) (context : config_context)
    (state : raspijpgs_state) : Result raspijpgs_state :=
  with_getenv opt.env_key state fun str =>
    enum_param_apply hw ((metering_mode_of str).map Parameter.exp_metering_mode) context state

/-- The function `colfx_apply`: the values scanned with `%d` are stored in
the unsigned fields `u` and `v`. -/
def colfx_apply (hw : Hardware) (opt : raspi_config_opt) (state : raspijpgs_state) :
    Result raspijpgs_state :=
  with_getenv opt.env_key state fun str =>
    let r := Libc.sscanf_d_colon_d str
    let u := Libc.to_uint32 r.2.1
    let v := Libc.to_uint32 r.2.2
    let enable : Nat := if r.1 = 2 ∧ u < 256 ∧ v < 256 then 1 else 0
    expect_success hw
      (Call.mmal_port_parameter_set (Port.control Component.camera)
        (Parameter.colour_effect enable u v))
      "Could not set" state

/-- The function `flip_apply`. -/
def flip_apply (hw : Hardware) (state : raspijpgs_state) : Result raspijpgs_state :=
  with_getenv (some RASPIJPGS_HFLIP) state fun hflip =>
    with_getenv (some RASPIJPGS_VFLIP) state fun vflip =>
      let mirror := MMAL_PARAM_MIRROR_T.NONE
      let mirror := if hflip = "on".toList then MMAL_PARAM_MIRROR_T.HORIZONTAL else mirror
      let mirror :=
        if vflip = "on".toList then
          (if mirror = MMAL_PARAM_MIRROR_T.HORIZONTAL then MMAL_PARAM_MIRROR_T.BOTH
            else MMAL_PARAM_MIRROR_T.VERTICAL)
        else mirror
      expect_success hw
        (Call.mmal_port_parameter_set (Port.output0 Component.camera) (Parameter.mirror mirror))
        "Could not set" state

/-- Call through the `apply` pointer of an option. -/
def call_apply (hw : Hardware) (f : ApplyFn) (opt : raspi_config_opt)
    (context : config_context) (state : raspijpgs_state) : Result raspijpgs_state :=
  match f with
  | ApplyFn.width_apply => Result.ok state
  | ApplyFn.annotation_apply => Result.ok state
  | ApplyFn.anno_background_apply => Result.ok state
  | ApplyFn.sharpness_apply => rational_param_apply hw ParameterId.SHARPNESS opt context state
  | ApplyFn.contrast_apply => rational_param_apply hw ParameterId.CONTRAST opt context state
  | ApplyFn.brightness_apply => rational_param_apply hw ParameterId.BRIGHTNESS opt context state
  | ApplyFn.saturation_apply => rational_param_apply hw ParameterId.SATURATION opt context state
  | ApplyFn.ISO_apply =>
    with_getenv opt.env_key state fun str =>
      expect_success hw
        (Call.mmal_port_parameter_set (Port.control Component.camera)
          (Parameter.uint32 ParameterId.ISO (Libc.strtoul str)))
        "Could not set" state
  | ApplyFn.vstab_apply =>
    with_getenv opt.env_key state fun str =>
      expect_success hw
        (Call.mmal_port_parameter_set (Port.control Component.camera)
          (Parameter.uint32 ParameterId.VIDEO_STABILISATION (if str = "on".toList then 1 else 0)))
        "Could not set" state
  | ApplyFn.ev_apply => Result.ok state
  | ApplyFn.exposure_apply => exposure_apply hw opt context state
  | ApplyFn.awb_apply => awb_apply hw opt context state
  | ApplyFn.imxfx_apply => imxfx_apply hw opt context state
  | ApplyFn.colfx_apply => colfx_apply hw opt state
  | ApplyFn.metering_apply => metering_apply hw opt context state
  | ApplyFn.rotation_apply =>
    with_getenv opt.env_key state fun str =>
      expect_success hw
        (Call.mmal_port_parameter_set (Port.output0 Component.camera)
          (Parameter.int32 ParameterId.ROTATION (Libc.to_int32 (Libc.strtol str))))
        "Could not set" state
  | ApplyFn.flip_apply => flip_apply hw state
  | ApplyFn.roi_apply => Result.ok state
  | ApplyFn.shutter_apply =>
    with_getenv opt.env_key state fun str =>
      expect_success hw
        (Call.mmal_port_parameter_set (Port.control Component.camera)
          (Parameter.uint32 ParameterId.SHUTTER_SPEED
            (Libc.to_uint32 (Libc.to_int32 (Libc.strtoul str)))))
        "Could not set" state
  | ApplyFn.quality_apply => Result.ok state
  | ApplyFn.count_apply =>
    with_getenv opt.env_key state fun str =>
      Result.ok { state with count := Libc.to_int32 (Libc.strtol str) }

/-- The function `fillin_defaults`, over the rows from `os` on. -/
def fillin_defaults_from (os : List raspi_config_opt) (state : raspijpgs_state) :
    raspijpgs_state :=
  match os with
  | [] => state
  | opt :: rest =>
    match opt.env_key, opt.default_value with
    | some env_key, some default_value =>
      fillin_defaults_from rest
        { state with env := Libc.setenv state.env env_key default_value 0 }
    | _, _ => fillin_defaults_from rest state

/-- The function `fillin_defaults`. -/
def fillin_defaults (state : raspijpgs_state) : raspijpgs_state :=
  fillin_defaults_from opts state

/-- The loop of `apply_parameters`, over the rows from `os` on. -/
def apply_parameters_from (hw : Hardware) (context : config_context)
    (os : List raspi_config_opt) (state : raspijpgs_state) : Result raspijpgs_state :=
  match os with
  | [] => Result.ok state
  | opt :: rest =>
    match opt.apply with
    | some f => (call_apply hw f opt context (warnx "apply" state)).andThen
        (apply_parameters_from hw context rest)
    | none => apply_parameters_from hw context rest (warnx "apply" state)

/-- The function `apply_parameters`. -/
def apply_parameters (hw : Hardware) (context : config_context) (state : raspijpgs_state) :
    Result raspijpgs_state :=
  apply_parameters_from hw context opts state

/-- The function `trim_whitespace`: the string without the white space at
its beginning and at its end. -/
def trim_whitespace (s : List Char) : List Char :=
  ((s.dropWhile Libc.isspace).reverse.dropWhile Libc.isspace).reverse

/-- The text processing at the head of `parse_config_line`: cut at the first
`#`, trim, and split at the first `=` into key and value; without `=` the
value is `on`.  The result is `none` when nothing is left of the line. -/
def split_config_line (line : List Char) : Option (List Char × List Char) :=
  let str := trim_whitespace (line.takeWhile (fun c => c ≠ '#'))
  if str = [] then none
  else if '=' ∈ str then
    some (trim_whitespace (str.takeWhile (fun c => c ≠ '=')),
      trim_whitespace ((str.dropWhile (fun c => c ≠ '=')).drop 1))
  else some (str, "on".toList)

/-- The function `parse_config_line`. -/
def parse_config_line (hw : Hardware) (line : List Char) (context : config_context)
    (state : raspijpgs_state) : Result raspijpgs_state :=
  match split_config_line line with
  | none => Result.ok state
  | some (key, value) =>
    match find_long_option key opts with
    | none =>
      -- Error out if we're parsing a file; otherwise ignore the bad option
      if context = config_context.config_context_file then
        Result.exit state "Unknown option in file"
      else
        Result.ok state
    | some opt =>
      match context with
      | config_context.config_context_file => call_set opt (some value) 0 state
      | config_context.config_context_client_request =>
        (call_set opt (some value) 1 state).andThen fun state =>
          match opt.apply with
          | some f => call_apply hw f opt context state
          | none => Result.ok state
      | config_context.config_context_server_start => Result.ok state

/-! ### Building and tearing down the pipeline (raspijpgs.c) -/

/-- Log a status-returning MMAL call whose status the caller ignores. -/
def ignore_status (hw : Hardware) (c : Call) (state : raspijpgs_state) :
    Result raspijpgs_state :=
  Result.ok (mmal hw c state).2

/-- Record that `start_all` or `stop_all` was entered. -/
def invoke (function : String) (state : raspijpgs_state) : raspijpgs_state :=
  { state with trace := state.trace ++ [Event.invoke function] }

/-- The resizer output height computed by `start_all`:
`(unsigned long) width * video_height / video_width`, rounded down to a
multiple of 16, in the arithmetic of `unsigned long`. -/
def height_temp (width : Int) (video_height video_width : Nat) : Nat :=
  let h := (Libc.to_uint32 width * video_height) % 2 ^ Libc.LONG_BITS / video_width
  h - h % 16

/-- The loop at the end of `start_all` that sends `n` pool buffers to the
encoder output port. -/
def send_pool_buffers (hw : Hardware) : Nat → raspijpgs_state → Result raspijpgs_state
  | 0, state => Result.ok state
  | n + 1, state =>
    match mmal_queue_get hw state with
    | (none, state) => Result.exit state "Could not create jpeg buffer header"
    | (some jpegbuffer, state) =>
      (expect_success hw (Call.mmal_port_send_buffer (Port.output0 Component.jpegencoder) jpegbuffer)
        "Could not send buffers to jpeg port" state).andThen (send_pool_buffers hw n)

/-- The call `mmal_queue_length(state.pool_jpegencoder->queue)`, stored in the
`int max`. -/
def mmal_queue_length (hw : Hardware) (state : raspijpgs_state) : Int × raspijpgs_state :=
  (Libc.to_int32 (hw.queue_length state.trace.length),
    { state with trace := state.trace ++
        [Event.call (Call.mmal_queue_length (hw.queue_length state.trace.length))
          MMAL_STATUS_T.MMAL_SUCCESS] })

/-- The function `start_all` of raspijpgs.c. -/
def start_all (hw : Hardware) (state : raspijpgs_state) : Result raspijpgs_state :=
  let video_width := 1920
  let video_height := 1080
  -- create camera
  (expect_success hw (Call.mmal_component_create Component.camera)
    "Could not create camera" (invoke "start_all" state)).andThen fun state =>
  (expect_success hw (Call.mmal_port_enable (Port.control Component.camera))
    "Could not enable camera control port" state).andThen fun state =>
  (ignore_status hw (Call.mmal_port_parameter_set (Port.control Component.camera)
    (Parameter.camera_config 2592 1944 video_width video_height)) state).andThen fun state =>
  (expect_success hw (Call.mmal_port_format_commit (Port.output0 Component.camera)
    (Format.video video_width video_height 0 0 video_width video_height 0 1))
    "Coult not set preview format" state).andThen fun state =>
  (expect_success hw (Call.mmal_component_enable Component.camera)
    "Could not enable camera" state).andThen fun state =>
  -- create jpeg-encoder
  (expect_success_or_enosys hw (Call.mmal_component_create Component.jpegencoder)
    "Could not create image encoder" state).andThen fun state =>
  (ignore_status hw Call.mmal_format_copy state).andThen fun state =>
  (expect_success hw (Call.mmal_port_format_commit (Port.output0 Component.jpegencoder)
    Format.jpeg) "Could not set image format" state).andThen fun state =>
  (with_getenv (some RASPIJPGS_QUALITY) state fun str =>
    expect_success hw (Call.mmal_port_parameter_set (Port.output0 Component.jpegencoder)
      (Parameter.uint32 ParameterId.JPEG_Q_FACTOR
        (Libc.to_uint32 (Libc.to_int32 (Libc.strtol str)))))
      "Could not set jpeg quality" state).andThen fun state =>
  (expect_success hw (Call.mmal_component_enable Component.jpegencoder)
    "Could not enable image encoder" state).andThen fun state =>
  (expect_success hw (Call.mmal_port_pool_create (Port.output0 Component.jpegencoder))
    "Could not create image buffer pool" state).andThen fun state =>
  -- create image-resizer
  (with_getenv (some RASPIJPGS_WIDTH) state fun str =>
    let width := Libc.to_int32 (Libc.strtol str)
    (expect_success_or_enosys hw (Call.mmal_component_create Component.resizer)
      "Could not create image resizer" state).andThen fun state =>
    expect_success hw (Call.mmal_port_format_commit (Port.output0 Component.resizer)
      (Format.video (Libc.to_uint32 width) (height_temp width video_height video_width) 0 0
        (Libc.to_uint32 width) (height_temp width video_height video_width) 30 1))
      "Could not set image resizer output" state).andThen fun state =>
  (expect_success hw (Call.mmal_component_enable Component.resizer)
    "Could not enable image resizer" state).andThen fun state =>
  -- connect
  (expect_success hw (Call.mmal_connection_create Connection.con_cam_res)
    "Could not create connection camera -> resizer" state).andThen fun state =>
  (expect_success hw (Call.mmal_connection_enable Connection.con_cam_res)
    "Could not enable connection camera -> resizer" state).andThen fun state =>
  (expect_success hw (Call.mmal_connection_create Connection.con_res_jpeg)
    "Could not create connection resizer -> encoder" state).andThen fun state =>
  (expect_success hw (Call.mmal_connection_enable Connection.con_res_jpeg)
    "Could not enable connection resizer -> encoder" state).andThen fun state =>
  (expect_success hw (Call.mmal_port_enable (Port.output0 Component.jpegencoder))
    "Could not enable jpeg port" state).andThen fun state =>
  send_pool_buffers hw (mmal_queue_length hw state).1.toNat (mmal_queue_length hw state).2

/-- The function `stop_all` of raspijpgs.c; none of the returned statuses is
looked at. -/
def stop_all (hw : Hardware) (state : raspijpgs_state) : raspijpgs_state :=
  let state := invoke "stop_all" state
  let state := (mmal hw (Call.mmal_port_disable (Port.output0 Component.jpegencoder)) state).2
  let state := (mmal hw (Call.mmal_connection_destroy Connection.con_cam_res) state).2
  let state := (mmal hw (Call.mmal_connection_destroy Connection.con_res_jpeg) state).2
  let state := mmal_void (Call.mmal_port_pool_destroy (Port.output0 Component.jpegencoder)) state
  let state := (mmal hw (Call.mmal_component_disable Component.jpegencoder) state).2
  let state := (mmal hw (Call.mmal_component_disable Component.camera) state).2
  let state := (mmal hw (Call.mmal_component_destroy Component.jpegencoder) state).2
  let state := (mmal hw (Call.mmal_component_destroy Component.camera) state).2
  state

/-- The frames handed to `distribute_jpeg`, in order. -/
def distributed : List Event → List (List Nat)
  | [] => []
  | Event.distribute_jpeg frame :: rest => frame :: distributed rest
  | _ :: rest => distributed rest

/-- The main loop serving the internal pipe: `server_service_mmal` run once
for each delivered message, as long as the process has not exited. -/
def server_service_mmal_all (hw : Hardware) :
    List (MMAL_PORT_T × MMAL_BUFFER_HEADER_T) → raspijpgs_state → Result raspijpgs_state
  | [], state => Result.ok state
  | msg :: rest, state =>
    (jpegencoder_buffer_callback_impl hw (some msg) state).andThen
      (server_service_mmal_all hw rest)

end Raspijpgs

/-! ## RaspiMJPEG.c -/

namespace RaspiMJPEG

/-- The global variables of RaspiMJPEG.c, the 60-byte `readbuf` of `main`
(its content survives from one loop iteration to the next) and the trace of
observable events.  `jpegoutput_file` holds the name under which the open
file was opened, `none` is NULL. -/
structure RaspiMJPEG_state where
  jpegoutput_file : Option (List Char)
  width : Nat
  image_cnt : Nat
  cam_setting_sharpness : Nat
  cam_setting_contrast : Nat
  cam_setting_brightness : Nat
  cam_setting_saturation : Nat
  cam_setting_iso : Nat
  cam_setting_vs : Nat
  cam_setting_ec : Nat
  cam_setting_rotation : Nat
  cam_setting_quality : Nat
  cam_setting_ce_en : Nat
  cam_setting_ce_u : Nat
  cam_setting_ce_v : Nat
  cam_setting_hflip : Nat
  cam_setting_vflip : Nat
  cam_setting_annback : Nat
  cam_setting_em : List Char
  cam_setting_wb : List Char
  cam_setting_ie : List Char
  cam_setting_mm : List Char
  cam_setting_roi_x : Nat
  cam_setting_roi_y : Nat
  cam_setting_roi_w : Nat
  cam_setting_roi_h : Nat
  cam_setting_ss : Nat
  video_width : Nat
  video_height : Nat
  image_width : Nat
  image_height : Nat
  jpeg_filename : Option (List Char)
  pipe_filename : Option (List Char)
  cam_setting_annotation : Option (List Char)
  running : Nat
  quality : Nat
  readbuf : List Char
  trace : List Event

/-- The initial values of the globals; `garbage` is the uninitialised
content of `readbuf`. -/
def initial_state (garbage : List Char) : RaspiMJPEG_state where
  jpegoutput_file := none
  width := 320
  image_cnt := 0
  cam_setting_sharpness := 0
  cam_setting_contrast := 0
  cam_setting_brightness := 50
  cam_setting_saturation := 0
  cam_setting_iso := 0
  cam_setting_vs := 0
  cam_setting_ec := 0
  cam_setting_rotation := 0
  cam_setting_quality := 85
  cam_setting_ce_en := 0
  cam_setting_ce_u := 128
  cam_setting_ce_v := 128
  cam_setting_hflip := 0
  cam_setting_vflip := 0
  cam_setting_annback := 0
  cam_setting_em := "auto".toList
  cam_setting_wb := "auto".toList
  cam_setting_ie := "none".toList
  cam_setting_mm := "average".toList
  cam_setting_roi_x := 0
  cam_setting_roi_y := 0
  cam_setting_roi_w := 65536
  cam_setting_roi_h := 65536
  cam_setting_ss := 0
  video_width := 1920
  video_height := 1080
  image_width := 2592
  image_height := 1944
  jpeg_filename := none
  pipe_filename := none
  cam_setting_annotation := none
  running := 1
  quality := 85
  readbuf := garbage
  trace := []

/-- Log an MMAL call whose status the oracle decides; returns the status. -/
def mmal (hw : Hardware) (c : Call) (state : RaspiMJPEG_state) :
    MMAL_STATUS_T × RaspiMJPEG_state :=
  (hw.status state.trace.length,
    { state with trace := state.trace ++ [Event.call c (hw.status state.trace.length)] })

/-- Log an MMAL call that returns nothing. -/
def mmal_void (c : Call) (state : RaspiMJPEG_state) : RaspiMJPEG_state :=
  { state with trace := state.trace ++ [Event.call c MMAL_STATUS_T.MMAL_SUCCESS] }

/-- The call `mmal_queue_get(pool_jpegencoder->queue)`. -/
def mmal_queue_get (hw : Hardware) (state : RaspiMJPEG_state) :
    Option Nat × RaspiMJPEG_state :=
  (hw.queue_get state.trace.length,
    { state with trace := state.trace ++
        [Event.call (Call.mmal_queue_get (hw.queue_get state.trace.length))
          MMAL_STATUS_T.MMAL_SUCCESS] })

/-- Append an event to the trace. -/
def log (e : Event) (state : RaspiMJPEG_state) : RaspiMJPEG_state :=
  { state with trace := state.trace ++ [e] }

/-- Log a status-returning MMAL call and end the process with `msg` unless it
returned `MMAL_SUCCESS`. -/
def expect_success (hw : Hardware) (c : Call) (msg : String) (state : RaspiMJPEG_state) :
    Result RaspiMJPEG_state :=
  match mmal hw c state with
  | (MMAL_STATUS_T.MMAL_SUCCESS, state) => Result.ok state
  | (_, state) => Result.exit state msg

/-- The creation of the encoder and of the resizer in `start_all`, up to the
first use of the created component: `status = mmal_component_create(...)`, the
test `status != MMAL_SUCCESS && status != MMAL_ENOSYS` with its `errx`, and the
dereference of the component pointer in the statement that follows
(`jpegencoder->output[0]`, `resizer->output[0]`).  The test lets `MMAL_ENOSYS`
through, but no component was created then and the pointer is NULL: the
dereference ends the process before any other hardware call. -/
def expect_success_or_enosys (hw : Hardware) (c : Call) (msg : String)
    (state : RaspiMJPEG_state) : Result RaspiMJPEG_state :=
  match mmal hw c state with
  | (MMAL_STATUS_T.MMAL_SUCCESS, state) => Result.ok state
  | (MMAL_STATUS_T.MMAL_ENOSYS, state) => Result.exit state "null pointer"
  | (_, state) => Result.exit state msg

/-- Log a status-returning MMAL call whose status the caller ignores. -/
def ignore_status (hw : Hardware) (c : Call) (state : RaspiMJPEG_state) :
    Result RaspiMJPEG_state :=
  Result.ok (mmal hw c state).2

def cam_set_sharpness (hw : Hardware) (state : RaspiMJPEG_state) : Result RaspiMJPEG_state :=
  expect_success hw (Call.mmal_port_parameter_set (Port.control Component.camera)
    (Parameter.rational ParameterId.SHARPNESS (Libc.to_int32 state.cam_setting_sharpness) 100))
    "Could not set sharpness" state

def cam_set_contrast (hw : Hardware) (state : RaspiMJPEG_state) : Result RaspiMJPEG_state :=
  expect_success hw (Call.mmal_port_parameter_set (Port.control Component.camera)
    (Parameter.rational ParameterId.CONTRAST (Libc.to_int32 state.cam_setting_contrast) 100))
    "Could not set contrast" state

def cam_set_brightness (hw : Hardware) (state : RaspiMJPEG_state) : Result RaspiMJPEG_state :=
  expect_success hw (Call.mmal_port_parameter_set (Port.control Component.camera)
    (Parameter.rational ParameterId.BRIGHTNESS (Libc.to_int32 state.cam_setting_brightness) 100))
    "Could not set brightness" state

def cam_set_saturation (hw : Hardware) (state : RaspiMJPEG_state) : Result RaspiMJPEG_state :=
  expect_success hw (Call.mmal_port_parameter_set (Port.control Component.camera)
    (Parameter.rational ParameterId.SATURATION (Libc.to_int32 state.cam_setting_saturation) 100))
    "Could not set saturation" state

def cam_set_iso (hw : Hardware) (state : RaspiMJPEG_state) : Result RaspiMJPEG_state :=
  expect_success hw (Call.mmal_port_parameter_set (Port.control Component.camera)
    (Parameter.uint32 ParameterId.ISO state.cam_setting_iso))
    "Could not set ISO" state

def cam_set_vs (hw : Hardware) (state : RaspiMJPEG_state) : Result RaspiMJPEG_state :=
  expect_success hw (Call.mmal_port_parameter_set (Port.control Component.camera)
    (Parameter.boolean ParameterId.VIDEO_STABILISATION state.cam_setting_vs))
    "Could not set video stabilisation" state

def cam_set_ec (hw : Hardware) (state : RaspiMJPEG_state) : Result RaspiMJPEG_state :=
  expect_success hw (Call.mmal_port_parameter_set (Port.control Component.camera)
    (Parameter.int32 ParameterId.EXPOSURE_COMP (Libc.to_int32 state.cam_setting_ec)))
    "Could not set exposure compensation" state

/-- The string comparisons of `cam_set_em`. -/
def exposure_mode_of (str : List Char) : Option MMAL_PARAM_EXPOSUREMODE_T :=
  if str = "off".toList then some MMAL_PARAM_EXPOSUREMODE_T.OFF
  else if str = "auto".toList then some MMAL_PARAM_EXPOSUREMODE_T.AUTO
  else if str = "night".toList then some MMAL_PARAM_EXPOSUREMODE_T.NIGHT
  else if str = "nightpreview".toList then some MMAL_PARAM_EXPOSUREMODE_T.NIGHTPREVIEW
  else if str = "backlight".toList then some MMAL_PARAM_EXPOSUREMODE_T.BACKLIGHT
  else if str = "spotlight".toList then some MMAL_PARAM_EXPOSUREMODE_T.SPOTLIGHT
  else if str = "sports".toList then some MMAL_PARAM_EXPOSUREMODE_T.SPORTS
  else if str = "snow".toList then some MMAL_PARAM_EXPOSUREMODE_T.SNOW
  else if str = "beach".toList then some MMAL_PARAM_EXPOSUREMODE_T.BEACH
  else if str = "verylong".toList then some MMAL_PARAM_EXPOSUREMODE_T.VERYLONG
  else if str = "fixedfps".toList then some MMAL_PARAM_EXPOSUREMODE_T.FIXEDFPS
  else if str = "antishake".toList then some MMAL_PARAM_EXPOSUREMODE_T.ANTISHAKE
  else if str = "fireworks".toList then some MMAL_PARAM_EXPOSUREMODE_T.FIREWORKS
  else none

/-- The string comparisons of `cam_set_wb`. -/
def awb_mode_of (str : List Char) : Option MMAL_PARAM_AWBMODE_T :=
  if str = "off".toList then some MMAL_PARAM_AWBMODE_T.OFF
  else if str = "auto".toList then some MMAL_PARAM_AWBMODE_T.AUTO
  else if str = "sun".toList then some MMAL_PARAM_AWBMODE_T.SUNLIGHT
  else if str = "cloudy".toList then some MMAL_PARAM_AWBMODE_T.CLOUDY
  else if str = "shade".toList then some MMAL_PARAM_AWBMODE_T.SHADE
  else if str = "tungsten".toList then some MMAL_PARAM_AWBMODE_T.TUNGSTEN
  else if str = "fluorescent".toList then some MMAL_PARAM_AWBMODE_T.FLUORESCENT
  else if str = "incandescent".toList then some MMAL_PARAM_AWBMODE_T.INCANDESCENT
  else if str = "flash".toList then some MMAL_PARAM_AWBMODE_T.FLASH
  else if str = "horizon".toList then some MMAL_PARAM_AWBMODE_T.HORIZON
  else none

/-- The string comparisons of `cam_set_mm`. -/
def metering_mode_of (str : List Char) : Option MMAL_PARAM_EXPOSUREMETERINGMODE_T :=
  if str = "average".toList then some MMAL_PARAM_EXPOSUREMETERINGMODE_T.AVERAGE
  else if str = "spot".toList then some MMAL_PARAM_EXPOSUREMETERINGMODE_T.SPOT
  else if str = "backlit".toList then some MMAL_PARAM_EXPOSUREMETERINGMODE_T.BACKLIT
  else if str = "matrix".toList then some MMAL_PARAM_EXPOSUREMETERINGMODE_T.MATRIX
  else none

/-- The string comparisons of `cam_set_ie`. -/
def imagefx_of (str : List Char) : Option MMAL_PARAM_IMAGEFX_T :=
  if str = "none".toList then some MMAL_PARAM_IMAGEFX_T.NONE
  else if str = "negative".toList then some MMAL_PARAM_IMAGEFX_T.NEGATIVE
  else if str = "solarise".toList then some MMAL_PARAM_IMAGEFX_T.SOLARIZE
  else if str = "sketch".toList then some MMAL_PARAM_IMAGEFX_T.SKETCH
  else if str = "denoise".toList then some MMAL_PARAM_IMAGEFX_T.DENOISE
  else if str = "emboss".toList then some MMAL_PARAM_IMAGEFX_T.EMBOSS
  else if str = "oilpaint".toList then some MMAL_PARAM_IMAGEFX_T.OILPAINT
  else if str = "hatch".toList then some MMAL_PARAM_IMAGEFX_T.HATCH
  else if str = "gpen".toList then some MMAL_PARAM_IMAGEFX_T.GPEN
  else if str = "pastel".toList then some MMAL_PARAM_IMAGEFX_T.PASTEL
  else if str = "watercolour".toList then some MMAL_PARAM_IMAGEFX_T.WATERCOLOUR
  else if str = "film".toList then some MMAL_PARAM_IMAGEFX_T.FILM
  else if str = "blur".toList then some MMAL_PARAM_IMAGEFX_T.BLUR
  else if str = "saturation".toList then some MMAL_PARAM_IMAGEFX_T.SATURATION
  else if str = "colourswap".toList then some MMAL_PARAM_IMAGEFX_T.COLOURSWAP
  else if str = "washedout".toList then some MMAL_PARAM_IMAGEFX_T.WASHEDOUT
  else if str = "posterise".toList then some MMAL_PARAM_IMAGEFX_T.POSTERISE
  else if str = "colourpoint".toList then some MMAL_PARAM_IMAGEFX_T.COLOURPOINT
  else if str = "colourbalance".toList then some MMAL_PARAM_IMAGEFX_T.COLOURBALANCE
  else if str = "cartoon".toList then some MMAL_PARAM_IMAGEFX_T.CARTOON
  else none

def cam_set_em (hw : Hardware) (state : RaspiMJPEG_state) : Result RaspiMJPEG_state :=
  match exposure_mode_of state.cam_setting_em with
  | none => Result.exit state "Invalid exposure mode"
  | some mode =>
    expect_success hw (Call.mmal_port_parameter_set (Port.control Component.camera)
      (Parameter.exposure_mode mode)) "Could not set exposure mode" state

def cam_set_wb (hw : Hardware) (state : RaspiMJPEG_state) : Result RaspiMJPEG_state :=
  match awb_mode_of state.cam_setting_wb with
  | none => Result.exit state "Invalid white balance"
  | some awb_mode =>
    expect_success hw (Call.mmal_port_parameter_set (Port.control Component.camera)
      (Parameter.awb_mode awb_mode)) "Could not set white balance" state

def cam_set_mm (hw : Hardware) (state : RaspiMJPEG_state) : Result RaspiMJPEG_state :=
  match metering_mode_of state.cam_setting_mm with
  | none => Result.exit state "Invalid metering mode"
  | some m_mode =>
    expect_success hw (Call.mmal_port_parameter_set (Port.control Component.camera)
      (Parameter.exp_metering_mode m_mode)) "Could not set metering mode" state

def cam_set_ie (hw : Hardware) (state : RaspiMJPEG_state) : Result RaspiMJPEG_state :=
  match imagefx_of state.cam_setting_ie with
  | none => Result.exit state "Invalid image effect"
  | some imageFX =>
    expect_success hw (Call.mmal_port_parameter_set (Port.control Component.camera)
      (Parameter.image_effect imageFX)) "Could not set image effect" state

def cam_set_ce (hw : Hardware) (state : RaspiMJPEG_state) : Result RaspiMJPEG_state :=
  expect_success hw (Call.mmal_port_parameter_set (Port.control Component.camera)
    (Parameter.colour_effect state.cam_setting_ce_en state.cam_setting_ce_u
      state.cam_setting_ce_v))
    "Could not set exposure compensation" state

def cam_set_rotation (hw : Hardware) (state : RaspiMJPEG_state) : Result RaspiMJPEG_state :=
  expect_success hw (Call.mmal_port_parameter_set (Port.output0 Component.camera)
    (Parameter.int32 ParameterId.ROTATION (Libc.to_int32 state.cam_setting_rotation)))
    "Could not set rotation (0)" state

def cam_set_flip (hw : Hardware) (state : RaspiMJPEG_state) : Result RaspiMJPEG_state :=
  let mirror :=
    if state.cam_setting_hflip ≠ 0 ∧ state.cam_setting_vflip ≠ 0 then MMAL_PARAM_MIRROR_T.BOTH
    else if state.cam_setting_hflip ≠ 0 then MMAL_PARAM_MIRROR_T.HORIZONTAL
    else if state.cam_setting_vflip ≠ 0 then MMAL_PARAM_MIRROR_T.VERTICAL
    else MMAL_PARAM_MIRROR_T.NONE
  expect_success hw (Call.mmal_port_parameter_set (Port.output0 Component.camera)
    (Parameter.mirror mirror)) "Could not set flip (0)" state

def cam_set_roi (hw : Hardware) (state : RaspiMJPEG_state) : Result RaspiMJPEG_state :=
  expect_success hw (Call.mmal_port_parameter_set (Port.control Component.camera)
    (Parameter.input_crop (Libc.to_int32 state.cam_setting_roi_x)
      (Libc.to_int32 state.cam_setting_roi_y) (Libc.to_int32 state.cam_setting_roi_w)
      (Libc.to_int32 state.cam_setting_roi_h)))
    "Could not set sensor area" state

def cam_set_ss (hw : Hardware) (state : RaspiMJPEG_state) : Result RaspiMJPEG_state :=
  expect_success hw (Call.mmal_port_parameter_set (Port.control Component.camera)
    (Parameter.uint32 ParameterId.SHUTTER_SPEED state.cam_setting_ss))
    "Could not set shutter speed" state

/-- The function `cam_set_annotation`; the text is made by the operating
system from the template and the local time. -/
def cam_set_annotation (hw : Hardware) (os : Libc.OS) (state : RaspiMJPEG_state) :
    Result RaspiMJPEG_state :=
  match state.cam_setting_annotation with
  | some template =>
    expect_success hw (Call.mmal_port_parameter_set (Port.control Component.camera)
      (Parameter.annotate 1 (os.annotation_text state.trace.length template)
        state.cam_setting_annback))
      "Could not set annotation" state
  | none =>
    expect_success hw (Call.mmal_port_parameter_set (Port.control Component.camera)
      (Parameter.annotate 0 [] state.cam_setting_annback))
      "Could not set annotation" state

/-- Lines 133-143 of `jpegencoder_buffer_callback`: release the buffer and,
if the port is enabled, take a buffer from the pool queue and send it to the
port. -/
def release_and_resubmit (hw : Hardware) (port : MMAL_PORT_T)
    (buffer : MMAL_BUFFER_HEADER_T) (state : RaspiMJPEG_state) :
    Result RaspiMJPEG_state :=
  let state := mmal_void (Call.mmal_buffer_header_release buffer.handle) state
  if port.is_enabled then
    match mmal_queue_get hw state with
    | (none, state) => Result.exit state "Could not send buffers to port"
    | (some new_buffer, state) =>
      match mmal hw (Call.mmal_port_send_buffer port.id new_buffer) state with
      | (MMAL_STATUS_T.MMAL_SUCCESS, state) => Result.ok state
      | (_, state) => Result.exit state "Could not send buffers to port"
  else
    Result.ok state

/-- Lines 104-132 of `jpegencoder_buffer_callback`: open the output file if
none is open, write the payload, and at a frame end close and rename the file,
count the image and refresh the annotation. -/
def write_payload (hw : Hardware) (os : Libc.OS) (buffer : MMAL_BUFFER_HEADER_T)
    (state : RaspiMJPEG_state) : Result RaspiMJPEG_state :=
  (match state.jpegoutput_file with
    | some _ => Result.ok state
    | none =>
      match state.jpeg_filename with
      | none => Result.exit state "null pointer"
      | some jpeg_filename =>
        let filename_temp2 := os.asprintf jpeg_filename state.image_cnt ++ ".part".toList
        if os.fopen_ok state.trace.length then
          Result.ok { log (Event.fopen filename_temp2 true) state with
            jpegoutput_file := some filename_temp2 }
        else
          Result.exit (log (Event.fopen filename_temp2 false) state)
            "Could not open mjpeg-destination").andThen fun state =>
  (if buffer.length ≠ 0 then
      let state := (mmal hw (Call.mmal_buffer_header_mem_lock buffer.handle) state).2
      let bytes_written := os.fwrite state.trace.length buffer.length
      let state := log (Event.fwrite buffer.data bytes_written) state
      let state := mmal_void (Call.mmal_buffer_header_mem_unlock buffer.handle) state
      if bytes_written ≠ buffer.length then Result.exit state "Could not write all bytes"
      else Result.ok state
    else Result.ok state).andThen fun state =>
  if buffer.frame_end then
    match state.jpeg_filename with
    | none => Result.exit state "null pointer"
    | some jpeg_filename =>
      let filename_temp := os.asprintf jpeg_filename state.image_cnt
      let filename_temp2 := filename_temp ++ ".part".toList
      let state := log (Event.fclose (state.jpegoutput_file.getD [])) state
      let state := { state with jpegoutput_file := none }
      let state := log (Event.rename filename_temp2 filename_temp) state
      let state := { state with image_cnt := (state.image_cnt + 1) % 2 ^ 32 }
      cam_set_annotation hw os state
  else
    Result.ok state

/-- The function `jpegencoder_buffer_callback` of RaspiMJPEG.c. -/
def jpegencoder_buffer_callback (hw : Hardware) (os : Libc.OS) (port : MMAL_PORT_T)
    (buffer : MMAL_BUFFER_HEADER_T) (state : RaspiMJPEG_state) : Result RaspiMJPEG_state :=
  (write_payload hw os buffer state).andThen (release_and_resubmit hw port buffer)

/-! ### Building and tearing down the pipeline (RaspiMJPEG.c) -/

/-- The loop of `start_all` that sends `n` pool buffers to the encoder
output port. -/
def send_pool_buffers (hw : Hardware) : Nat → RaspiMJPEG_state → Result RaspiMJPEG_state
  | 0, state => Result.ok state
  | n + 1, state =>
    match mmal_queue_get hw state with
    | (none, state) => Result.exit state "Could not create jpeg buffer header"
    | (some jpegbuffer, state) =>
      (expect_success hw (Call.mmal_port_send_buffer (Port.output0 Component.jpegencoder) jpegbuffer)
        "Could not send buffers to jpeg port" state).andThen (send_pool_buffers hw n)

/-- The call `mmal_queue_length(pool_jpegencoder->queue)`, stored in the
`int max`. -/
def mmal_queue_length (hw : Hardware) (state : RaspiMJPEG_state) : Int × RaspiMJPEG_state :=
  (Libc.to_int32 (hw.queue_length state.trace.length),
    { state with trace := state.trace ++
        [Event.call (Call.mmal_queue_length (hw.queue_length state.trace.length))
          MMAL_STATUS_T.MMAL_SUCCESS] })

/-- The resizer output height computed by `start_all`:
`(unsigned long int) width * video_height / video_width`, rounded down to a
multiple of 16. -/
def height_temp (width video_height video_width : Nat) : Nat :=
  let h := (width * video_height) % 2 ^ Libc.LONG_BITS / video_width
  h - h % 16

/-- The function `start_all` of RaspiMJPEG.c. -/
def start_all (hw : Hardware) (os : Libc.OS) (state : RaspiMJPEG_state) :
    Result RaspiMJPEG_state :=
  -- create camera
  (expect_success hw (Call.mmal_component_create Component.camera)
    "Could not create camera" (log (Event.invoke "start_all") state)).andThen fun state =>
  (expect_success hw (Call.mmal_port_enable (Port.control Component.camera))
    "Could not enable camera control port" state).andThen fun state =>
  (ignore_status hw (Call.mmal_port_parameter_set (Port.control Component.camera)
    (Parameter.camera_config state.image_width state.image_height state.video_width
      state.video_height)) state).andThen fun state =>
  (expect_success hw (Call.mmal_port_format_commit (Port.output0 Component.camera)
    (Format.video state.video_width state.video_height 0 0 state.video_width
      state.video_height 0 1))
    "Coult not set preview format" state).andThen fun state =>
  (expect_success hw (Call.mmal_component_enable Component.camera)
    "Could not enable camera" state).andThen fun state =>
  -- create jpeg-encoder
  (expect_success_or_enosys hw (Call.mmal_component_create Component.jpegencoder)
    "Could not create image encoder" state).andThen fun state =>
  (ignore_status hw Call.mmal_format_copy state).andThen fun state =>
  (expect_success hw (Call.mmal_port_format_commit (Port.output0 Component.jpegencoder)
    Format.jpeg) "Could not set image format" state).andThen fun state =>
  (expect_success hw (Call.mmal_port_parameter_set (Port.output0 Component.jpegencoder)
    (Parameter.uint32 ParameterId.JPEG_Q_FACTOR state.quality))
    "Could not set jpeg quality" state).andThen fun state =>
  (expect_success hw (Call.mmal_component_enable Component.jpegencoder)
    "Could not enable image encoder" state).andThen fun state =>
  (expect_success hw (Call.mmal_port_pool_create (Port.output0 Component.jpegencoder))
    "Could not create image buffer pool" state).andThen fun state =>
  -- create image-resizer
  (if state.video_width = 0 then Result.exit state "division by zero"
    else Result.ok state).andThen fun state =>
  (expect_success_or_enosys hw (Call.mmal_component_create Component.resizer)
    "Could not create image resizer" state).andThen fun state =>
  (expect_success hw (Call.mmal_port_format_commit (Port.output0 Component.resizer)
    (Format.video state.width (height_temp state.width state.video_height state.video_width)
      0 0 state.width (height_temp state.width state.video_height state.video_width) 30 1))
    "Could not set image resizer output" state).andThen fun state =>
  (expect_success hw (Call.mmal_component_enable Component.resizer)
    "Could not enable image resizer" state).andThen fun state =>
  -- connect
  (expect_success hw (Call.mmal_connection_create Connection.con_cam_res)
    "Could not create connection camera -> resizer" state).andThen fun state =>
  (expect_success hw (Call.mmal_connection_enable Connection.con_cam_res)
    "Could not enable connection camera -> resizer" state).andThen fun state =>
  (expect_success hw (Call.mmal_connection_create Connection.con_res_jpeg)
    "Could not create connection resizer -> encoder" state).andThen fun state =>
  (expect_success hw (Call.mmal_connection_enable Connection.con_res_jpeg)
    "Could not enable connection resizer -> encoder" state).andThen fun state =>
  (expect_success hw (Call.mmal_port_enable (Port.output0 Component.jpegencoder))
    "Could not enable jpeg port" state).andThen fun state =>
  (send_pool_buffers hw (mmal_queue_length hw state).1.toNat
    (mmal_queue_length hw state).2).andThen fun state =>
  -- settings
  (cam_set_sharpness hw state).andThen fun state =>
  (cam_set_contrast hw state).andThen fun state =>
  (cam_set_brightness hw state).andThen fun state =>
  (cam_set_saturation hw state).andThen fun state =>
  (cam_set_iso hw state).andThen fun state =>
  (cam_set_vs hw state).andThen fun state =>
  (cam_set_ec hw state).andThen fun state =>
  (cam_set_em hw state).andThen fun state =>
  (cam_set_wb hw state).andThen fun state =>
  (cam_set_mm hw state).andThen fun state =>
  (cam_set_ie hw state).andThen fun state =>
  (cam_set_ce hw state).andThen fun state =>
  (cam_set_rotation hw state).andThen fun state =>
  (cam_set_flip hw state).andThen fun state =>
  (cam_set_roi hw state).andThen fun state =>
  (cam_set_ss hw state).andThen fun state =>
  cam_set_annotation hw os state

/-- The function `stop_all` of RaspiMJPEG.c; none of the returned statuses is
looked at. -/
def stop_all (hw : Hardware) (state : RaspiMJPEG_state) : RaspiMJPEG_state :=
  let state := log (Event.invoke "stop_all") state
  let state := (mmal hw (Call.mmal_port_disable (Port.output0 Component.jpegencoder)) state).2
  let state := (mmal hw (Call.mmal_connection_destroy Connection.con_cam_res) state).2
  let state := (mmal hw (Call.mmal_connection_destroy Connection.con_res_jpeg) state).2
  let state := mmal_void (Call.mmal_port_pool_destroy (Port.output0 Component.jpegencoder)) state
  let state := (mmal hw (Call.mmal_component_disable Component.jpegencoder) state).2
  let state := (mmal hw (Call.mmal_component_disable Component.camera) state).2
  let state := (mmal hw (Call.mmal_component_destroy Component.jpegencoder) state).2
  let state := (mmal hw (Call.mmal_component_destroy Component.camera) state).2
  state

/-! ### The command loop of `main` (RaspiMJPEG.c) -/

/-- The character `readbuf[i]`. -/
def char_at (readbuf : List Char) (i : Nat) : Char := readbuf.getD i (Char.ofNat 0)

/-- The assignment `readbuf[i] = c`.  An index outside the array (`length`
can be -1 or 60) is a write outside `readbuf`, which leaves it unchanged. -/
def store (readbuf : List Char) (i : Int) (c : Char) : List Char :=
  if 0 ≤ i then readbuf.set i.toNat c else readbuf

/-- The C string at `readbuf + k`. -/
def string_at (readbuf : List Char) (k : Nat) : List Char := Libc.cstr (readbuf.drop k)

/-- The three assignments `readbuf[0] = ' '; readbuf[1] = ' '; readbuf[length] = 0;`. -/
def blank_command (readbuf : List Char) (length : Int) : List Char :=
  store (store (store readbuf 0 ' ') 1 ' ') length (Char.ofNat 0)

/-- The test `(readbuf[0]==a) && (readbuf[1]==b)`. -/
def is_command (readbuf : List Char) (a b : Char) : Bool :=
  char_at readbuf 0 == a && char_at readbuf 1 == b

/-- The writes of the `px` branch to `readbuf`. -/
def readbuf_px (readbuf : List Char) (length : Int) : List Char :=
  store (store (store (store (store (store (store (store readbuf
    0 ' ') 1 ' ') 7 (Char.ofNat 0)) 12 (Char.ofNat 0)) 15 (Char.ofNat 0))
    18 (Char.ofNat 0)) 23 (Char.ofNat 0)) length (Char.ofNat 0)

/-- The writes of the `ce` branch to `readbuf`. -/
def readbuf_ce (readbuf : List Char) (length : Int) : List Char :=
  store (store (store readbuf 4 (Char.ofNat 0)) 8 (Char.ofNat 0)) length (Char.ofNat 0)

/-- The writes of the `ri` branch to `readbuf`. -/
def readbuf_ri (readbuf : List Char) (length : Int) : List Char :=
  store (store (store (store readbuf 8 (Char.ofNat 0)) 14 (Char.ofNat 0))
    20 (Char.ofNat 0)) length (Char.ofNat 0)

/-- The branch `px` (lines 651-667): tear down, read the four sizes, build. -/
def command_px (hw : Hardware) (os : Libc.OS) (length : Int) (state : RaspiMJPEG_state) :
    Result RaspiMJPEG_state :=
  let readbuf := readbuf_px state.readbuf length
  start_all hw os { stop_all hw state with
    readbuf := readbuf
    video_width := Libc.to_uint32 (Libc.atoi (string_at readbuf 0))
    video_height := Libc.to_uint32 (Libc.atoi (string_at readbuf 8))
    image_width := Libc.to_uint32 (Libc.atoi (string_at readbuf 19))
    image_height := Libc.to_uint32 (Libc.atoi (string_at readbuf 24)) }

/-- The branch `an` (lines 668-674). -/
def command_an (length : Int) (state : RaspiMJPEG_state) : Result RaspiMJPEG_state :=
  Result.ok { state with
    readbuf := blank_command state.readbuf length
    cam_setting_annotation := some (string_at (blank_command state.readbuf length) 3) }

/-- The branch `ab` (lines 675-683). -/
def command_ab (state : RaspiMJPEG_state) : Result RaspiMJPEG_state :=
  Result.ok { state with
    cam_setting_annback := if char_at state.readbuf 3 = '0' then 0 else 1 }

/-- The branch `sh` (lines 684-691). -/
def command_sh (hw : Hardware) (length : Int) (state : RaspiMJPEG_state) :
    Result RaspiMJPEG_state :=
  cam_set_sharpness hw { state with
    readbuf := blank_command state.readbuf length
    cam_setting_sharpness :=
      Libc.to_uint32 (Libc.atoi (string_at (blank_command state.readbuf length) 0)) }

/-- The branch `co` (lines 692-699). -/
def command_co (hw : Hardware) (length : Int) (state : RaspiMJPEG_state) :
    Result RaspiMJPEG_state :=
  cam_set_contrast hw { state with
    readbuf := blank_command state.readbuf length
    cam_setting_contrast :=
      Libc.to_uint32 (Libc.atoi (string_at (blank_command state.readbuf length) 0)) }

/-- The branch `br` (lines 700-707). -/
def command_br (hw : Hardware) (length : Int) (state : RaspiMJPEG_state) :
    Result RaspiMJPEG_state :=
  cam_set_brightness hw { state with
    readbuf := blank_command state.readbuf length
    cam_setting_brightness :=
      Libc.to_uint32 (Libc.atoi (string_at (blank_command state.readbuf length) 0)) }

/-- The branch `sa` (lines 708-715). -/
def command_sa (hw : Hardware) (length : Int) (state : RaspiMJPEG_state) :
    Result RaspiMJPEG_state :=
  cam_set_saturation hw { state with
    readbuf := blank_command state.readbuf length
    cam_setting_saturation :=
      Libc.to_uint32 (Libc.atoi (string_at (blank_command state.readbuf length) 0)) }

/-- The branch `is` (lines 716-723). -/
def command_is (hw : Hardware) (length : Int) (state : RaspiMJPEG_state) :
    Result RaspiMJPEG_state :=
  cam_set_iso hw { state with
    readbuf := blank_command state.readbuf length
    cam_setting_iso :=
      Libc.to_uint32 (Libc.atoi (string_at (blank_command state.readbuf length) 0)) }

/-- The branch `vs` (lines 724-729). -/
def command_vs (hw : Hardware) (state : RaspiMJPEG_state) : Result RaspiMJPEG_state :=
  cam_set_vs hw { state with
    cam_setting_vs := if char_at state.readbuf 3 = '1' then 1 else 0 }

/-- The branch `ec` (lines 730-737). -/
def command_ec (hw : Hardware) (length : Int) (state : RaspiMJPEG_state) :
    Result RaspiMJPEG_state :=
  cam_set_ec hw { state with
    readbuf := blank_command state.readbuf length
    cam_setting_ec :=
      Libc.to_uint32 (Libc.atoi (string_at (blank_command state.readbuf length) 0)) }

/-- The branch `em` (lines 738-743). -/
def command_em (hw : Hardware) (length : Int) (state : RaspiMJPEG_state) :
    Result RaspiMJPEG_state :=
  cam_set_em hw { state with
    readbuf := store state.readbuf length (Char.ofNat 0)
    cam_setting_em := string_at (store state.readbuf length (Char.ofNat 0)) 3 }

/-- The branch `wb` (lines 744-749). -/
def command_wb (hw : Hardware) (length : Int) (state : RaspiMJPEG_state) :
    Result RaspiMJPEG_state :=
  cam_set_wb hw { state with
    readbuf := store state.readbuf length (Char.ofNat 0)
    cam_setting_wb := string_at (store state.readbuf length (Char.ofNat 0)) 3 }

/-- The branch `mm` (lines 750-755). -/
def command_mm (hw : Hardware) (length : Int) (state : RaspiMJPEG_state) :
    Result RaspiMJPEG_state :=
  cam_set_mm hw { state with
    readbuf := store state.readbuf length (Char.ofNat 0)
    cam_setting_mm := string_at (store state.readbuf length (Char.ofNat 0)) 3 }

/-- The branch `ie` (lines 756-761). -/
def command_ie (hw : Hardware) (length : Int) (state : RaspiMJPEG_state) :
    Result RaspiMJPEG_state :=
  cam_set_ie hw { state with
    readbuf := store state.readbuf length (Char.ofNat 0)
    cam_setting_ie := string_at (store state.readbuf length (Char.ofNat 0)) 3 }

/-- The branch `ce` (lines 762-771). -/
def command_ce (hw : Hardware) (length : Int) (state : RaspiMJPEG_state) :
    Result RaspiMJPEG_state :=
  cam_set_ce hw { state with
    readbuf := readbuf_ce state.readbuf length
    cam_setting_ce_en := Libc.to_uint32 (Libc.atoi (string_at (readbuf_ce state.readbuf length) 3))
    cam_setting_ce_u := Libc.to_uint32 (Libc.atoi (string_at (readbuf_ce state.readbuf length) 5))
    cam_setting_ce_v := Libc.to_uint32 (Libc.atoi (string_at (readbuf_ce state.readbuf length) 9)) }

/-- The branch `ro` (lines 772-779). -/
def command_ro (hw : Hardware) (length : Int) (state : RaspiMJPEG_state) :
    Result RaspiMJPEG_state :=
  cam_set_rotation hw { state with
    readbuf := blank_command state.readbuf length
    cam_setting_rotation :=
      Libc.to_uint32 (Libc.atoi (string_at (blank_command state.readbuf length) 0)) }

/-- The branch `fl` (lines 780-799). -/
def command_fl (hw : Hardware) (state : RaspiMJPEG_state) : Result RaspiMJPEG_state :=
  cam_set_flip hw { state with
    cam_setting_hflip :=
      if char_at state.readbuf 3 = '0' then 0 else if char_at state.readbuf 3 = '1' then 1
      else if char_at state.readbuf 3 = '2' then 0 else 1
    cam_setting_vflip :=
      if char_at state.readbuf 3 = '0' then 0 else if char_at state.readbuf 3 = '1' then 0
      else if char_at state.readbuf 3 = '2' then 1 else 1 }

/-- The branch `ri` (lines 800-811); the `unsigned long long` results are
stored in `unsigned long` variables. -/
def command_ri (hw : Hardware) (length : Int) (state : RaspiMJPEG_state) :
    Result RaspiMJPEG_state :=
  cam_set_roi hw { state with
    readbuf := readbuf_ri state.readbuf length
    cam_setting_roi_x :=
      Libc.strtoull (string_at (readbuf_ri state.readbuf length) 3) % 2 ^ Libc.LONG_BITS
    cam_setting_roi_y :=
      Libc.strtoull (string_at (readbuf_ri state.readbuf length) 9) % 2 ^ Libc.LONG_BITS
    cam_setting_roi_w :=
      Libc.strtoull (string_at (readbuf_ri state.readbuf length) 15) % 2 ^ Libc.LONG_BITS
    cam_setting_roi_h :=
      Libc.strtoull (string_at (readbuf_ri state.readbuf length) 21) % 2 ^ Libc.LONG_BITS }

/-- The branch `ss` (lines 812-819). -/
def command_ss (hw : Hardware) (length : Int) (state : RaspiMJPEG_state) :
    Result RaspiMJPEG_state :=
  cam_set_ss hw { state with
    readbuf := blank_command state.readbuf length
    cam_setting_ss :=
      Libc.strtoull (string_at (blank_command state.readbuf length) 0) % 2 ^ Libc.LONG_BITS }

/-- The branch `ru` (lines 820-829): halt the stream when `readbuf[3]` is
`0`, otherwise start it; neither looks at whether a pipeline exists. -/
def command_ru (hw : Hardware) (os : Libc.OS) (state : RaspiMJPEG_state) :
    Result RaspiMJPEG_state :=
  if char_at state.readbuf 3 = '0' then
    Result.ok (stop_all hw state)
  else
    start_all hw os state

/-- The branches of the command chain of `main`, named by their two letters;
`unknown` is falling through all of them. -/
inductive Branch where
  | px | an | ab | sh | co | br | sa | is | vs | ec | em | wb | mm | ie | ce | ro | fl
  | ri | ss | ru | unknown
  deriving DecidableEq

/-- The chain of `if`/`else if` on the first two characters of `readbuf`
(lines 651-829 of RaspiMJPEG.c): the branch that is taken. -/
def branch_of (readbuf : List Char) : Branch :=
  if is_command readbuf 'p' 'x' then Branch.px
  else if is_command readbuf 'a' 'n' then Branch.an
  else if is_command readbuf 'a' 'b' then Branch.ab
  else if is_command readbuf 's' 'h' then Branch.sh
  else if is_command readbuf 'c' 'o' then Branch.co
  else if is_command readbuf 'b' 'r' then Branch.br
  else if is_command readbuf 's' 'a' then Branch.sa
  else if is_command readbuf 'i' 's' then Branch.is
  else if is_command readbuf 'v' 's' then Branch.vs
  else if is_command readbuf 'e' 'c' then Branch.ec
  else if is_command readbuf 'e' 'm' then Branch.em
  else if is_command readbuf 'w' 'b' then Branch.wb
  else if is_command readbuf 'm' 'm' then Branch.mm
  else if is_command readbuf 'i' 'e' then Branch.ie
  else if is_command readbuf 'c' 'e' then Branch.ce
  else if is_command readbuf 'r' 'o' then Branch.ro
  else if is_command readbuf 'f' 'l' then Branch.fl
  else if is_command readbuf 'r' 'i' then Branch.ri
  else if is_command readbuf 's' 's' then Branch.ss
  else if is_command readbuf 'r' 'u' then Branch.ru
  else Branch.unknown

/-- The body of the command chain (lines 651-829 of RaspiMJPEG.c), entered
when `length` is not 0: the body of the branch that is taken. -/
def dispatch (hw : Hardware) (os : Libc.OS) (length : Int) (state : RaspiMJPEG_state) :
    Result RaspiMJPEG_state :=
  match branch_of state.readbuf with
  | Branch.px => command_px hw os length state
  | Branch.an => command_an length state
  | Branch.ab => command_ab state
  | Branch.sh => command_sh hw length state
  | Branch.co => command_co hw length state
  | Branch.br => command_br hw length state
  | Branch.sa => command_sa hw length state
  | Branch.is => command_is hw length state
  | Branch.vs => command_vs hw state
  | Branch.ec => command_ec hw length state
  | Branch.em => command_em hw length state
  | Branch.wb => command_wb hw length state
  | Branch.mm => command_mm hw length state
  | Branch.ie => command_ie hw length state
  | Branch.ce => command_ce hw length state
  | Branch.ro => command_ro hw length state
  | Branch.fl => command_fl hw state
  | Branch.ri => command_ri hw length state
  | Branch.ss => command_ss hw length state
  | Branch.ru => command_ru hw os state
  | Branch.unknown => Result.ok state

/-- What one loop iteration obtains from the control pipe: whether `open`
succeeded, and the bytes that `read(fd, readbuf, 60)` stored (`none` when
`read` returned -1). -/
structure PipeRead where
  fd_ok : Bool
  data : Option (List Char)

/-- The content of `readbuf` after `read` stored `data` at its start. -/
def read_into (readbuf : List Char) (data : List Char) : List Char :=
  data.take 60 ++ readbuf.drop (data.take 60).length

/-- One iteration of the `while(running)` loop of `main`. -/
def loop_iteration (hw : Hardware) (os : Libc.OS) (input : PipeRead)
    (state : RaspiMJPEG_state) : Result RaspiMJPEG_state :=
  match state.pipe_filename with
  | none => Result.ok state
  | some _ =>
    if input.fd_ok then
      match input.data with
      | none => dispatch hw os (-1) state
      | some data =>
        if ((data.take 60).length : Int) ≠ 0 then
          dispatch hw os (data.take 60).length
            { state with readbuf := read_into state.readbuf data }
        else Result.ok state
    else Result.exit state "Could not open PIPE"

/-- The `while(running)` loop of `main` and the tidy-up after it: one
iteration for each element of `inputs`, then (the signal handler has cleared
`running`) the final `stop_all`. -/
def main_loop (hw : Hardware) (os : Libc.OS) :
    List PipeRead → RaspiMJPEG_state → Result RaspiMJPEG_state
  | [], state => Result.ok (stop_all hw state)
  | input :: rest, state =>
    (loop_iteration hw os input state).andThen (main_loop hw os rest)

/-- The function `main` from the call of `start_all` (line 627) on; `state`
holds the globals as the configuration file left them. -/
def main (hw : Hardware) (os : Libc.OS) (inputs : List PipeRead)
    (state : RaspiMJPEG_state) : Result RaspiMJPEG_state :=
  (start_all hw os state).andThen (main_loop hw os inputs)

end RaspiMJPEG

/-! ## Observations on traces -/

/-- The MMAL calls of a trace, in order. -/
def calls_of : List Event → List Call
  | [] => []
  | Event.call c _ :: rest => c :: calls_of rest
  | _ :: rest => calls_of rest

/-- The invocations of `start_all` and `stop_all` recorded in a trace. -/
def pipeline_calls : List Event → List String
  | [] => []
  | Event.invoke function :: rest => function :: pipeline_calls rest
  | _ :: rest => pipeline_calls rest

/-- The warnings of a trace. -/
def warnings : List Event → List String
  | [] => []
  | Event.warnx msg :: rest => msg :: warnings rest
  | _ :: rest => warnings rest

/-- The payloads handed to `fwrite`. -/
def file_writes : List Event → List (List Nat)
  | [] => []
  | Event.fwrite data _ :: rest => data :: file_writes rest
  | _ :: rest => file_writes rest

/-- The recycling step in the words of the specification, entered when `n`
events have been logged: the delivered buffer is released once; then, if and
only if the port is enabled, one buffer is taken from the pool queue and, when
there is one, submitted to that port. -/
def spec_recycling (hw : Hardware) (port : MMAL_PORT_T) (buffer : MMAL_BUFFER_HEADER_T)
    (n : Nat) : List Event :=
  Event.call (Call.mmal_buffer_header_release buffer.handle) MMAL_STATUS_T.MMAL_SUCCESS ::
    (if port.is_enabled then
      match hw.queue_get (n + 1) with
      | some new_buffer =>
        [Event.call (Call.mmal_queue_get (some new_buffer)) MMAL_STATUS_T.MMAL_SUCCESS,
         Event.call (Call.mmal_port_send_buffer port.id new_buffer) (hw.status (n + 2))]
      | none => [Event.call (Call.mmal_queue_get none) MMAL_STATUS_T.MMAL_SUCCESS]
    else [])

/-- The trace of `s'` is the trace of `s` followed by events that all satisfy
`P`; `tr` reads the trace of a state. -/
def Extends {σ : Type} (P : Event → Prop) (tr : σ → List Event) (s s' : σ) : Prop :=
  ∃ es : List Event, tr s' = tr s ++ es ∧ ∀ e ∈ es, P e

namespace Raspijpgs

/-- The enabled output port of the JPEG encoder, as handed to the callback. -/
def encoder_port : MMAL_PORT_T :=
  { id := Port.output0 Component.jpegencoder, is_enabled := true }

/-- Three delivered buffers: a fragment without frame end, the fragment that
ends its frame, and a frame that fits one buffer. -/
def two_frames : List (MMAL_PORT_T × MMAL_BUFFER_HEADER_T) :=
  [(encoder_port, { handle := 1, data := [1], flags := 0 }),
   (encoder_port, { handle := 2, data := [2], flags := MMAL_BUFFER_HEADER_FLAG_FRAME_END }),
   (encoder_port, { handle := 3, data := [3], flags := MMAL_BUFFER_HEADER_FLAG_FRAME_END })]

/-- A frame of two fragments of 40000 bytes, which does not fit
`MAX_DATA_BUFFER_SIZE`; its second fragment carries the frame end. -/
def oversize_frame : List (MMAL_PORT_T × MMAL_BUFFER_HEADER_T) :=
  [(encoder_port, { handle := 1, data := (List.replicate 40000 1), flags := 0 }),
   (encoder_port, { handle := 2, data := (List.replicate 40000 2),
                    flags := MMAL_BUFFER_HEADER_FLAG_FRAME_END })]

/-- The frame after the oversize one: a single buffer of one byte with the
frame end. -/
def next_frame : List (MMAL_PORT_T × MMAL_BUFFER_HEADER_T) :=
  [(encoder_port, { handle := 3, data := [3], flags := MMAL_BUFFER_HEADER_FLAG_FRAME_END })]

end Raspijpgs

/-- Whether the invocations `calls` of `start_all` and `stop_all`, made from
a moment when a pipeline instance exists (`live = true`) or not, respect the
life cycle: `start_all` only when no instance exists, `stop_all` only when one
exists.  The result is whether an instance exists afterwards, `none` when an
invocation breaks the rule. -/
def run_calls : Bool → List String → Option Bool
  | live, [] => some live
  | live, function :: rest =>
    if function = "start_all" then (if live then none else run_calls true rest)
    else if function = "stop_all" then (if live then run_calls false rest else none)
    else run_calls live rest

/-- No pipeline is built while one is alive and none is torn down twice. -/
def alternating (calls : List String) : Bool := (run_calls false calls).isSome

namespace RaspiMJPEG

/-- What a command of the control pipe does to the pipeline. -/
inductive PipelineCommand where
  | rebuild
  | halt
  | resume
  | other
  deriving DecidableEq

/-- The pipeline command that `dispatch` reads from `readbuf`: `px` rebuilds,
`ru` halts when `readbuf[3]` is `0` and resumes otherwise. -/
def command_of (readbuf : List Char) : PipelineCommand :=
  match branch_of readbuf with
  | Branch.px => PipelineCommand.rebuild
  | Branch.ru =>
    if char_at readbuf 3 = '0' then PipelineCommand.halt else PipelineCommand.resume
  | _ => PipelineCommand.other

/-- The invocations a pipeline command asks for. -/
def invocations_of : PipelineCommand → List String
  | PipelineCommand.rebuild => ["stop_all", "start_all"]
  | PipelineCommand.halt => ["stop_all"]
  | PipelineCommand.resume => ["start_all"]
  | PipelineCommand.other => []

/-- The content of `readbuf` after `dispatch`: the bytes each branch
overwrites. -/
def readbuf_after (length : Int) (readbuf : List Char) : List Char :=
  match branch_of readbuf with
  | Branch.px => readbuf_px readbuf length
  | Branch.an => blank_command readbuf length
  | Branch.ab => readbuf
  | Branch.sh => blank_command readbuf length
  | Branch.co => blank_command readbuf length
  | Branch.br => blank_command readbuf length
  | Branch.sa => blank_command readbuf length
  | Branch.is => blank_command readbuf length
  | Branch.vs => readbuf
  | Branch.ec => blank_command readbuf length
  | Branch.em => store readbuf length (Char.ofNat 0)
  | Branch.wb => store readbuf length (Char.ofNat 0)
  | Branch.mm => store readbuf length (Char.ofNat 0)
  | Branch.ie => store readbuf length (Char.ofNat 0)
  | Branch.ce => readbuf_ce readbuf length
  | Branch.ro => blank_command readbuf length
  | Branch.fl => readbuf
  | Branch.ri => readbuf_ri readbuf length
  | Branch.ss => blank_command readbuf length
  | Branch.ru => readbuf
  | Branch.unknown => readbuf

/-- The pipeline commands that the loop dispatches for the reads `inputs`,
starting with the content `readbuf`, as long as the loop goes on by itself:
nothing is dispatched without a control pipe (`pipe = false`), when `read`
returns 0, or after `open` failed (the process has ended).  When `read`
returns -1 the stale content of `readbuf` is dispatched. -/
def commands (pipe : Bool) : List PipeRead → List Char → List PipelineCommand
  | [], _ => []
  | input :: rest, readbuf =>
    if pipe = false then commands pipe rest readbuf
    else if input.fd_ok = false then []
    else
      match input.data with
      | none => command_of readbuf :: commands pipe rest (readbuf_after (-1) readbuf)
      | some data =>
        if ((data.take 60).length : Int) ≠ 0 then
          command_of (read_into readbuf data) ::
            commands pipe rest (readbuf_after (data.take 60).length (read_into readbuf data))
        else commands pipe rest readbuf

/-- The commands are disciplined: `px` and `ru 0` arrive only while a
pipeline instance exists (`live`), a resuming `ru` only while none exists, and
an instance exists when the loop is left for the final `stop_all`. -/
def disciplined : Bool → List PipelineCommand → Bool
  | live, [] => live
  | live, PipelineCommand.rebuild :: rest => live && disciplined true rest
  | live, PipelineCommand.halt :: rest => live && disciplined false rest
  | live, PipelineCommand.resume :: rest => !live && disciplined true rest
  | live, PipelineCommand.other :: rest => disciplined live rest

/-- The step from `s` to `s'` invokes neither `start_all` nor `stop_all` and
leaves `readbuf` and `pipe_filename` as they are. -/
def Quiet (s s' : RaspiMJPEG_state) : Prop :=
  (∃ es : List Event, s'.trace = s.trace ++ es ∧ pipeline_calls es = []) ∧
    s'.readbuf = s.readbuf ∧ s'.pipe_filename = s.pipe_filename

/-- The state in which `main` calls `start_all`: the defaults, with a control
pipe and a preview path configured. -/
def configured : RaspiMJPEG_state :=
  { initial_state (List.replicate 60 ' ') with
    jpeg_filename := some "cam.jpg".toList
    pipe_filename := some "FIFO".toList }

end RaspiMJPEG

/-- The order of the hardware operations of a teardown, in the words of the
specification: disable the encoder output port; destroy the camera->resizer
and resizer->encoder connections; destroy the encoder buffer pool; disable
the encoder and camera components; destroy the encoder and camera components. -/
def spec_teardown_order : List Call :=
  [Call.mmal_port_disable (Port.output0 Component.jpegencoder),
   Call.mmal_connection_destroy Connection.con_cam_res,
   Call.mmal_connection_destroy Connection.con_res_jpeg,
   Call.mmal_port_pool_destroy (Port.output0 Component.jpegencoder),
   Call.mmal_component_disable Component.jpegencoder,
   Call.mmal_component_disable Component.camera,
   Call.mmal_component_destroy Component.jpegencoder,
   Call.mmal_component_destroy Component.camera]

/-- The hardware components alive after the events of a trace, starting from
the components `live`: a component exists from its successful
`mmal_component_create` to its successful `mmal_component_destroy`. -/
def live_components : List Event → List Component → List Component
  | [], live => live
  | Event.call (Call.mmal_component_create c) MMAL_STATUS_T.MMAL_SUCCESS :: rest, live =>
    live_components rest (live ++ [c])
  | Event.call (Call.mmal_component_destroy c) MMAL_STATUS_T.MMAL_SUCCESS :: rest, live =>
    live_components rest (live.erase c)
  | _ :: rest, live => live_components rest live

/-- The width of the resizer output after the events of a trace: the width of
the last format committed successfully on the resizer output port. -/
def resizer_output_width : List Event → Option Nat → Option Nat
  | [], width => width
  | Event.call (Call.mmal_port_format_commit (Port.output0 Component.resizer)
      (Format.video width _ _ _ _ _ _ _)) MMAL_STATUS_T.MMAL_SUCCESS :: rest, _ =>
    resizer_output_width rest (some width)
  | _ :: rest, width => resizer_output_width rest width

/-- The JPEG quality of the encoder after the events of a trace: the last
value of `MMAL_PARAMETER_JPEG_Q_FACTOR` set successfully on the encoder
output port. -/
def jpeg_q_factor : List Event → Option Nat → Option Nat
  | [], q => q
  | Event.call (Call.mmal_port_parameter_set (Port.output0 Component.jpegencoder)
      (Parameter.uint32 ParameterId.JPEG_Q_FACTOR q)) MMAL_STATUS_T.MMAL_SUCCESS :: rest, _ =>
    jpeg_q_factor rest (some q)
  | _ :: rest, q => jpeg_q_factor rest q

namespace Raspijpgs

/-- The start of `server_loop`: `start_all()` followed by
`apply_parameters(config_context_server_start)`, from the state in which
`main` leaves the options (here: all defaults) and with the server lock
acquired. -/
def server_start (hw : Hardware) : Result raspijpgs_state :=
  (start_all hw { fillin_defaults (initial_state (List.replicate 65536 0)) with
    is_server := 1 }).andThen
    (apply_parameters hw config_context.config_context_server_start)

/-- The running server with default settings on hardware where every call
succeeds. -/
def running_server : raspijpgs_state := (server_start (Hardware.allSuccess 3)).state

end Raspijpgs

namespace RaspiMJPEG

/-- The enabled output port of the JPEG encoder, as handed to the callback. -/
def encoder_port : MMAL_PORT_T :=
  { id := Port.output0 Component.jpegencoder, is_enabled := true }

/-- RaspiMJPEG in the middle of a frame: the preview file `cam.jpg0.part` is
open and the control pipe is configured. -/
def mid_frame : RaspiMJPEG_state :=
  { initial_state (List.replicate 60 ' ') with
    jpeg_filename := some "cam.jpg".toList
    pipe_filename := some "FIFO".toList
    jpegoutput_file := some "cam.jpg0.part".toList }

/-- A buffer without payload that carries the frame-end flag. -/
def empty_frame_end : MMAL_BUFFER_HEADER_T :=
  { handle := 8, data := [], flags := MMAL_BUFFER_HEADER_FLAG_FRAME_END }

/-- A buffer without payload and without flags. -/
def empty_buffer : MMAL_BUFFER_HEADER_T :=
  { handle := 9, data := [], flags := 0 }

end RaspiMJPEG

/-! ## raspijpgs.c: start-up, client registry and server loop -/

namespace Raspijpgs

/-- The function `is_long_option`. -/
def is_long_option (str : List Char) : Bool :=
  match str with
  | '-' :: '-' :: _ :: _ => true
  | _ => false

/-- The function `is_short_option`. -/
def is_short_option (str : List Char) : Bool :=
  match str with
  | '-' :: c :: _ => c ≠ '-'
  | _ => false

/-- The loop `for (opt = opts; opt->long_option; opt++) if (opt->short_option && strcmp(opt->short_option, key) == 0) break;`. -/
def find_short_option (key : List Char) : List raspi_config_opt → Option raspi_config_opt
  | [] => none
  | o :: rest => if o.short_option = some key then some o else find_short_option key rest

/-- One iteration of the loop of `parse_args` on `argv[i] = arg`; `next` is
`argv[i + 1]` when `i < argc - 1`.  The second component says whether the
iteration consumed `argv[i + 1]` (`value = argv[++i]`).  For a long option
written with `=`, `value` is left pointing at the `=` that was overwritten
with NUL, so the value handed to `set` is the empty string. -/
def parse_arg (arg : List Char) (next : Option (List Char)) (state : raspijpgs_state) :
    Result raspijpgs_state × Bool :=
  if is_long_option arg then
    match find_long_option ((arg.drop 2).takeWhile (fun c => c ≠ '=')) opts with
    | none => (Result.exit state "Unknown option", false)
    | some opt =>
      if '=' ∈ arg then (call_set opt (some []) 1 state, false)
      else
        match next with
        | some v =>
          if !is_long_option v && !is_short_option v then (call_set opt (some v) 1 state, true)
          else (call_set opt (some "on".toList) 1 state, false)
        | none => (call_set opt (some "on".toList) 1 state, false)
  else if is_short_option arg then
    match find_short_option (arg.drop 1) opts with
    | none => (Result.exit state "Unknown option", false)
    | some opt =>
      match next with
      | some v => (call_set opt (some v) 1 state, true)
      | none => (call_set opt (some "on".toList) 1 state, false)
  else (Result.exit state "Unexpected parameter", false)

/-- The loop of `parse_args` from `argv[i]` on. -/
def parse_args_from : List (List Char) → raspijpgs_state → Result raspijpgs_state
  | [], state => Result.ok state
  | [arg], state => (parse_arg arg none state).1
  | arg :: next :: rest, state =>
    if (parse_arg arg (some next) state).2 then
      (parse_arg arg (some next) state).1.andThen (parse_args_from rest)
    else
      (parse_arg arg (some next) state).1.andThen (parse_args_from (next :: rest))

/-- The function `parse_args`; `argv[0]` is skipped. -/
def parse_args (argv : List (List Char)) (state : raspijpgs_state) : Result raspijpgs_state :=
  parse_args_from (argv.drop 1) state

/-- The call `fgets(line, n, fp)` on the unread rest of a file: at most
`n - 1` characters, ending after the first newline.  The result is the length
of the line read. -/
def fgets_length (n : Nat) (content : List Char) : Nat :=
  min (min (n - 1) ((content.takeWhile (fun c => c ≠ '\n')).length + 1)) content.length

/-- The lines that the loop `while (fgets(line, sizeof(line), fp))` of
`load_config_file` reads from a file with the given content (`line` has 128
bytes); `fuel` bounds the number of lines. -/
def fgets_lines : Nat → List Char → List (List Char)
  | 0, _ => []
  | fuel + 1, content =>
    if content = [] then []
    else content.take (fgets_length 128 content) ::
      fgets_lines fuel (content.drop (fgets_length 128 content))

/-- Run `parse_config_line(line, context)` on each line in turn, as long as
the process has not exited. -/
def parse_config_lines (hw : Hardware) (context : config_context) :
    List (List Char) → raspijpgs_state → Result raspijpgs_state
  | [], state => Result.ok state
  | line :: rest, state =>
    (parse_config_line hw (Libc.cstr line) context state).andThen
      (parse_config_lines hw context rest)

/-- The function `load_config_file`; `fs` gives the content of the file that
`fopen(name, "r")` opens, `none` when it cannot be opened.  Every `fgets`
reads at least one character, so `content.length` lines are enough. -/
def load_config_file (hw : Hardware) (fs : List Char → Option (List Char))
    (state : raspijpgs_state) : Result raspijpgs_state :=
  match state.config_filename with
  | none => Result.ok state
  | some name =>
    match fs name with
    | none => Result.exit state "Cannot open"
    | some content =>
      parse_config_lines hw config_context.config_context_file
        (fgets_lines content.length content) state

/-- The zero-initialised `state` in a process started with the environment
`environ`. -/
def process_start (environ : List (List Char × List Char)) : raspijpgs_state :=
  { initial_state [] with env := environ }

/-- The first three calls of `main`: `parse_args`, `load_config_file`,
`fillin_defaults`. -/
def startup (hw : Hardware) (fs : List Char → Option (List Char)) (argv : List (List Char))
    (environ : List (List Char × List Char)) : Result raspijpgs_state :=
  ((parse_args argv (process_start environ)).andThen (load_config_file hw fs)).andThen
    fun state => Result.ok (fillin_defaults state)

/-- What the operating system answers to the server: whether `pipe` and
`bind` succeed, and whether the `sendto` made when `n` events have been logged
succeeds. -/
structure System where
  pipe_ok : Bool
  bind_ok : Bool
  sendto_ok : Nat → Bool

/-- The operating system on which every call succeeds. -/
def System.allSuccess : System where
  pipe_ok := true
  bind_ok := true
  sendto_ok := fun _ => true

/-- The function `add_client`: the address is stored in the first of the
`MAX_CLIENTS` slots whose `sun_family` is 0; when there is none, a warning is
printed. -/
def add_client (client_addr : sockaddr_un) (state : raspijpgs_state) : raspijpgs_state :=
  match (List.range MAX_CLIENTS).find?
      (fun i => (state.client_addrs[i]?).map (fun a => a.sun_family) = some 0) with
  | some i => { state with client_addrs := state.client_addrs.set i client_addr }
  | none => warnx "Reached max number of clients" state

/-- The function `term_sighandler`. -/
def term_sighandler (state : raspijpgs_state) : raspijpgs_state :=
  { state with count := 0 }

/-- What `recvfrom` on the server socket yields: a datagram with the address
of its sender, a failure with `errno == EINTR`, or another failure. -/
inductive Received where
  | datagram (from_addr : sockaddr_un) (data : List Nat)
  | eintr
  | error

/-- The lines of the `do ... while (line_end)` loop of
`server_service_client`: the text is cut at each newline until none is left,
so a text without newline is one line. -/
def split_lines : List Char → List (List Char)
  | [] => [[]]
  | c :: cs =>
    if c = '\n' then [] :: split_lines cs
    else
      match split_lines cs with
      | line :: rest => (c :: line) :: rest
      | [] => [[c]]

/-- The body of the inner loop "Test sending" of `server_service_client` for
slot `j`: a registered client is sent `hello`; when `sendto` fails its slot is
freed. -/
def test_send_slot (sys : System) (j : Nat) (state : raspijpgs_state) : raspijpgs_state :=
  match state.client_addrs[j]? with
  | none => state
  | some addr =>
    if addr.sun_family ≠ 0 then
      if sys.sendto_ok state.trace.length then
        { state with trace := state.trace ++
            [Event.sendto addr.sun_path "hello\n".toList true] }
      else
        { state with
          trace := state.trace ++ [Event.sendto addr.sun_path "hello\n".toList false]
          client_addrs := state.client_addrs.set j { addr with sun_family := 0 } }
    else state

/-- The two nested loops "Test sending" of `server_service_client`. -/
def test_sending (sys : System) (state : raspijpgs_state) : raspijpgs_state :=
  (List.range 5).foldl
    (fun state _ => (List.range MAX_CLIENTS).foldl (fun state j => test_send_slot sys j state)
      state)
    state

/-- The function `server_service_client`.  `recvfrom` stores at most
`MAX_DATA_BUFFER_SIZE` bytes at the start of `state.buffer`; the write
`state.buffer[bytes_received] = 0` at an index outside the buffer is a write
outside the allocation, which leaves the buffer unchanged.  The `continue`
after `EINTR`, which stands outside any loop of the function, is taken as the
return to the loop of `server_loop`. -/
def server_service_client (hw : Hardware) (sys : System) (received : Received)
    (state : raspijpgs_state) : Result raspijpgs_state :=
  match received with
  | Received.eintr => Result.ok state
  | Received.error => Result.exit state "recvfrom"
  | Received.datagram from_addr data =>
    let bytes_received := (data.take MAX_DATA_BUFFER_SIZE).length
    let state := { state with buffer := memcpy state.buffer 0 data bytes_received }
    let state := add_client from_addr state
    let state := { state with buffer := state.buffer.set bytes_received 0 }
    (parse_config_lines hw config_context.config_context_client_request
      (split_lines (Libc.cstr (state.buffer.map Char.ofNat))) state).andThen
      fun state => Result.ok (test_sending sys state)

/-- The function `server_service_mmal`; `msg` is what `read` obtains from the
internal pipe. -/
def server_service_mmal (hw : Hardware) (msg : Option (MMAL_PORT_T × MMAL_BUFFER_HEADER_T))
    (state : raspijpgs_state) : Result raspijpgs_state :=
  jpegencoder_buffer_callback_impl hw msg state

/-- What happens to the server after the test `state.count != 0` of its main
loop has succeeded: a termination signal is handled while the process is not
waiting in `poll`; `poll` fails with `EINTR`; `poll` fails otherwise; `poll`
reports the socket (`client`) and/or the internal pipe (`mmal`) as readable. -/
inductive Step where
  | term_signal
  | poll_eintr
  | poll_failed
  | poll_ready (client : Option Received)
      (mmal : Option (Option (MMAL_PORT_T × MMAL_BUFFER_HEADER_T)))

/-- The body of the main loop of `server_loop` after `poll` reported
readiness. -/
def service_ready (hw : Hardware) (sys : System) (client : Option Received)
    (mmal : Option (Option (MMAL_PORT_T × MMAL_BUFFER_HEADER_T)))
    (state : raspijpgs_state) : Result raspijpgs_state :=
  (match client with
    | some received => server_service_client hw sys received state
    | none => Result.ok state).andThen fun state =>
  match mmal with
  | some msg => server_service_mmal hw msg state
  | none => Result.ok state

/-- The end of `server_loop`, after the main loop has been left: `stop_all()`. -/
def leave_loop (hw : Hardware) (state : raspijpgs_state) : Result raspijpgs_state :=
  Result.ok (stop_all hw state)

/-- The main loop `while (state.count != 0)` of `server_loop`, entered after a
successful test of the loop condition, on the steps that happen to the
process.  A signal that interrupts `poll` is the step `term_signal` followed
by `poll_eintr`.  When no step is left the process waits in `poll`: the
function returns the state reached, without `stop_all`. -/
def main_loop (hw : Hardware) (sys : System) :
    List Step → raspijpgs_state → Result raspijpgs_state
  | [], state => Result.ok state
  | Step.term_signal :: rest, state => main_loop hw sys rest (term_sighandler state)
  | Step.poll_eintr :: rest, state =>
    if state.count ≠ 0 then main_loop hw sys rest state else leave_loop hw state
  | Step.poll_failed :: _, state => Result.exit state "poll"
  | Step.poll_ready client mmal :: rest, state =>
    (service_ready hw sys client mmal state).andThen fun state =>
      if state.count ≠ 0 then main_loop hw sys rest state else leave_loop hw state

/-- The function `server_loop`. -/
def server_loop (hw : Hardware) (sys : System) (steps : List Step)
    (state : raspijpgs_state) : Result raspijpgs_state :=
  if state.setlist.isSome then
    Result.exit state
      "Trying to run a set operation, but a raspijpgs server isn't running."
  else if !sys.pipe_ok then Result.exit state "pipe"
  else
    (start_all hw state).andThen fun state =>
    (apply_parameters hw config_context.config_context_server_start state).andThen
      fun state =>
    if !sys.bind_ok then Result.exit state "Can't create Unix Domain socket"
    else if state.count ≠ 0 then main_loop hw sys steps state
    else leave_loop hw state

end Raspijpgs

namespace Raspijpgs

/-- The `apply` functions of the enum-valued options `exposure`, `awb`,
`imxfx` and `metering`. -/
def enum_options : List ApplyFn :=
  [ApplyFn.exposure_apply, ApplyFn.awb_apply, ApplyFn.imxfx_apply, ApplyFn.metering_apply]

/-- The fixed set of names of each enum-valued option, each with the hardware
parameter it stands for. -/
def enum_table : ApplyFn → List (List Char × Parameter)
  | ApplyFn.exposure_apply =>
    [("off".toList, Parameter.exposure_mode MMAL_PARAM_EXPOSUREMODE_T.OFF),
     ("auto".toList, Parameter.exposure_mode MMAL_PARAM_EXPOSUREMODE_T.AUTO),
     ("night".toList, Parameter.exposure_mode MMAL_PARAM_EXPOSUREMODE_T.NIGHT),
     ("nightpreview".toList, Parameter.exposure_mode MMAL_PARAM_EXPOSUREMODE_T.NIGHTPREVIEW),
     ("backlight".toList, Parameter.exposure_mode MMAL_PARAM_EXPOSUREMODE_T.BACKLIGHT),
     ("spotlight".toList, Parameter.exposure_mode MMAL_PARAM_EXPOSUREMODE_T.SPOTLIGHT),
     ("sports".toList, Parameter.exposure_mode MMAL_PARAM_EXPOSUREMODE_T.SPORTS),
     ("snow".toList, Parameter.exposure_mode MMAL_PARAM_EXPOSUREMODE_T.SNOW),
     ("beach".toList, Parameter.exposure_mode MMAL_PARAM_EXPOSUREMODE_T.BEACH),
     ("verylong".toList, Parameter.exposure_mode MMAL_PARAM_EXPOSUREMODE_T.VERYLONG),
     ("fixedfps".toList, Parameter.exposure_mode MMAL_PARAM_EXPOSUREMODE_T.FIXEDFPS),
     ("antishake".toList, Parameter.exposure_mode MMAL_PARAM_EXPOSUREMODE_T.ANTISHAKE),
     ("fireworks".toList, Parameter.exposure_mode MMAL_PARAM_EXPOSUREMODE_T.FIREWORKS)]
  | ApplyFn.awb_apply =>
    [("off".toList, Parameter.awb_mode MMAL_PARAM_AWBMODE_T.OFF),
     ("auto".toList, Parameter.awb_mode MMAL_PARAM_AWBMODE_T.AUTO),
     ("sun".toList, Parameter.awb_mode MMAL_PARAM_AWBMODE_T.SUNLIGHT),
     ("cloudy".toList, Parameter.awb_mode MMAL_PARAM_AWBMODE_T.CLOUDY),
     ("shade".toList, Parameter.awb_mode MMAL_PARAM_AWBMODE_T.SHADE),
     ("tungsten".toList, Parameter.awb_mode MMAL_PARAM_AWBMODE_T.TUNGSTEN),
     ("fluorescent".toList, Parameter.awb_mode MMAL_PARAM_AWBMODE_T.FLUORESCENT),
     ("incandescent".toList, Parameter.awb_mode MMAL_PARAM_AWBMODE_T.INCANDESCENT),
     ("flash".toList, Parameter.awb_mode MMAL_PARAM_AWBMODE_T.FLASH),
     ("horizon".toList, Parameter.awb_mode MMAL_PARAM_AWBMODE_T.HORIZON)]
  | ApplyFn.imxfx_apply =>
    [("none".toList, Parameter.image_effect MMAL_PARAM_IMAGEFX_T.NONE),
     ("negative".toList, Parameter.image_effect MMAL_PARAM_IMAGEFX_T.NEGATIVE),
     ("solarise".toList, Parameter.image_effect MMAL_PARAM_IMAGEFX_T.SOLARIZE),
     ("sketch".toList, Parameter.image_effect MMAL_PARAM_IMAGEFX_T.SKETCH),
     ("denoise".toList, Parameter.image_effect MMAL_PARAM_IMAGEFX_T.DENOISE),
     ("emboss".toList, Parameter.image_effect MMAL_PARAM_IMAGEFX_T.EMBOSS),
     ("oilpaint".toList, Parameter.image_effect MMAL_PARAM_IMAGEFX_T.OILPAINT),
     ("hatch".toList, Parameter.image_effect MMAL_PARAM_IMAGEFX_T.HATCH),
     ("gpen".toList, Parameter.image_effect MMAL_PARAM_IMAGEFX_T.GPEN),
     ("pastel".toList, Parameter.image_effect MMAL_PARAM_IMAGEFX_T.PASTEL),
     ("watercolour".toList, Parameter.image_effect MMAL_PARAM_IMAGEFX_T.WATERCOLOUR),
     ("film".toList, Parameter.image_effect MMAL_PARAM_IMAGEFX_T.FILM),
     ("blur".toList, Parameter.image_effect MMAL_PARAM_IMAGEFX_T.BLUR),
     ("saturation".toList, Parameter.image_effect MMAL_PARAM_IMAGEFX_T.SATURATION),
     ("colourswap".toList, Parameter.image_effect MMAL_PARAM_IMAGEFX_T.COLOURSWAP),
     ("washedout".toList, Parameter.image_effect MMAL_PARAM_IMAGEFX_T.WASHEDOUT),
     ("posterise".toList, Parameter.image_effect MMAL_PARAM_IMAGEFX_T.POSTERISE),
     ("colourpoint".toList, Parameter.image_effect MMAL_PARAM_IMAGEFX_T.COLOURPOINT),
     ("colourbalance".toList, Parameter.image_effect MMAL_PARAM_IMAGEFX_T.COLOURBALANCE),
     ("cartoon".toList, Parameter.image_effect MMAL_PARAM_IMAGEFX_T.CARTOON)]
  | ApplyFn.metering_apply =>
    [("average".toList, Parameter.exp_metering_mode MMAL_PARAM_EXPOSUREMETERINGMODE_T.AVERAGE),
     ("spot".toList, Parameter.exp_metering_mode MMAL_PARAM_EXPOSUREMETERINGMODE_T.SPOT),
     ("backlit".toList, Parameter.exp_metering_mode MMAL_PARAM_EXPOSUREMETERINGMODE_T.BACKLIT),
     ("matrix".toList, Parameter.exp_metering_mode MMAL_PARAM_EXPOSUREMETERINGMODE_T.MATRIX)]
  | _ => []

/-- The parameter that the string comparisons of `exposure_apply`,
`awb_apply`, `imxfx_apply` and `metering_apply` select for a string. -/
def enum_param_of (f : ApplyFn) (str : List Char) : Option Parameter :=
  match f with
  | ApplyFn.exposure_apply => (exposure_mode_of str).map Parameter.exposure_mode
  | ApplyFn.awb_apply => (awb_mode_of str).map Parameter.awb_mode
  | ApplyFn.imxfx_apply => (imagefx_of str).map Parameter.image_effect
  | ApplyFn.metering_apply => (metering_mode_of str).map Parameter.exp_metering_mode
  | _ => none

/-- The `apply` functions of the options `sharpness`, `contrast`, `brightness`
and `saturation`, each with the parameter that it hands to
`rational_param_apply`. -/
def rational_options : List (ApplyFn × ParameterId) :=
  [(ApplyFn.sharpness_apply, ParameterId.SHARPNESS),
   (ApplyFn.contrast_apply, ParameterId.CONTRAST),
   (ApplyFn.brightness_apply, ParameterId.BRIGHTNESS),
   (ApplyFn.saturation_apply, ParameterId.SATURATION)]

/-- The datagrams sent to clients in a trace: destination and content. -/
def datagrams_sent : List Event → List (List Char × List Char)
  | [] => []
  | Event.sendto sun_path data _ :: rest => (sun_path, data) :: datagrams_sent rest
  | _ :: rest => datagrams_sent rest

/-- The registered clients: the slots of `state.client_addrs` whose
`sun_family` is not 0. -/
def registered (state : raspijpgs_state) : List sockaddr_un :=
  state.client_addrs.filter (fun a => a.sun_family ≠ 0)

end Raspijpgs

namespace Raspijpgs

/-- Two frames, each delivered in two buffers: the fragments `[1]`, `[2]` of
the first frame and `[3]`, `[4]` of the second, each second fragment with the
frame-end flag; `poll` reports the internal pipe readable once for each. -/
def two_fragmented_frames : List Step :=
  [Step.poll_ready none (some (some
    (encoder_port, { handle := 1, data := [1], flags := 0 }))),
   Step.poll_ready none (some (some
    (encoder_port, { handle := 2, data := [2], flags := MMAL_BUFFER_HEADER_FLAG_FRAME_END }))),
   Step.poll_ready none (some (some
    (encoder_port, { handle := 3, data := [3], flags := 0 }))),
   Step.poll_ready none (some (some
    (encoder_port, { handle := 4, data := [4], flags := MMAL_BUFFER_HEADER_FLAG_FRAME_END })))]

/-- The server branch of `main`, for a process started by the command line
`argv` with an empty environment and no configuration file, on hardware and
an operating system where every call succeeds: the start-up, the two checks
of `--client`, the allocation of `state.buffer`, `acquire_server_lock`
returning 1, and `server_loop` serving `steps`. -/
def run_server (argv : List (List Char)) (steps : List Step) : Result raspijpgs_state :=
  (startup (Hardware.allSuccess 3) (fun _ => none) argv []).andThen fun state =>
    if state.user_wants_client ≠ 0 ∧ state.user_wants_server ≠ 0 then
      Result.exit state "Both --client and --server requested"
    else if state.user_wants_client ≠ 0 then
      Result.exit state "Server not running"
    else
      server_loop (Hardware.allSuccess 3) System.allSuccess steps
        { state with buffer := List.replicate MAX_DATA_BUFFER_SIZE 0, is_server := 1 }

end Raspijpgs

namespace Raspijpgs

/-- The command line of a process that is given the configuration file
`config` (as `--config <path>`) and the value `arg` for the option `opt` (as
`--<long name> <value>`), each only when present. -/
def command_line (opt : raspi_config_opt) (config arg : Option (List Char)) :
    List (List Char) :=
  "raspijpgs".toList ::
    ((match config with
      | some path => ["--config".toList, path]
      | none => []) ++
     (match arg with
      | some value => [('-' :: '-' :: opt.long_option), value]
      | none => []))

end Raspijpgs

namespace Raspijpgs

/-- A file system with one readable file, `path`, of the given content. -/
def one_file (path content : List Char) : List Char → Option (List Char) :=
  fun name => if name = path then some content else none

end Raspijpgs

/-- The message of `errx`/`err` with which the process was ended, if it was. -/
def Result.message {σ : Type} (r : Result σ) : Option String :=
  match r with
  | Result.ok _ => none
  | Result.exit _ msg => some msg

/-- Whether `i` addresses an element of the array `a`: `0 <= i < length`. -/
def index_in_bounds {α : Type} (a : List α) (i : Int) : Bool :=
  decide (0 ≤ i) && decide (i < (a.length : Int))

/-- The MMAL calls made from the moment the trace was `before` to the moment
it is `after`. -/
def new_calls (before after : List Event) : List Call :=
  calls_of (after.drop before.length)

namespace Raspijpgs

/-- The eviction of the client in slot `j`, as the loop "Test sending" of
`server_service_client` does it: `state.client_addrs[j].sun_family = 0`. -/
def evict_client (j : Nat) (state : raspijpgs_state) : raspijpgs_state :=
  match state.client_addrs[j]? with
  | none => state
  | some addr =>
    { state with client_addrs := state.client_addrs.set j { addr with sun_family := 0 } }

/-- An operation on the client registry: a call of `add_client`, or the
eviction of the client in a slot. -/
inductive RegistryOp where
  | add (client_addr : sockaddr_un)
  | evict (j : Nat)

/-- Run a sequence of registry operations. -/
def run_registry_ops : List RegistryOp → raspijpgs_state → raspijpgs_state
  | [], state => state
  | RegistryOp.add client_addr :: rest, state =>
    run_registry_ops rest (add_client client_addr state)
  | RegistryOp.evict j :: rest, state => run_registry_ops rest (evict_client j state)

/-- Successive `set_set` calls, one for each `--set` value, as long as the
process has not exited. -/
def set_set_all : List (List Char) → raspijpgs_state → Result raspijpgs_state
  | [], state => Result.ok state
  | value :: rest, state => (set_set value state).andThen (set_set_all rest)

/-- The values joined with newlines: the set list in the words of the
specification. -/
def joined_with_newlines : List (List Char) → List Char
  | [] => []
  | [value] => value
  | value :: rest => value ++ '\n' :: joined_with_newlines rest

end Raspijpgs

namespace RaspiMJPEG

/-- A command of 60 bytes, as many as `read` is asked for: `an ` followed by
57 letters. -/
def sixty_byte_command : List Char := "an ".toList ++ List.replicate 57 'x'

end RaspiMJPEG

/-! # Theorems -/

namespace Raspijpgs

theorem distributed_append (a b : List Event) :
    distributed (a ++ b) = distributed a ++ distributed b := by
  induction a with
  | nil => rfl
  | cons e rest ih => cases e <;> simp [distributed, ih]

theorem warnings_append (a b : List Event) :
    warnings (a ++ b) = warnings a ++ warnings b := by
  induction a with
  | nil => rfl
  | cons e rest ih => cases e <;> simp [warnings, ih]

theorem memcpy_take (dst src : List Nat) (off n : Nat) (hoff : off ≤ dst.length)
    (hn : src.length = n) : (memcpy dst off src n).take (off + n) = dst.take off ++ src := by
  subst hn
  unfold memcpy
  rw [List.take_length, List.take_append_of_le_length (by simp [hoff])]
  apply List.take_of_length_le
  simp [hoff]

theorem memcpy_length (dst src : List Nat) (off n : Nat) (hoff : off + n ≤ dst.length)
    (hn : src.length = n) : (memcpy dst off src n).length = dst.length := by
  subst hn
  unfold memcpy
  simp
  omega

/-- C1 (code bug): `jpegencoder_buffer_callback_impl` never resets
`state.buffer_ix` after it has handed an assembled frame to
`distribute_jpeg`.  On the three buffers of `two_frames` no buffer takes the
"Frame too large" branch and the process does not exit, yet the second frame
handed to `distribute_jpeg` is `[1, 2, 3]`, the bytes of the first frame
followed by its own, where the claim requires `[3]`. -/
theorem C1_frame_end_does_not_reset_pending_frame :
    (server_service_mmal_all (Hardware.allSuccess 3) two_frames
      (initial_state (List.replicate 65536 0))).exited = false ∧
    warnings (server_service_mmal_all (Hardware.allSuccess 3) two_frames
      (initial_state (List.replicate 65536 0))).state.trace = [] ∧
    distributed (server_service_mmal_all (Hardware.allSuccess 3) two_frames
      (initial_state (List.replicate 65536 0))).state.trace = [[1, 2], [1, 2, 3]] ∧
    (server_service_mmal_all (Hardware.allSuccess 3) two_frames
      (initial_state (List.replicate 65536 0))).state.buffer_ix = 3 :=
  ⟨by decide, by decide, by decide, by decide⟩

theorem oversize_run (garbage d1 d2 d3 : List Nat) (h1 : d1.length = 40000)
    (h2 : d2.length = 40000) (h3 : d3.length = 1) (hg : garbage.length = 65536) :
    (server_service_mmal_all (Hardware.allSuccess 3)
      [(encoder_port, { handle := 1, data := d1, flags := 0 }),
       (encoder_port, { handle := 2, data := d2, flags := MMAL_BUFFER_HEADER_FLAG_FRAME_END })]
      (initial_state garbage)).state.buffer_ix = 40000 ∧
    warnings (server_service_mmal_all (Hardware.allSuccess 3)
      [(encoder_port, { handle := 1, data := d1, flags := 0 }),
       (encoder_port, { handle := 2, data := d2, flags := MMAL_BUFFER_HEADER_FLAG_FRAME_END })]
      (initial_state garbage)).state.trace
        = ["Frame too large. Dropping. Adjust MAX_DATA_BUFFER_SIZE."] ∧
    distributed (server_service_mmal_all (Hardware.allSuccess 3)
      ([(encoder_port, { handle := 1, data := d1, flags := 0 }),
        (encoder_port, { handle := 2, data := d2, flags := MMAL_BUFFER_HEADER_FLAG_FRAME_END })]
        ++ [(encoder_port, { handle := 3, data := d3,
                             flags := MMAL_BUFFER_HEADER_FLAG_FRAME_END })])
      (initial_state garbage)).state.trace = [d1 ++ d3] := by
  have e1 : (memcpy garbage 0 d1 40000).take (0 + 40000) = garbage.take 0 ++ d1 :=
    memcpy_take garbage d1 0 40000 (by omega) h1
  have l1 : (memcpy garbage 0 d1 40000).length = 65536 := by
    rw [memcpy_length garbage d1 0 40000 (by omega) h1, hg]
  have e2 : (memcpy (memcpy garbage 0 d1 40000) 40000 d3 1).take (40000 + 1)
      = (memcpy garbage 0 d1 40000).take 40000 ++ d3 :=
    memcpy_take _ d3 40000 1 (by omega) h3
  simp at e1 e2
  simp [server_service_mmal_all, jpegencoder_buffer_callback_impl, encoder_port, assemble,
    Result.andThen, mmal, mmal_void, release_and_resubmit, mmal_queue_get,
    Hardware.allSuccess, initial_state, MMAL_BUFFER_HEADER_T.length,
    MMAL_BUFFER_HEADER_T.frame_end, MMAL_BUFFER_HEADER_FLAG_FRAME_END, MAX_DATA_BUFFER_SIZE,
    warnx, distribute_jpeg, Result.state, distributed, distributed_append, warnings,
    warnings_append, h1, h2, h3, hg, e1, e2]

/-- C2 (code bug): the "Frame too large" branch of
`jpegencoder_buffer_callback_impl` only warns.  After the two fragments of
`oversize_frame` (the second one overflows and ends the frame) the pending
frame is not empty, `state.buffer_ix` is still 40000, and the next frame
`[3]`, which fits, is emitted as the 40000 bytes of the dropped frame
followed by `3`, where the claim requires an empty pending frame and the
frame `[3]`. -/
theorem C2_oversize_frame_stays_pending :
    (server_service_mmal_all (Hardware.allSuccess 3) oversize_frame
      (initial_state (List.replicate 65536 0))).state.buffer_ix = 40000 ∧
    warnings (server_service_mmal_all (Hardware.allSuccess 3) oversize_frame
      (initial_state (List.replicate 65536 0))).state.trace
        = ["Frame too large. Dropping. Adjust MAX_DATA_BUFFER_SIZE."] ∧
    distributed (server_service_mmal_all (Hardware.allSuccess 3)
      (oversize_frame ++ next_frame) (initial_state (List.replicate 65536 0))).state.trace
        = [List.replicate 40000 1 ++ [3]] := by
  unfold oversize_frame next_frame
  exact oversize_run (List.replicate 65536 0) (List.replicate 40000 1)
    (List.replicate 40000 2) [3] (List.length_replicate _ _) (List.length_replicate _ _) rfl
    (List.length_replicate _ _)

end Raspijpgs

theorem Extends.refl {σ : Type} (P : Event → Prop) (tr : σ → List Event) (s : σ) :
    Extends P tr s s :=
  ⟨[], by simp, by simp⟩

theorem Extends.trans {σ : Type} {P : Event → Prop} {tr : σ → List Event} {a b c : σ}
    (h1 : Extends P tr a b) (h2 : Extends P tr b c) : Extends P tr a c := by
  obtain ⟨es1, e1, p1⟩ := h1
  obtain ⟨es2, e2, p2⟩ := h2
  refine ⟨es1 ++ es2, by rw [e2, e1, List.append_assoc], ?_⟩
  intro e he
  rcases List.mem_append.mp he with h | h
  · exact p1 e h
  · exact p2 e h

theorem Extends.andThen {σ : Type} {P : Event → Prop} {tr : σ → List Event} {s : σ}
    {r : Result σ} {g : σ → Result σ} (h1 : Extends P tr s r.state)
    (h2 : ∀ s1, Extends P tr s1 (g s1).state) : Extends P tr s (r.andThen g).state := by
  cases r with
  | ok s1 => exact Extends.trans h1 (h2 s1)
  | exit s1 msg => exact h1

theorem Extends.one {σ : Type} {P : Event → Prop} {tr : σ → List Event} {s s' : σ}
    (e : Event) (h : tr s' = tr s ++ [e]) (hP : P e) : Extends P tr s s' :=
  ⟨[e], h, by simpa using hP⟩

namespace Raspijpgs

end Raspijpgs

namespace Raspijpgs

theorem callback_zero_length_recycled (hw : Hardware) (pipe_ok : Bool) (port : MMAL_PORT_T)
    (buffer : MMAL_BUFFER_HEADER_T) (s : raspijpgs_state) (hzero : buffer.length = 0) :
    jpegencoder_buffer_callback hw pipe_ok port buffer s
      = release_and_resubmit hw port buffer s := by
  unfold jpegencoder_buffer_callback
  simp [hzero]

end Raspijpgs

namespace RaspiMJPEG

theorem mjpeg_expect_success_state (hw : Hardware) (c : Call) (msg : String)
    (s : RaspiMJPEG_state) : (expect_success hw c msg s).state = (mmal hw c s).2 := by
  unfold expect_success mmal
  cases hs : hw.status s.trace.length <;> rfl

theorem mjpeg_expect_success_extends {P : Event → Prop} (hw : Hardware) (c : Call)
    (hP : ∀ st, P (Event.call c st)) (msg : String) (s : RaspiMJPEG_state) :
    Extends P RaspiMJPEG_state.trace s (expect_success hw c msg s).state := by
  rw [mjpeg_expect_success_state]
  exact Extends.one _ rfl (hP _)

theorem cam_set_annotation_extends {P : Event → Prop}
    (hP : ∀ p param st, P (Event.call (Call.mmal_port_parameter_set p param) st))
    (hw : Hardware) (os : Libc.OS) (s : RaspiMJPEG_state) :
    Extends P RaspiMJPEG_state.trace s ( cam_set_annotation hw os s).state := by
  unfold cam_set_annotation
  split <;> exact mjpeg_expect_success_extends hw _ (hP _ _) _ _

theorem write_payload_extends {P : Event → Prop}
    (hparam : ∀ p param st, P (Event.call (Call.mmal_port_parameter_set p param) st))
    (hlock : ∀ h st, P (Event.call (Call.mmal_buffer_header_mem_lock h) st))
    (hunlock : ∀ h st, P (Event.call (Call.mmal_buffer_header_mem_unlock h) st))
    (hopen : ∀ n ok, P (Event.fopen n ok)) (hclose : ∀ n, P (Event.fclose n))
    (hrename : ∀ a b, P (Event.rename a b))
    (hw : Hardware) (os : Libc.OS) (buffer : MMAL_BUFFER_HEADER_T)
    (hwrite : buffer.length ≠ 0 → ∀ d n, P (Event.fwrite d n)) (s : RaspiMJPEG_state) :
    Extends P RaspiMJPEG_state.trace s (write_payload hw os buffer s).state := by
  unfold write_payload
  apply Extends.andThen
  · split
    · exact Extends.refl _ _ _
    · split
      · exact Extends.refl _ _ _
      · split
        · exact Extends.one _ rfl (hopen _ _)
        · exact Extends.one _ rfl (hopen _ _)
  · intro s1
    apply Extends.andThen
    · split
      · rename_i hlen
        have h3 : Extends P RaspiMJPEG_state.trace s1
            (mmal_void (Call.mmal_buffer_header_mem_unlock buffer.handle)
              (log (Event.fwrite buffer.data
                (os.fwrite (mmal hw (Call.mmal_buffer_header_mem_lock buffer.handle) s1).2.trace.length
                  buffer.length))
                (mmal hw (Call.mmal_buffer_header_mem_lock buffer.handle) s1).2)) :=
          Extends.trans (Extends.trans (Extends.one _ rfl (hlock _ _))
            (Extends.one _ rfl (hwrite hlen _ _))) (Extends.one _ rfl (hunlock _ _))
        simp only []
        split <;> exact h3
      · exact Extends.refl _ _ _
    · intro s2
      split
      · split
        · exact Extends.refl _ _ _
        · refine Extends.trans ?_ ( cam_set_annotation_extends hparam hw os _)
          exact Extends.trans (Extends.one (Event.fclose _) rfl (hclose _))
            (Extends.one (Event.rename _ _) rfl (hrename _ _))
      · exact Extends.refl _ _ _

end RaspiMJPEG


namespace Raspijpgs

theorem release_and_resubmit_state (hw : Hardware) (port : MMAL_PORT_T)
    (buffer : MMAL_BUFFER_HEADER_T) (s : raspijpgs_state) :
    (release_and_resubmit hw port buffer s).state
      = { s with trace := s.trace ++ spec_recycling hw port buffer s.trace.length } := by
  unfold release_and_resubmit spec_recycling mmal_queue_get mmal mmal_void
  cases hp : port.is_enabled
  · simp [Result.state]
  · cases hq : hw.queue_get (s.trace.length + 1)
    · simp [Result.state, hq]
    · cases hs : hw.status (s.trace.length + 2) <;> simp [Result.state, hq, hs]

end Raspijpgs

namespace RaspiMJPEG

theorem mjpeg_release_and_resubmit_state (hw : Hardware) (port : MMAL_PORT_T)
    (buffer : MMAL_BUFFER_HEADER_T) (s : RaspiMJPEG_state) :
    (release_and_resubmit hw port buffer s).state
      = { s with trace := s.trace ++ spec_recycling hw port buffer s.trace.length } := by
  unfold release_and_resubmit spec_recycling mmal_queue_get mmal mmal_void
  cases hp : port.is_enabled
  · simp [Result.state]
  · cases hq : hw.queue_get (s.trace.length + 1)
    · simp [Result.state, hq]
    · cases hs : hw.status (s.trace.length + 2) <;> simp [Result.state, hq, hs]

/-- With a buffer of length 0 that carries no frame end and an open output
file, `write_payload` returns the state unchanged. -/
theorem write_payload_empty (hw : Hardware) (os : Libc.OS) (buffer : MMAL_BUFFER_HEADER_T)
    (t : RaspiMJPEG_state) (hzero : buffer.length = 0) (hopen : t.jpegoutput_file ≠ none)
    (hflag : buffer.frame_end = false) : write_payload hw os buffer t = Result.ok t := by
  unfold write_payload
  cases hf : t.jpegoutput_file with
  | none => exact absurd hf hopen
  | some name => simp [Result.andThen, hzero, hflag]

theorem file_writes_append (a b : List Event) :
    file_writes (a ++ b) = file_writes a ++ file_writes b := by
  induction a with
  | nil => rfl
  | cons e rest ih => cases e <;> simp [file_writes, ih]

theorem file_writes_eq_nil (es : List Event) (h : ∀ e ∈ es, file_writes [e] = []) :
    file_writes es = [] := by
  induction es with
  | nil => rfl
  | cons e rest ih =>
    have h1 := h e (by simp)
    have h2 := ih (fun e' he' => h e' (by simp [he']))
    have h3 : file_writes (e :: rest) = file_writes [e] ++ file_writes rest :=
      file_writes_append [e] rest
    rw [h3, h1, h2]
    rfl

theorem file_writes_of_extends {σ : Type} {tr : σ → List Event} {s s' : σ}
    (h : Extends (fun e => file_writes [e] = []) tr s s') :
    file_writes (tr s') = file_writes (tr s) := by
  obtain ⟨es, he, hp⟩ := h
  rw [he, file_writes_append, file_writes_eq_nil es hp]
  simp

end RaspiMJPEG

/-- C4 (amended): a delivered buffer of length 0, whatever its flags.  In
raspijpgs.c `jpegencoder_buffer_callback` adds to the trace exactly the
recycling step (so no message to the main loop and no frame) and leaves every
other part of the state, the pending frame included, unchanged.  In
RaspiMJPEG.c `jpegencoder_buffer_callback` writes nothing to the output file;
when an output file is open and the buffer does not carry the frame-end flag
it adds exactly the recycling step and leaves the open file, its name, the
image counter and every other global unchanged. -/
theorem C4_zero_length_buffer_is_only_recycled (hw : Hardware) (os : Libc.OS)
    (pipe_ok : Bool) (port : MMAL_PORT_T) (buffer : MMAL_BUFFER_HEADER_T)
    (s : Raspijpgs.raspijpgs_state) (t : RaspiMJPEG.RaspiMJPEG_state)
    (hzero : buffer.length = 0) :
    (Raspijpgs.jpegencoder_buffer_callback hw pipe_ok port buffer s).state
      = { s with trace := s.trace ++ spec_recycling hw port buffer s.trace.length } ∧
    file_writes (RaspiMJPEG.jpegencoder_buffer_callback hw os port buffer t).state.trace
      = file_writes t.trace ∧
    (t.jpegoutput_file ≠ none → buffer.frame_end = false →
      (RaspiMJPEG.jpegencoder_buffer_callback hw os port buffer t).state
        = { t with trace := t.trace ++ spec_recycling hw port buffer t.trace.length }) := by
  refine ⟨?_, ?_, ?_⟩
  · rw [Raspijpgs.callback_zero_length_recycled hw pipe_ok port buffer s hzero]
    exact Raspijpgs.release_and_resubmit_state hw port buffer s
  · apply RaspiMJPEG.file_writes_of_extends
    unfold RaspiMJPEG.jpegencoder_buffer_callback
    apply Extends.andThen
    · exact RaspiMJPEG.write_payload_extends (P := fun e => file_writes [e] = [])
        (fun _ _ _ => rfl) (fun _ _ => rfl) (fun _ _ => rfl) (fun _ _ => rfl) (fun _ => rfl)
        (fun _ _ => rfl) hw os buffer (fun h => absurd hzero h) t
    · intro s1
      rw [RaspiMJPEG.mjpeg_release_and_resubmit_state]
      refine ⟨spec_recycling hw port buffer s1.trace.length, rfl, ?_⟩
      intro e he
      unfold spec_recycling at he
      cases hp : port.is_enabled
      · simp [hp] at he
        subst he
        rfl
      · cases hq : hw.queue_get (s1.trace.length + 1)
        · simp [hp, hq] at he
          rcases he with he | he <;> subst he <;> rfl
        · simp [hp, hq] at he
          rcases he with he | he | he <;> subst he <;> rfl
  · intro hopen hflag
    unfold RaspiMJPEG.jpegencoder_buffer_callback
    rw [RaspiMJPEG.write_payload_empty hw os buffer t hzero hopen hflag]
    exact RaspiMJPEG.mjpeg_release_and_resubmit_state hw port buffer t

/-- Witness of C4: the empty buffer without flags, delivered to raspijpgs in
its initial state and to RaspiMJPEG in the middle of a frame. -/
theorem C4_witness :
    RaspiMJPEG.empty_buffer.length = 0 ∧
    ((Raspijpgs.jpegencoder_buffer_callback (Hardware.allSuccess 3) true
        Raspijpgs.encoder_port RaspiMJPEG.empty_buffer (Raspijpgs.initial_state [])).state
      = { Raspijpgs.initial_state [] with
          trace := (Raspijpgs.initial_state []).trace ++
            spec_recycling (Hardware.allSuccess 3) Raspijpgs.encoder_port
              RaspiMJPEG.empty_buffer (Raspijpgs.initial_state []).trace.length } ∧
    file_writes (RaspiMJPEG.jpegencoder_buffer_callback (Hardware.allSuccess 3)
        Libc.OS.allSuccess Raspijpgs.encoder_port RaspiMJPEG.empty_buffer
        RaspiMJPEG.mid_frame).state.trace
      = file_writes RaspiMJPEG.mid_frame.trace ∧
    (RaspiMJPEG.mid_frame.jpegoutput_file ≠ none →
      RaspiMJPEG.empty_buffer.frame_end = false →
      (RaspiMJPEG.jpegencoder_buffer_callback (Hardware.allSuccess 3) Libc.OS.allSuccess
        Raspijpgs.encoder_port RaspiMJPEG.empty_buffer RaspiMJPEG.mid_frame).state
        = { RaspiMJPEG.mid_frame with
            trace := RaspiMJPEG.mid_frame.trace ++
              spec_recycling (Hardware.allSuccess 3) Raspijpgs.encoder_port
                RaspiMJPEG.empty_buffer RaspiMJPEG.mid_frame.trace.length })) :=
  ⟨by decide,
    C4_zero_length_buffer_is_only_recycled (Hardware.allSuccess 3) Libc.OS.allSuccess true
      Raspijpgs.encoder_port RaspiMJPEG.empty_buffer (Raspijpgs.initial_state [])
      RaspiMJPEG.mid_frame (by decide)⟩

/-- Counterexample to C4 as stated: RaspiMJPEG.c is in the middle of a frame
(the file `cam.jpg0.part` is open, the image counter is 0) and receives a
buffer of length 0 that carries the frame-end flag.  The callback closes the
file, renames it, raises the image counter to 1 and sets the annotation
before it recycles the buffer: it does perform frame-assembly actions. -/
theorem C4_counterexample_empty_frame_end_closes_file :
    RaspiMJPEG.empty_frame_end.length = 0 ∧
    RaspiMJPEG.mid_frame.jpegoutput_file = some "cam.jpg0.part".toList ∧
    RaspiMJPEG.mid_frame.image_cnt = 0 ∧
    (RaspiMJPEG.jpegencoder_buffer_callback (Hardware.allSuccess 3) Libc.OS.allSuccess
      RaspiMJPEG.encoder_port RaspiMJPEG.empty_frame_end
      RaspiMJPEG.mid_frame).state.jpegoutput_file = none ∧
    (RaspiMJPEG.jpegencoder_buffer_callback (Hardware.allSuccess 3) Libc.OS.allSuccess
      RaspiMJPEG.encoder_port RaspiMJPEG.empty_frame_end
      RaspiMJPEG.mid_frame).state.image_cnt = 1 ∧
    (RaspiMJPEG.jpegencoder_buffer_callback (Hardware.allSuccess 3) Libc.OS.allSuccess
      RaspiMJPEG.encoder_port RaspiMJPEG.empty_frame_end
      RaspiMJPEG.mid_frame).state.trace.take 3
      = [Event.fclose "cam.jpg0.part".toList,
         Event.rename "cam.jpg0.part".toList "cam.jpg0".toList,
         Event.call (Call.mmal_port_parameter_set (Port.control Component.camera)
           (Parameter.annotate 0 [] 0)) MMAL_STATUS_T.MMAL_SUCCESS] :=
  ⟨by decide, by decide, by decide, by decide, by decide, by decide⟩

theorem pipeline_calls_append (a b : List Event) :
    pipeline_calls (a ++ b) = pipeline_calls a ++ pipeline_calls b := by
  induction a with
  | nil => rfl
  | cons e rest ih => cases e <;> simp [pipeline_calls, ih]

theorem run_calls_append (live : Bool) (a b : List String) :
    run_calls live (a ++ b) = (run_calls live a).bind (fun l => run_calls l b) := by
  induction a generalizing live with
  | nil => rfl
  | cons f rest ih =>
    simp only [List.cons_append, run_calls]
    split_ifs <;> simp [ih]

namespace RaspiMJPEG

theorem Quiet.quiet_refl (s : RaspiMJPEG_state) : Quiet s s :=
  ⟨⟨[], by simp, rfl⟩, rfl, rfl⟩

theorem Quiet.quiet_trans {a b c : RaspiMJPEG_state} (h1 : Quiet a b) (h2 : Quiet b c) :
    Quiet a c := by
  obtain ⟨⟨es1, e1, p1⟩, r1, f1⟩ := h1
  obtain ⟨⟨es2, e2, p2⟩, r2, f2⟩ := h2
  refine ⟨⟨es1 ++ es2, by rw [e2, e1, List.append_assoc], ?_⟩, r2.trans r1, f2.trans f1⟩
  rw [pipeline_calls_append, p1, p2]
  rfl

theorem Quiet.quiet_andThen {s : RaspiMJPEG_state} {r : Result RaspiMJPEG_state}
    {g : RaspiMJPEG_state → Result RaspiMJPEG_state} (h1 : Quiet s r.state)
    (h2 : ∀ s1, Quiet s1 (g s1).state) : Quiet s (r.andThen g).state := by
  cases r with
  | ok s1 => exact Quiet.quiet_trans h1 (h2 s1)
  | exit s1 msg => exact h1

theorem quiet_mmal (hw : Hardware) (c : Call) (s : RaspiMJPEG_state) :
    Quiet s (mmal hw c s).2 :=
  ⟨⟨[Event.call c (hw.status s.trace.length)], rfl, rfl⟩, rfl, rfl⟩

theorem quiet_mmal_void (c : Call) (s : RaspiMJPEG_state) : Quiet s (mmal_void c s) :=
  ⟨⟨[Event.call c MMAL_STATUS_T.MMAL_SUCCESS], rfl, rfl⟩, rfl, rfl⟩

theorem quiet_expect_success (hw : Hardware) (c : Call) (msg : String)
    (s : RaspiMJPEG_state) : Quiet s (expect_success hw c msg s).state := by
  rw [mjpeg_expect_success_state]
  exact quiet_mmal hw c s

theorem quiet_expect_success_or_enosys (hw : Hardware) (c : Call) (msg : String)
    (s : RaspiMJPEG_state) : Quiet s (expect_success_or_enosys hw c msg s).state := by
  have h : (expect_success_or_enosys hw c msg s).state = (mmal hw c s).2 := by
    unfold expect_success_or_enosys mmal
    cases hs : hw.status s.trace.length <;> rfl
  rw [h]
  exact quiet_mmal hw c s

theorem quiet_ignore_status (hw : Hardware) (c : Call) (s : RaspiMJPEG_state) :
    Quiet s (ignore_status hw c s).state :=
  quiet_mmal hw c s

theorem quiet_send_pool_buffers (hw : Hardware) (n : Nat) (s : RaspiMJPEG_state) :
    Quiet s (send_pool_buffers hw n s).state := by
  induction n generalizing s with
  | zero => exact Quiet.quiet_refl s
  | succ n ih =>
    unfold send_pool_buffers
    have hq : Quiet s (mmal_queue_get hw s).2 :=
      ⟨⟨[Event.call (Call.mmal_queue_get (hw.queue_get s.trace.length))
        MMAL_STATUS_T.MMAL_SUCCESS], rfl, rfl⟩, rfl, rfl⟩
    cases hg : hw.queue_get s.trace.length with
    | none =>
      simp only [mmal_queue_get, hg]
      simp only [mmal_queue_get, hg] at hq
      exact hq
    | some b =>
      simp only [mmal_queue_get, hg]
      simp only [mmal_queue_get, hg] at hq
      exact Quiet.quiet_trans hq (Quiet.quiet_andThen (quiet_expect_success hw _ _ _) (fun s1 => ih s1))

theorem quiet_cam_set_em (hw : Hardware) (s : RaspiMJPEG_state) :
    Quiet s (cam_set_em hw s).state := by
  unfold cam_set_em
  split
  · exact Quiet.quiet_refl s
  · exact quiet_expect_success hw _ _ s

theorem quiet_cam_set_wb (hw : Hardware) (s : RaspiMJPEG_state) :
    Quiet s (cam_set_wb hw s).state := by
  unfold cam_set_wb
  split
  · exact Quiet.quiet_refl s
  · exact quiet_expect_success hw _ _ s

theorem quiet_cam_set_mm (hw : Hardware) (s : RaspiMJPEG_state) :
    Quiet s (cam_set_mm hw s).state := by
  unfold cam_set_mm
  split
  · exact Quiet.quiet_refl s
  · exact quiet_expect_success hw _ _ s

theorem quiet_cam_set_ie (hw : Hardware) (s : RaspiMJPEG_state) :
    Quiet s (cam_set_ie hw s).state := by
  unfold cam_set_ie
  split
  · exact Quiet.quiet_refl s
  · exact quiet_expect_success hw _ _ s

theorem quiet_cam_set_annotation (hw : Hardware) (os : Libc.OS) (s : RaspiMJPEG_state) :
    Quiet s ( cam_set_annotation hw os s).state := by
  unfold cam_set_annotation
  split <;> exact quiet_expect_success hw _ _ s

theorem quiet_mmal_queue_length (hw : Hardware) (s : RaspiMJPEG_state) :
    Quiet s (mmal_queue_length hw s).2 :=
  ⟨⟨[Event.call (Call.mmal_queue_length (hw.queue_length s.trace.length))
    MMAL_STATUS_T.MMAL_SUCCESS], rfl, rfl⟩, rfl, rfl⟩

theorem quiet_queue_and_send (hw : Hardware) (s : RaspiMJPEG_state) :
    Quiet s (send_pool_buffers hw (mmal_queue_length hw s).1.toNat
      (mmal_queue_length hw s).2).state :=
  Quiet.quiet_trans (quiet_mmal_queue_length hw s) (quiet_send_pool_buffers hw _ _)

theorem quiet_division_check (s : RaspiMJPEG_state) :
    Quiet s (if s.video_width = 0 then Result.exit s "division by zero"
      else Result.ok s).state := by
  split <;> exact Quiet.quiet_refl s

theorem start_all_quiet (hw : Hardware) (os : Libc.OS) (s : RaspiMJPEG_state) :
    Quiet (log (Event.invoke "start_all") s) (start_all hw os s).state := by
  unfold start_all
  repeat' (first
    | with_reducible apply Quiet.quiet_andThen
    | intro s1
    | with_reducible exact quiet_expect_success hw _ _ _
    | with_reducible exact quiet_expect_success_or_enosys hw _ _ _
    | with_reducible exact quiet_ignore_status hw _ _
    | with_reducible exact quiet_division_check _
    | with_reducible exact quiet_queue_and_send hw _
    | with_reducible exact quiet_cam_set_em hw _
    | with_reducible exact quiet_cam_set_wb hw _
    | with_reducible exact quiet_cam_set_mm hw _
    | with_reducible exact quiet_cam_set_ie hw _
    | with_reducible exact quiet_cam_set_annotation hw os _
    | exact quiet_expect_success hw _ _ _)

theorem start_all_spec (hw : Hardware) (os : Libc.OS) (s : RaspiMJPEG_state) :
    (start_all hw os s).state.readbuf = s.readbuf ∧
    (start_all hw os s).state.pipe_filename = s.pipe_filename ∧
    ∃ es : List Event, (start_all hw os s).state.trace = s.trace ++ es ∧
      pipeline_calls es = ["start_all"] := by
  obtain ⟨⟨es, he, hp⟩, hr, hf⟩ := start_all_quiet hw os s
  refine ⟨hr, hf, Event.invoke "start_all" :: es, ?_, ?_⟩
  · rw [he]
    simp [log]
  · simp [pipeline_calls, hp]

theorem stop_all_quiet (hw : Hardware) (s : RaspiMJPEG_state) :
    Quiet (log (Event.invoke "stop_all") s) (stop_all hw s) := by
  unfold stop_all
  simp only []
  repeat' (first
    | with_reducible refine Quiet.quiet_trans ?_ (quiet_mmal hw _ _)
    | with_reducible refine Quiet.quiet_trans ?_ (quiet_mmal_void _ _)
    | with_reducible exact Quiet.quiet_refl _)

theorem stop_all_spec (hw : Hardware) (s : RaspiMJPEG_state) :
    (stop_all hw s).readbuf = s.readbuf ∧
    (stop_all hw s).pipe_filename = s.pipe_filename ∧
    ∃ es : List Event, (stop_all hw s).trace = s.trace ++ es ∧
      pipeline_calls es = ["stop_all"] := by
  obtain ⟨⟨es, he, hp⟩, hr, hf⟩ := stop_all_quiet hw s
  refine ⟨hr, hf, Event.invoke "stop_all" :: es, ?_, ?_⟩
  · rw [he]
    simp [log]
  · simp [pipeline_calls, hp]

theorem quiet_cam_set_sharpness (hw : Hardware) (s : RaspiMJPEG_state) :
    Quiet s (cam_set_sharpness hw s).state := by
  unfold cam_set_sharpness
  exact quiet_expect_success hw _ _ s

theorem quiet_cam_set_contrast (hw : Hardware) (s : RaspiMJPEG_state) :
    Quiet s (cam_set_contrast hw s).state := by
  unfold cam_set_contrast
  exact quiet_expect_success hw _ _ s

theorem quiet_cam_set_brightness (hw : Hardware) (s : RaspiMJPEG_state) :
    Quiet s (cam_set_brightness hw s).state := by
  unfold cam_set_brightness
  exact quiet_expect_success hw _ _ s

theorem quiet_cam_set_saturation (hw : Hardware) (s : RaspiMJPEG_state) :
    Quiet s (cam_set_saturation hw s).state := by
  unfold cam_set_saturation
  exact quiet_expect_success hw _ _ s

theorem quiet_cam_set_iso (hw : Hardware) (s : RaspiMJPEG_state) :
    Quiet s (cam_set_iso hw s).state := by
  unfold cam_set_iso
  exact quiet_expect_success hw _ _ s

theorem quiet_cam_set_vs (hw : Hardware) (s : RaspiMJPEG_state) :
    Quiet s (cam_set_vs hw s).state := by
  unfold cam_set_vs
  exact quiet_expect_success hw _ _ s

theorem quiet_cam_set_ec (hw : Hardware) (s : RaspiMJPEG_state) :
    Quiet s (cam_set_ec hw s).state := by
  unfold cam_set_ec
  exact quiet_expect_success hw _ _ s

theorem quiet_cam_set_ce (hw : Hardware) (s : RaspiMJPEG_state) :
    Quiet s (cam_set_ce hw s).state := by
  unfold cam_set_ce
  exact quiet_expect_success hw _ _ s

theorem quiet_cam_set_rotation (hw : Hardware) (s : RaspiMJPEG_state) :
    Quiet s (cam_set_rotation hw s).state := by
  unfold cam_set_rotation
  exact quiet_expect_success hw _ _ s

theorem quiet_cam_set_flip (hw : Hardware) (s : RaspiMJPEG_state) :
    Quiet s (cam_set_flip hw s).state := by
  unfold cam_set_flip
  exact quiet_expect_success hw _ _ s

theorem quiet_cam_set_roi (hw : Hardware) (s : RaspiMJPEG_state) :
    Quiet s (cam_set_roi hw s).state := by
  unfold cam_set_roi
  exact quiet_expect_success hw _ _ s

theorem quiet_cam_set_ss (hw : Hardware) (s : RaspiMJPEG_state) :
    Quiet s (cam_set_ss hw s).state := by
  unfold cam_set_ss
  exact quiet_expect_success hw _ _ s

theorem of_quiet {s s0 r : RaspiMJPEG_state} {rb : List Char} (h : Quiet s0 r)
    (ht : s0.trace = s.trace) (hr : s0.readbuf = rb)
    (hp : s0.pipe_filename = s.pipe_filename) :
    r.readbuf = rb ∧ r.pipe_filename = s.pipe_filename ∧
      ∃ es : List Event, r.trace = s.trace ++ es ∧ pipeline_calls es = [] := by
  obtain ⟨⟨es, he, hc⟩, hr', hp'⟩ := h
  exact ⟨hr'.trans hr, hp'.trans hp, es, by rw [he, ht], hc⟩

theorem command_sh_spec (hw : Hardware) (length : Int) (s : RaspiMJPEG_state) :
    (command_sh hw length s).state.readbuf = blank_command s.readbuf length ∧
    (command_sh hw length s).state.pipe_filename = s.pipe_filename ∧
      ∃ es : List Event, (command_sh hw length s).state.trace = s.trace ++ es ∧
        pipeline_calls es = [] := by
  unfold command_sh
  exact of_quiet (quiet_cam_set_sharpness hw _) rfl rfl rfl

theorem command_co_spec (hw : Hardware) (length : Int) (s : RaspiMJPEG_state) :
    (command_co hw length s).state.readbuf = blank_command s.readbuf length ∧
    (command_co hw length s).state.pipe_filename = s.pipe_filename ∧
      ∃ es : List Event, (command_co hw length s).state.trace = s.trace ++ es ∧
        pipeline_calls es = [] := by
  unfold command_co
  exact of_quiet (quiet_cam_set_contrast hw _) rfl rfl rfl

theorem command_br_spec (hw : Hardware) (length : Int) (s : RaspiMJPEG_state) :
    (command_br hw length s).state.readbuf = blank_command s.readbuf length ∧
    (command_br hw length s).state.pipe_filename = s.pipe_filename ∧
      ∃ es : List Event, (command_br hw length s).state.trace = s.trace ++ es ∧
        pipeline_calls es = [] := by
  unfold command_br
  exact of_quiet (quiet_cam_set_brightness hw _) rfl rfl rfl

theorem command_sa_spec (hw : Hardware) (length : Int) (s : RaspiMJPEG_state) :
    (command_sa hw length s).state.readbuf = blank_command s.readbuf length ∧
    (command_sa hw length s).state.pipe_filename = s.pipe_filename ∧
      ∃ es : List Event, (command_sa hw length s).state.trace = s.trace ++ es ∧
        pipeline_calls es = [] := by
  unfold command_sa
  exact of_quiet (quiet_cam_set_saturation hw _) rfl rfl rfl

theorem command_is_spec (hw : Hardware) (length : Int) (s : RaspiMJPEG_state) :
    (command_is hw length s).state.readbuf = blank_command s.readbuf length ∧
    (command_is hw length s).state.pipe_filename = s.pipe_filename ∧
      ∃ es : List Event, (command_is hw length s).state.trace = s.trace ++ es ∧
        pipeline_calls es = [] := by
  unfold command_is
  exact of_quiet (quiet_cam_set_iso hw _) rfl rfl rfl

theorem command_ec_spec (hw : Hardware) (length : Int) (s : RaspiMJPEG_state) :
    (command_ec hw length s).state.readbuf = blank_command s.readbuf length ∧
    (command_ec hw length s).state.pipe_filename = s.pipe_filename ∧
      ∃ es : List Event, (command_ec hw length s).state.trace = s.trace ++ es ∧
        pipeline_calls es = [] := by
  unfold command_ec
  exact of_quiet (quiet_cam_set_ec hw _) rfl rfl rfl

theorem command_em_spec (hw : Hardware) (length : Int) (s : RaspiMJPEG_state) :
    (command_em hw length s).state.readbuf = store s.readbuf length (Char.ofNat 0) ∧
    (command_em hw length s).state.pipe_filename = s.pipe_filename ∧
      ∃ es : List Event, (command_em hw length s).state.trace = s.trace ++ es ∧
        pipeline_calls es = [] := by
  unfold command_em
  exact of_quiet (quiet_cam_set_em hw _) rfl rfl rfl

theorem command_wb_spec (hw : Hardware) (length : Int) (s : RaspiMJPEG_state) :
    (command_wb hw length s).state.readbuf = store s.readbuf length (Char.ofNat 0) ∧
    (command_wb hw length s).state.pipe_filename = s.pipe_filename ∧
      ∃ es : List Event, (command_wb hw length s).state.trace = s.trace ++ es ∧
        pipeline_calls es = [] := by
  unfold command_wb
  exact of_quiet (quiet_cam_set_wb hw _) rfl rfl rfl

theorem command_mm_spec (hw : Hardware) (length : Int) (s : RaspiMJPEG_state) :
    (command_mm hw length s).state.readbuf = store s.readbuf length (Char.ofNat 0) ∧
    (command_mm hw length s).state.pipe_filename = s.pipe_filename ∧
      ∃ es : List Event, (command_mm hw length s).state.trace = s.trace ++ es ∧
        pipeline_calls es = [] := by
  unfold command_mm
  exact of_quiet (quiet_cam_set_mm hw _) rfl rfl rfl

theorem command_ie_spec (hw : Hardware) (length : Int) (s : RaspiMJPEG_state) :
    (command_ie hw length s).state.readbuf = store s.readbuf length (Char.ofNat 0) ∧
    (command_ie hw length s).state.pipe_filename = s.pipe_filename ∧
      ∃ es : List Event, (command_ie hw length s).state.trace = s.trace ++ es ∧
        pipeline_calls es = [] := by
  unfold command_ie
  exact of_quiet (quiet_cam_set_ie hw _) rfl rfl rfl

theorem command_ce_spec (hw : Hardware) (length : Int) (s : RaspiMJPEG_state) :
    (command_ce hw length s).state.readbuf = readbuf_ce s.readbuf length ∧
    (command_ce hw length s).state.pipe_filename = s.pipe_filename ∧
      ∃ es : List Event, (command_ce hw length s).state.trace = s.trace ++ es ∧
        pipeline_calls es = [] := by
  unfold command_ce
  exact of_quiet (quiet_cam_set_ce hw _) rfl rfl rfl

theorem command_ro_spec (hw : Hardware) (length : Int) (s : RaspiMJPEG_state) :
    (command_ro hw length s).state.readbuf = blank_command s.readbuf length ∧
    (command_ro hw length s).state.pipe_filename = s.pipe_filename ∧
      ∃ es : List Event, (command_ro hw length s).state.trace = s.trace ++ es ∧
        pipeline_calls es = [] := by
  unfold command_ro
  exact of_quiet (quiet_cam_set_rotation hw _) rfl rfl rfl

theorem command_ri_spec (hw : Hardware) (length : Int) (s : RaspiMJPEG_state) :
    (command_ri hw length s).state.readbuf = readbuf_ri s.readbuf length ∧
    (command_ri hw length s).state.pipe_filename = s.pipe_filename ∧
      ∃ es : List Event, (command_ri hw length s).state.trace = s.trace ++ es ∧
        pipeline_calls es = [] := by
  unfold command_ri
  exact of_quiet (quiet_cam_set_roi hw _) rfl rfl rfl

theorem command_ss_spec (hw : Hardware) (length : Int) (s : RaspiMJPEG_state) :
    (command_ss hw length s).state.readbuf = blank_command s.readbuf length ∧
    (command_ss hw length s).state.pipe_filename = s.pipe_filename ∧
      ∃ es : List Event, (command_ss hw length s).state.trace = s.trace ++ es ∧
        pipeline_calls es = [] := by
  unfold command_ss
  exact of_quiet (quiet_cam_set_ss hw _) rfl rfl rfl

theorem command_vs_spec (hw : Hardware) (s : RaspiMJPEG_state) :
    (command_vs hw s).state.readbuf = s.readbuf ∧
    (command_vs hw s).state.pipe_filename = s.pipe_filename ∧
      ∃ es : List Event, (command_vs hw s).state.trace = s.trace ++ es ∧
        pipeline_calls es = [] := by
  unfold command_vs
  exact of_quiet (quiet_cam_set_vs hw _) rfl rfl rfl

theorem command_fl_spec (hw : Hardware) (s : RaspiMJPEG_state) :
    (command_fl hw s).state.readbuf = s.readbuf ∧
    (command_fl hw s).state.pipe_filename = s.pipe_filename ∧
      ∃ es : List Event, (command_fl hw s).state.trace = s.trace ++ es ∧
        pipeline_calls es = [] := by
  unfold command_fl
  exact of_quiet (quiet_cam_set_flip hw _) rfl rfl rfl

theorem command_an_spec (length : Int) (s : RaspiMJPEG_state) :
    (command_an length s).state.readbuf = blank_command s.readbuf length ∧
    (command_an length s).state.pipe_filename = s.pipe_filename ∧
      ∃ es : List Event, (command_an length s).state.trace = s.trace ++ es ∧
        pipeline_calls es = [] :=
  ⟨rfl, rfl, [], by simp [command_an, Result.state], rfl⟩

theorem command_ab_spec (s : RaspiMJPEG_state) :
    (command_ab s).state.readbuf = s.readbuf ∧
    (command_ab s).state.pipe_filename = s.pipe_filename ∧
      ∃ es : List Event, (command_ab s).state.trace = s.trace ++ es ∧
        pipeline_calls es = [] :=
  ⟨rfl, rfl, [], by simp [command_ab, Result.state], rfl⟩

theorem command_px_spec (hw : Hardware) (os : Libc.OS) (length : Int)
    (s : RaspiMJPEG_state) :
    (command_px hw os length s).state.readbuf = readbuf_px s.readbuf length ∧
    (command_px hw os length s).state.pipe_filename = s.pipe_filename ∧
      ∃ es : List Event, (command_px hw os length s).state.trace = s.trace ++ es ∧
        pipeline_calls es = ["stop_all", "start_all"] := by
  unfold command_px
  simp only []
  obtain ⟨h1, h2, es1, h3, h4⟩ := start_all_spec hw os
    { stop_all hw s with
      readbuf := readbuf_px s.readbuf length
      video_width := Libc.to_uint32 (Libc.atoi (string_at (readbuf_px s.readbuf length) 0))
      video_height := Libc.to_uint32 (Libc.atoi (string_at (readbuf_px s.readbuf length) 8))
      image_width := Libc.to_uint32 (Libc.atoi (string_at (readbuf_px s.readbuf length) 19))
      image_height := Libc.to_uint32 (Libc.atoi (string_at (readbuf_px s.readbuf length) 24)) }
  obtain ⟨_, h6, es0, h7, h8⟩ := stop_all_spec hw s
  refine ⟨h1, h2.trans h6, es0 ++ es1, ?_, ?_⟩
  · rw [h3]
    show (stop_all hw s).trace ++ es1 = s.trace ++ (es0 ++ es1)
    rw [h7, List.append_assoc]
  · rw [pipeline_calls_append, h8, h4]
    rfl

theorem command_ru_spec (hw : Hardware) (os : Libc.OS) (s : RaspiMJPEG_state) :
    (command_ru hw os s).state.readbuf = s.readbuf ∧
    (command_ru hw os s).state.pipe_filename = s.pipe_filename ∧
      ∃ es : List Event, (command_ru hw os s).state.trace = s.trace ++ es ∧
        pipeline_calls es
          = (if char_at s.readbuf 3 = '0' then ["stop_all"] else ["start_all"]) := by
  unfold command_ru
  split
  · exact stop_all_spec hw s
  · exact start_all_spec hw os s

theorem dispatch_spec (hw : Hardware) (os : Libc.OS) (length : Int) (s : RaspiMJPEG_state) :
    (dispatch hw os length s).state.readbuf = readbuf_after length s.readbuf ∧
    (dispatch hw os length s).state.pipe_filename = s.pipe_filename ∧
    ∃ es : List Event, (dispatch hw os length s).state.trace = s.trace ++ es ∧
      pipeline_calls es = invocations_of (command_of s.readbuf) := by
  unfold dispatch readbuf_after command_of
  cases branch_of s.readbuf
  case px => exact command_px_spec hw os length s
  case an => exact command_an_spec length s
  case ab => exact command_ab_spec s
  case sh => exact command_sh_spec hw length s
  case co => exact command_co_spec hw length s
  case br => exact command_br_spec hw length s
  case sa => exact command_sa_spec hw length s
  case is => exact command_is_spec hw length s
  case vs => exact command_vs_spec hw s
  case ec => exact command_ec_spec hw length s
  case em => exact command_em_spec hw length s
  case wb => exact command_wb_spec hw length s
  case mm => exact command_mm_spec hw length s
  case ie => exact command_ie_spec hw length s
  case ce => exact command_ce_spec hw length s
  case ro => exact command_ro_spec hw length s
  case fl => exact command_fl_spec hw s
  case ri => exact command_ri_spec hw length s
  case ss => exact command_ss_spec hw length s
  case ru =>
    obtain ⟨h1, h2, es, h3, h4⟩ := command_ru_spec hw os s
    refine ⟨h1, h2, es, h3, ?_⟩
    rw [h4]
    simp only []
    split <;> rfl
  case unknown => exact ⟨rfl, rfl, [], by simp [Result.state], rfl⟩

theorem disciplined_cons {live : Bool} {c : PipelineCommand} {cs : List PipelineCommand}
    (h : disciplined live (c :: cs) = true) :
    ∃ live' : Bool, run_calls live (invocations_of c) = some live' ∧
      disciplined live' cs = true := by
  cases c <;> cases live <;> simp_all [disciplined, invocations_of, run_calls]

theorem alternating_of_run_calls {calls : List String} {live : Bool}
    (h : run_calls false calls = some live) : alternating calls = true := by
  unfold alternating
  rw [h]
  rfl

/-- After a dispatch that respects the discipline, the rest of the loop does
too. -/
theorem main_loop_after_dispatch (hw : Hardware) (os : Libc.OS) (rest : List PipeRead)
    (ih : ∀ (s : RaspiMJPEG_state) (live : Bool),
      run_calls false (pipeline_calls s.trace) = some live →
      disciplined live (commands s.pipe_filename.isSome rest s.readbuf) = true →
      alternating (pipeline_calls (main_loop hw os rest s).state.trace) = true)
    (length : Int) (s0 : RaspiMJPEG_state) (live : Bool)
    (hpipe : s0.pipe_filename.isSome = true)
    (hlive : run_calls false (pipeline_calls s0.trace) = some live)
    (hdisc : disciplined live (command_of s0.readbuf ::
      commands true rest (readbuf_after length s0.readbuf)) = true) :
    alternating (pipeline_calls
      ((dispatch hw os length s0).andThen (main_loop hw os rest)).state.trace) = true := by
  obtain ⟨live', hrun, hrest⟩ := disciplined_cons hdisc
  obtain ⟨hrb, hpf, es, htr, hcalls⟩ := dispatch_spec hw os length s0
  have hlive' : run_calls false (pipeline_calls (dispatch hw os length s0).state.trace)
      = some live' := by
    rw [htr, pipeline_calls_append, run_calls_append, hlive, hcalls]
    exact hrun
  cases hd : dispatch hw os length s0 with
  | exit s1 msg =>
    rw [hd] at hlive'
    exact alternating_of_run_calls hlive'
  | ok s1 =>
    rw [hd] at hlive' hrb hpf
    simp only [Result.state] at hlive' hrb hpf
    apply ih s1 live' hlive'
    rw [hpf, hpipe, hrb]
    exact hrest

theorem loop_iteration_no_pipe (hw : Hardware) (os : Libc.OS) (input : PipeRead)
    (s : RaspiMJPEG_state) (hp : s.pipe_filename = none) :
    loop_iteration hw os input s = Result.ok s := by
  unfold loop_iteration
  rw [hp]

theorem loop_iteration_open_failed (hw : Hardware) (os : Libc.OS) (input : PipeRead)
    (s : RaspiMJPEG_state) (name : List Char) (hp : s.pipe_filename = some name)
    (hfd : input.fd_ok = false) :
    loop_iteration hw os input s = Result.exit s "Could not open PIPE" := by
  unfold loop_iteration
  rw [hp, hfd]
  rfl

theorem loop_iteration_read_error (hw : Hardware) (os : Libc.OS) (input : PipeRead)
    (s : RaspiMJPEG_state) (name : List Char) (hp : s.pipe_filename = some name)
    (hfd : input.fd_ok = true) (hdata : input.data = none) :
    loop_iteration hw os input s = dispatch hw os (-1) s := by
  unfold loop_iteration
  rw [hp, hfd, hdata]
  rfl

theorem loop_iteration_read (hw : Hardware) (os : Libc.OS) (input : PipeRead)
    (s : RaspiMJPEG_state) (name : List Char) (data : List Char)
    (hp : s.pipe_filename = some name) (hfd : input.fd_ok = true)
    (hdata : input.data = some data) (hlen : ((data.take 60).length : Int) ≠ 0) :
    loop_iteration hw os input s
      = dispatch hw os ((data.take 60).length : Int)
          { s with readbuf := read_into s.readbuf data } := by
  unfold loop_iteration
  rw [hp, hfd, hdata]
  exact if_pos hlen

theorem loop_iteration_read_nothing (hw : Hardware) (os : Libc.OS) (input : PipeRead)
    (s : RaspiMJPEG_state) (name : List Char) (data : List Char)
    (hp : s.pipe_filename = some name) (hfd : input.fd_ok = true)
    (hdata : input.data = some data) (hlen : ¬ ((data.take 60).length : Int) ≠ 0) :
    loop_iteration hw os input s = Result.ok s := by
  unfold loop_iteration
  rw [hp, hfd, hdata]
  exact if_neg hlen

theorem commands_no_pipe (input : PipeRead) (rest : List PipeRead) (readbuf : List Char) :
    commands false (input :: rest) readbuf = commands false rest readbuf := by
  rw [commands]
  rfl

theorem commands_read_error (input : PipeRead) (rest : List PipeRead) (readbuf : List Char)
    (hfd : input.fd_ok = true) (hdata : input.data = none) :
    commands true (input :: rest) readbuf
      = command_of readbuf :: commands true rest (readbuf_after (-1) readbuf) := by
  rw [commands, hfd, hdata]
  rfl

theorem commands_read (input : PipeRead) (rest : List PipeRead) (readbuf data : List Char)
    (hfd : input.fd_ok = true) (hdata : input.data = some data)
    (hlen : ((data.take 60).length : Int) ≠ 0) :
    commands true (input :: rest) readbuf
      = command_of (read_into readbuf data) ::
          commands true rest (readbuf_after ((data.take 60).length : Int)
            (read_into readbuf data)) := by
  rw [commands, hfd, hdata]
  exact if_pos hlen

theorem commands_read_nothing (input : PipeRead) (rest : List PipeRead)
    (readbuf data : List Char) (hfd : input.fd_ok = true) (hdata : input.data = some data)
    (hlen : ¬ ((data.take 60).length : Int) ≠ 0) :
    commands true (input :: rest) readbuf = commands true rest readbuf := by
  rw [commands, hfd, hdata]
  exact if_neg hlen

theorem main_loop_alternates (hw : Hardware) (os : Libc.OS) (inputs : List PipeRead) :
    ∀ (s : RaspiMJPEG_state) (live : Bool),
      run_calls false (pipeline_calls s.trace) = some live →
      disciplined live (commands s.pipe_filename.isSome inputs s.readbuf) = true →
      alternating (pipeline_calls (main_loop hw os inputs s).state.trace) = true := by
  induction inputs with
  | nil =>
    intro s live hlive hdisc
    simp only [commands, disciplined] at hdisc
    subst hdisc
    obtain ⟨_, _, es, htr, hcalls⟩ := stop_all_spec hw s
    apply @alternating_of_run_calls _ false
    simp only [main_loop, Result.state]
    rw [htr, pipeline_calls_append, run_calls_append, hlive, hcalls]
    rfl
  | cons input rest ih =>
    intro s live hlive hdisc
    rw [main_loop]
    cases hp : s.pipe_filename with
    | none =>
      rw [loop_iteration_no_pipe hw os input s hp]
      rw [hp] at hdisc
      apply ih s live hlive
      rw [hp]
      have hdisc' := hdisc
      rw [show (none : Option (List Char)).isSome = false from rfl,
        commands_no_pipe input rest s.readbuf] at hdisc'
      exact hdisc'
    | some name =>
      rw [hp] at hdisc
      have hpipe : s.pipe_filename.isSome = true := by rw [hp]; rfl
      cases hfd : input.fd_ok with
      | false =>
        rw [loop_iteration_open_failed hw os input s name hp hfd]
        exact alternating_of_run_calls hlive
      | true =>
        cases hdata : input.data with
        | none =>
          rw [loop_iteration_read_error hw os input s name hp hfd hdata]
          have hdisc' := hdisc
          rw [show (some name : Option (List Char)).isSome = true from rfl,
            commands_read_error input rest s.readbuf hfd hdata] at hdisc'
          exact main_loop_after_dispatch hw os rest ih (-1) s live hpipe hlive hdisc'
        | some data =>
          by_cases hlen : ((data.take 60).length : Int) ≠ 0
          · rw [loop_iteration_read hw os input s name data hp hfd hdata hlen]
            have hdisc' := hdisc
            rw [show (some name : Option (List Char)).isSome = true from rfl,
              commands_read input rest s.readbuf data hfd hdata hlen] at hdisc'
            exact main_loop_after_dispatch hw os rest ih ((data.take 60).length : Int)
              { s with readbuf := read_into s.readbuf data } live hpipe hlive hdisc'
          · rw [loop_iteration_read_nothing hw os input s name data hp hfd hdata hlen]
            have hdisc' := hdisc
            rw [show (some name : Option (List Char)).isSome = true from rfl,
              commands_read_nothing input rest s.readbuf data hfd hdata hlen] at hdisc'
            apply ih s live hlive
            rw [hpipe]
            exact hdisc'

end RaspiMJPEG

/-- C5 (amended): for every hardware and operating-system behaviour and every
sequence of reads from the control pipe of RaspiMJPEG.c whose dispatched
commands are disciplined (`px` and `ru 0` only while a pipeline instance
exists, a resuming `ru` only while none exists, and an instance exists at the
final shutdown), `start_all` is invoked only when no pipeline instance exists
and `stop_all` only when one exists, from the `start_all` of `main` to the
final `stop_all`. -/
theorem C5_pipeline_calls_alternate_for_disciplined_commands (hw : Hardware)
    (os : Libc.OS) (inputs : List RaspiMJPEG.PipeRead) (s : RaspiMJPEG.RaspiMJPEG_state)
    (hfresh : pipeline_calls s.trace = [])
    (hdisc : RaspiMJPEG.disciplined true
      (RaspiMJPEG.commands s.pipe_filename.isSome inputs s.readbuf) = true) :
    alternating (pipeline_calls (RaspiMJPEG.main hw os inputs s).state.trace) = true := by
  obtain ⟨hrb, hpf, es, htr, hcalls⟩ := RaspiMJPEG.start_all_spec hw os s
  have hlive : run_calls false
      (pipeline_calls (RaspiMJPEG.start_all hw os s).state.trace) = some true := by
    rw [htr, pipeline_calls_append, hfresh, hcalls]
    rfl
  unfold RaspiMJPEG.main
  cases hs : RaspiMJPEG.start_all hw os s with
  | exit s1 msg =>
    rw [hs] at hlive
    exact RaspiMJPEG.alternating_of_run_calls hlive
  | ok s1 =>
    rw [hs] at hlive hrb hpf
    simp only [Result.state] at hlive hrb hpf
    apply RaspiMJPEG.main_loop_alternates hw os inputs s1 true hlive
    rw [hpf, hrb]
    exact hdisc

/-- Witness of C5: from the configured defaults, the operator halts the
stream, resumes it and changes the resolution. -/
theorem C5_witness :
    (pipeline_calls RaspiMJPEG.configured.trace = [] ∧
      RaspiMJPEG.disciplined true
        (RaspiMJPEG.commands RaspiMJPEG.configured.pipe_filename.isSome
          [{ fd_ok := true, data := some "ru 0".toList },
           { fd_ok := true, data := some "ru 1".toList },
           { fd_ok := true, data := some "px 1280 0720 25 25 2592 1944 15 01".toList }]
          RaspiMJPEG.configured.readbuf) = true) ∧
    alternating (pipeline_calls (RaspiMJPEG.main (Hardware.allSuccess 3) Libc.OS.allSuccess
      [{ fd_ok := true, data := some "ru 0".toList },
       { fd_ok := true, data := some "ru 1".toList },
       { fd_ok := true, data := some "px 1280 0720 25 25 2592 1944 15 01".toList }]
      RaspiMJPEG.configured).state.trace) = true :=
  ⟨⟨by decide, by decide⟩,
    C5_pipeline_calls_alternate_for_disciplined_commands (Hardware.allSuccess 3)
      Libc.OS.allSuccess _ RaspiMJPEG.configured (by decide) (by decide)⟩

/-- Counterexample to C5 as stated: while the stream runs, the command `ru 1`
arrives.  `main` has invoked `start_all`, the command invokes `start_all`
again although the first pipeline is still alive; `stop_all` runs only once,
at shutdown. -/
theorem C5_counterexample_ru_starts_a_second_pipeline :
    pipeline_calls (RaspiMJPEG.main (Hardware.allSuccess 3) Libc.OS.allSuccess
      [{ fd_ok := true, data := some "ru 1".toList }] RaspiMJPEG.configured).state.trace
      = ["start_all", "start_all", "stop_all"] ∧
    alternating (pipeline_calls (RaspiMJPEG.main (Hardware.allSuccess 3) Libc.OS.allSuccess
      [{ fd_ok := true, data := some "ru 1".toList }] RaspiMJPEG.configured).state.trace)
      = false :=
  ⟨by decide, by decide⟩

theorem calls_of_append (a b : List Event) : calls_of (a ++ b) = calls_of a ++ calls_of b := by
  induction a with
  | nil => rfl
  | cons e rest ih => cases e <;> simp [calls_of, ih]

/-- C6: `stop_all`, in raspijpgs.c and in RaspiMJPEG.c, from every state and
whatever the hardware answers, makes exactly these MMAL calls in this order:
disable the encoder output port, destroy the connection camera -> resizer,
destroy the connection resizer -> encoder, destroy the encoder buffer pool,
disable the encoder, disable the camera, destroy the encoder, destroy the
camera.  So the port is disabled before any connection is destroyed and the
pool is destroyed before any component is disabled. -/
theorem C6_stop_all_order_of_operations (hw : Hardware) (s : Raspijpgs.raspijpgs_state)
    (t : RaspiMJPEG.RaspiMJPEG_state) :
    calls_of ((Raspijpgs.stop_all hw s).trace.drop s.trace.length) = spec_teardown_order ∧
    calls_of ((RaspiMJPEG.stop_all hw t).trace.drop t.trace.length) = spec_teardown_order := by
  constructor
  · simp [Raspijpgs.stop_all, Raspijpgs.mmal, Raspijpgs.mmal_void, Raspijpgs.invoke,
      calls_of, spec_teardown_order]
  · simp [RaspiMJPEG.stop_all, RaspiMJPEG.mmal, RaspiMJPEG.mmal_void, RaspiMJPEG.log,
      calls_of, spec_teardown_order]

/-- C7 (code bug): `start_all` creates the camera, the encoder and the
resizer, but `stop_all` destroys only the encoder and the camera.  On
hardware where every call succeeds, after `start_all` followed by `stop_all`
the resizer component is still alive, in raspijpgs.c and in RaspiMJPEG.c. -/
theorem C7_stop_all_leaves_the_resizer_alive :
    (Raspijpgs.start_all (Hardware.allSuccess 3)
      (Raspijpgs.fillin_defaults (Raspijpgs.initial_state []))).exited = false ∧
    live_components (Raspijpgs.start_all (Hardware.allSuccess 3)
      (Raspijpgs.fillin_defaults (Raspijpgs.initial_state []))).state.trace []
      = [Component.camera, Component.jpegencoder, Component.resizer] ∧
    live_components (Raspijpgs.stop_all (Hardware.allSuccess 3)
      (Raspijpgs.start_all (Hardware.allSuccess 3)
        (Raspijpgs.fillin_defaults (Raspijpgs.initial_state []))).state).trace []
      = [Component.resizer] ∧
    (RaspiMJPEG.start_all (Hardware.allSuccess 3) Libc.OS.allSuccess
      RaspiMJPEG.configured).exited = false ∧
    live_components (RaspiMJPEG.stop_all (Hardware.allSuccess 3)
      (RaspiMJPEG.start_all (Hardware.allSuccess 3) Libc.OS.allSuccess
        RaspiMJPEG.configured).state).trace []
      = [Component.resizer] :=
  ⟨by decide, by decide, by decide, by decide, by decide⟩

namespace Raspijpgs

end Raspijpgs

namespace RaspiMJPEG

end RaspiMJPEG

/-- C9 (code bug): `width_apply` has an empty body.  When the running server
handles the client request `width=640`, `parse_config_line` stores the value
in the environment and makes no hardware call: neither `stop_all` nor
`start_all` is entered, the trace of hardware calls is unchanged, and the
width committed on the resizer output is still the default 320. -/
theorem C9_width_command_does_not_rebuild_the_pipeline :
    Raspijpgs.running_server.is_server = 1 ∧
    (Raspijpgs.server_start (Hardware.allSuccess 3)).exited = false ∧
    (Raspijpgs.parse_config_line (Hardware.allSuccess 3) "width=640".toList
      Raspijpgs.config_context.config_context_client_request
      Raspijpgs.running_server).exited = false ∧
    Libc.getenv (Raspijpgs.parse_config_line (Hardware.allSuccess 3) "width=640".toList
      Raspijpgs.config_context.config_context_client_request
      Raspijpgs.running_server).state.env Raspijpgs.RASPIJPGS_WIDTH = some "640".toList ∧
    (Raspijpgs.parse_config_line (Hardware.allSuccess 3) "width=640".toList
      Raspijpgs.config_context.config_context_client_request
      Raspijpgs.running_server).state.trace = Raspijpgs.running_server.trace ∧
    pipeline_calls Raspijpgs.running_server.trace = ["start_all"] ∧
    resizer_output_width (Raspijpgs.parse_config_line (Hardware.allSuccess 3)
      "width=640".toList Raspijpgs.config_context.config_context_client_request
      Raspijpgs.running_server).state.trace none = some 320 :=
  ⟨by decide, by decide, by decide, by decide, by decide, by decide, by decide⟩

/-- C10 (code bug): the body of `quality_apply` is a `TODO` comment.  When the
running server handles the client request `quality=50`, `parse_config_line`
stores the value in the environment and makes no hardware call: no teardown
or build is performed, and the quality set on the encoder is still the 75
that `start_all` set. -/
theorem C10_quality_command_does_not_reach_the_encoder :
    (Raspijpgs.parse_config_line (Hardware.allSuccess 3) "quality=50".toList
      Raspijpgs.config_context.config_context_client_request
      Raspijpgs.running_server).exited = false ∧
    Libc.getenv (Raspijpgs.parse_config_line (Hardware.allSuccess 3) "quality=50".toList
      Raspijpgs.config_context.config_context_client_request
      Raspijpgs.running_server).state.env Raspijpgs.RASPIJPGS_QUALITY = some "50".toList ∧
    (Raspijpgs.parse_config_line (Hardware.allSuccess 3) "quality=50".toList
      Raspijpgs.config_context.config_context_client_request
      Raspijpgs.running_server).state.trace = Raspijpgs.running_server.trace ∧
    jpeg_q_factor (Raspijpgs.parse_config_line (Hardware.allSuccess 3)
      "quality=50".toList Raspijpgs.config_context.config_context_client_request
      Raspijpgs.running_server).state.trace none = some 75 :=
  ⟨by decide, by decide, by decide, by decide⟩

namespace Raspijpgs

theorem find_long_option_eq_none (key : List Char) (os : List raspi_config_opt)
    (h : ∀ o ∈ os, o.long_option ≠ key) : find_long_option key os = none := by
  induction os with
  | nil => rfl
  | cons o rest ih =>
    unfold find_long_option
    rw [if_neg (h o (List.mem_cons_self _ _))]
    exact ih (fun o' ho' => h o' (List.mem_cons_of_mem _ ho'))

end Raspijpgs

/-- C12: for every line whose key, as `parse_config_line` splits it, is not
the long name of any row of the option table, `parse_config_line` in the
client-request context returns normally in the unchanged state (environment,
fields of `state` and trace of hardware calls); applying the line a second
time has the same null effect. -/
theorem C12_unknown_key_changes_nothing_in_client_request (hw : Hardware)
    (line key value : List Char) (state : Raspijpgs.raspijpgs_state)
    (hsplit : Raspijpgs.split_config_line line = some (key, value))
    (hkey : ∀ o ∈ Raspijpgs.opts, o.long_option ≠ key) :
    Raspijpgs.parse_config_line hw line
      Raspijpgs.config_context.config_context_client_request state = Result.ok state ∧
    (Raspijpgs.parse_config_line hw line
      Raspijpgs.config_context.config_context_client_request state).andThen
      (Raspijpgs.parse_config_line hw line
        Raspijpgs.config_context.config_context_client_request) = Result.ok state := by
  have h : Raspijpgs.parse_config_line hw line
      Raspijpgs.config_context.config_context_client_request state = Result.ok state := by
    unfold Raspijpgs.parse_config_line
    rw [hsplit]
    simp only []
    rw [Raspijpgs.find_long_option_eq_none key _ hkey]
    rfl
  exact ⟨h, by rw [h]; exact h⟩

/-- Witness of C12: the line `bogus=1` on the running server. -/
theorem C12_witness :
    (Raspijpgs.split_config_line "bogus=1".toList = some ("bogus".toList, "1".toList) ∧
      ∀ o ∈ Raspijpgs.opts, o.long_option ≠ "bogus".toList) ∧
    Raspijpgs.parse_config_line (Hardware.allSuccess 3) "bogus=1".toList
      Raspijpgs.config_context.config_context_client_request Raspijpgs.running_server
      = Result.ok Raspijpgs.running_server :=
  ⟨⟨(by decide : Raspijpgs.split_config_line "bogus=1".toList
        = some ("bogus".toList, "1".toList)),
      (by decide : ∀ o ∈ Raspijpgs.opts, o.long_option ≠ "bogus".toList)⟩,
    (C12_unknown_key_changes_nothing_in_client_request (Hardware.allSuccess 3)
      "bogus=1".toList "bogus".toList "1".toList
      Raspijpgs.running_server (by decide) (by decide)).1⟩

namespace Raspijpgs

theorem trim_whitespace_eq_self (s : List Char)
    (hh : ∀ c ∈ s.head?, Libc.isspace c = false)
    (hl : ∀ c ∈ s.getLast?, Libc.isspace c = false) : trim_whitespace s = s := by
  unfold trim_whitespace
  have h1 : s.dropWhile Libc.isspace = s := by
    cases s with
    | nil => rfl
    | cons a t =>
      have := hh a (by simp)
      simp [List.dropWhile, this]
  rw [h1]
  have h2 : s.reverse.dropWhile Libc.isspace = s.reverse := by
    cases hr : s.reverse with
    | nil => rfl
    | cons b u =>
      have hb : s.getLast? = some b := by
        rw [← List.head?_reverse, hr]
        rfl
      have := hl b (by simp [hb])
      simp [List.dropWhile, this]
  rw [h2, List.reverse_reverse]

theorem long_options_shape : ∀ o ∈ opts, o.long_option ≠ [] ∧ ' ' ∉ o.long_option ∧
    '=' ∉ o.long_option ∧ '#' ∉ o.long_option ∧
    (∀ c ∈ o.long_option.head?, Libc.isspace c = false) := by
  decide

theorem find_long_option_of_space (key : List Char) (h : ' ' ∈ key) :
    find_long_option key opts = none := by
  apply find_long_option_eq_none
  intro o ho heq
  exact (long_options_shape o ho).2.1 (heq ▸ h)

end Raspijpgs

namespace Raspijpgs

theorem parse_config_line_key_with_space (hw : Hardware) (line key value : List Char)
    (state : raspijpgs_state) (hsplit : split_config_line line = some (key, value))
    (hkey : ' ' ∈ key) :
    parse_config_line hw line config_context.config_context_client_request state
      = Result.ok state ∧
    parse_config_line hw line config_context.config_context_file state
      = Result.exit state "Unknown option in file" := by
  unfold parse_config_line
  rw [hsplit]
  simp only []
  rw [find_long_option_of_space key hkey]
  exact ⟨rfl, rfl⟩

theorem split_key_space_value (k v : List Char) (hk : ∃ o ∈ opts, o.long_option = k)
    (hv : v ≠ []) (hlast : ∀ c ∈ v.getLast?, Libc.isspace c = false)
    (heq : '=' ∉ v) (hhash : '#' ∉ v) :
    split_config_line (k ++ ' ' :: v) = some (k ++ ' ' :: v, "on".toList) := by
  obtain ⟨o, ho, rfl⟩ := hk
  obtain ⟨hne, _, hkeq, hkhash, hhead⟩ := long_options_shape o ho
  have hcut : (o.long_option ++ ' ' :: v).takeWhile (fun c => c ≠ '#')
      = o.long_option ++ ' ' :: v := by
    rw [List.takeWhile_eq_self_iff]
    intro c hc
    rcases List.mem_append.mp hc with h | h
    · simpa using fun hh : c = '#' => hkhash (hh ▸ h)
    · rcases List.mem_cons.mp h with h | h
      · subst h
        decide
      · simpa using fun hh : c = '#' => hhash (hh ▸ h)
  have htrim : trim_whitespace (o.long_option ++ ' ' :: v) = o.long_option ++ ' ' :: v := by
    apply trim_whitespace_eq_self
    · intro c hc
      apply hhead c
      cases hl : o.long_option with
      | nil => exact absurd hl hne
      | cons a t =>
        rw [hl] at hc
        simpa using hc
    · intro c hc
      apply hlast c
      rw [List.getLast?_append_of_ne_nil _ (by simp)] at hc
      cases v with
      | nil => exact absurd rfl hv
      | cons a t => simpa [List.getLast?_cons_cons] using hc
  unfold split_config_line
  simp only [hcut, htrim]
  rw [if_neg (by simp), if_neg]
  intro hmem
  rcases List.mem_append.mp hmem with h | h
  · exact hkeq h
  · rcases List.mem_cons.mp h with h | h
    · exact absurd h (by decide)
    · exact heq h

end Raspijpgs

/-- C16 (amended): `parse_config_line` splits a line at its first `=` only.
For every known option key `k` and every value `v` (not empty, without `=` and
`#`, not ending in white space), the line `k v` is read as the key `k v` with
the value `on`; no option has that name, so in the client-request context the
line is ignored and the state is unchanged, and in a configuration file it
ends the process. -/
theorem C16_key_space_value_line_sets_nothing (hw : Hardware) (k v : List Char)
    (state : Raspijpgs.raspijpgs_state)
    (hk : ∃ o ∈ Raspijpgs.opts, o.long_option = k)
    (hv : v ≠ []) (hlast : ∀ c ∈ v.getLast?, Libc.isspace c = false)
    (heq : '=' ∉ v) (hhash : '#' ∉ v) :
    Raspijpgs.split_config_line (k ++ ' ' :: v) = some (k ++ ' ' :: v, "on".toList) ∧
    Raspijpgs.parse_config_line hw (k ++ ' ' :: v)
      Raspijpgs.config_context.config_context_client_request state = Result.ok state ∧
    Raspijpgs.parse_config_line hw (k ++ ' ' :: v)
      Raspijpgs.config_context.config_context_file state
      = Result.exit state "Unknown option in file" :=
  ⟨Raspijpgs.split_key_space_value k v hk hv hlast heq hhash,
    Raspijpgs.parse_config_line_key_with_space hw _ _ _ state
      (Raspijpgs.split_key_space_value k v hk hv hlast heq hhash) (by simp)⟩

/-- Witness of C16: the line `width 640` handled by the running server. -/
theorem C16_witness :
    ((∃ o ∈ Raspijpgs.opts, o.long_option = "width".toList) ∧ "640".toList ≠ [] ∧
      (∀ c ∈ "640".toList.getLast?, Libc.isspace c = false) ∧
      '=' ∉ "640".toList ∧ '#' ∉ "640".toList) ∧
    Raspijpgs.parse_config_line (Hardware.allSuccess 3) ("width".toList ++ ' ' :: "640".toList)
      Raspijpgs.config_context.config_context_client_request Raspijpgs.running_server
      = Result.ok Raspijpgs.running_server :=
  ⟨⟨by decide, by decide, by decide, by decide, by decide⟩,
    (C16_key_space_value_line_sets_nothing (Hardware.allSuccess 3) "width".toList
      "640".toList Raspijpgs.running_server (by decide) (by decide) (by decide) (by decide)
      (by decide)).2.1⟩

/-- Counterexample to C16 as stated: on the running server the line
`width 640` leaves the stored width at its default `320`, whereas the line
`width=640` stores `640`. -/
theorem C16_counterexample_width_640_without_equals_sign :
    Libc.getenv (Raspijpgs.parse_config_line (Hardware.allSuccess 3) "width 640".toList
      Raspijpgs.config_context.config_context_client_request
      Raspijpgs.running_server).state.env Raspijpgs.RASPIJPGS_WIDTH = some "320".toList ∧
    Libc.getenv (Raspijpgs.parse_config_line (Hardware.allSuccess 3) "width=640".toList
      Raspijpgs.config_context.config_context_client_request
      Raspijpgs.running_server).state.env Raspijpgs.RASPIJPGS_WIDTH = some "640".toList :=
  ⟨by decide, by decide⟩

namespace Raspijpgs

theorem enum_param_of_table : ∀ f ∈ enum_options, ∀ x ∈ enum_table f,
    enum_param_of f x.1 = some x.2 := by
  decide

theorem exposure_mode_of_eq_none (str : List Char)
    (h : str ∉ (enum_table ApplyFn.exposure_apply).map Prod.fst) :
    exposure_mode_of str = none := by
  simp only [enum_table, List.map, List.mem_cons, List.mem_singleton, not_or,
    List.not_mem_nil, not_false_eq_true, and_true] at h
  unfold exposure_mode_of
  simp only [h, if_false]

theorem awb_mode_of_eq_none (str : List Char)
    (h : str ∉ (enum_table ApplyFn.awb_apply).map Prod.fst) :
    awb_mode_of str = none := by
  simp only [enum_table, List.map, List.mem_cons, List.mem_singleton, not_or,
    List.not_mem_nil, not_false_eq_true, and_true] at h
  unfold awb_mode_of
  simp only [h, if_false]

theorem imagefx_of_eq_none (str : List Char)
    (h : str ∉ (enum_table ApplyFn.imxfx_apply).map Prod.fst) :
    imagefx_of str = none := by
  simp only [enum_table, List.map, List.mem_cons, List.mem_singleton, not_or,
    List.not_mem_nil, not_false_eq_true, and_true] at h
  unfold imagefx_of
  simp only [h, if_false]

theorem metering_mode_of_eq_none (str : List Char)
    (h : str ∉ (enum_table ApplyFn.metering_apply).map Prod.fst) :
    metering_mode_of str = none := by
  simp only [enum_table, List.map, List.mem_cons, List.mem_singleton, not_or,
    List.not_mem_nil, not_false_eq_true, and_true] at h
  unfold metering_mode_of
  simp only [h, if_false]

theorem enum_param_of_eq_none (f : ApplyFn) (str : List Char) (hf : f ∈ enum_options)
    (h : str ∉ (enum_table f).map Prod.fst) : enum_param_of f str = none := by
  simp only [enum_options, List.mem_cons, List.mem_singleton, List.not_mem_nil,
    or_false] at hf
  rcases hf with rfl | rfl | rfl | rfl
  · simp only [enum_param_of, exposure_mode_of_eq_none str h, Option.map]
  · simp only [enum_param_of, awb_mode_of_eq_none str h, Option.map]
  · simp only [enum_param_of, imagefx_of_eq_none str h, Option.map]
  · simp only [enum_param_of, metering_mode_of_eq_none str h, Option.map]

theorem with_getenv_some (k str : List Char) (state : raspijpgs_state)
    (f : List Char → Result raspijpgs_state) (h : Libc.getenv state.env k = some str) :
    with_getenv (some k) state f = f str := by
  simp only [with_getenv, h]

theorem call_apply_enum (hw : Hardware) (f : ApplyFn) (opt : raspi_config_opt)
    (context : config_context) (k str : List Char) (state : raspijpgs_state)
    (hf : f ∈ enum_options) (hk : opt.env_key = some k)
    (hstr : Libc.getenv state.env k = some str) :
    call_apply hw f opt context state
      = enum_param_apply hw (enum_param_of f str) context state := by
  simp only [enum_options, List.mem_cons, List.mem_singleton, List.not_mem_nil,
    or_false] at hf
  rcases hf with rfl | rfl | rfl | rfl
  · simp only [call_apply, exposure_apply, hk, with_getenv_some k str state _ hstr,
      enum_param_of]
  · simp only [call_apply, awb_apply, hk, with_getenv_some k str state _ hstr,
      enum_param_of]
  · simp only [call_apply, imxfx_apply, hk, with_getenv_some k str state _ hstr,
      enum_param_of]
  · simp only [call_apply, metering_apply, hk, with_getenv_some k str state _ hstr,
      enum_param_of]

theorem expect_success_trace (hw : Hardware) (c : Call) (msg : String)
    (state : raspijpgs_state) :
    (expect_success hw c msg state).state.trace
      = state.trace ++ [Event.call c (hw.status state.trace.length)] ∧
    (expect_success hw c msg state).exited
      = decide (hw.status state.trace.length ≠ MMAL_STATUS_T.MMAL_SUCCESS) := by
  unfold expect_success mmal
  cases hs : hw.status state.trace.length <;> exact ⟨rfl, rfl⟩

end Raspijpgs

/-- C13: for each enum-valued option of raspijpgs.c (`exposure`, `awb`,
`imxfx`, `metering`) and the string stored for it in the environment: when
the string is not one of the option's names, applying the option in the
server-start context ends the process with an error and makes no hardware
call, and applying it in the client-request context returns in the unchanged
state, without a hardware call; when the string is one of the names, applying
the option in either context sets the corresponding parameter on the camera
control port (and the process goes on exactly when the hardware accepts it). -/
theorem C13_enum_value_is_validated_by_context (hw : Hardware)
    (opt : Raspijpgs.raspi_config_opt) (f : Raspijpgs.ApplyFn) (k str : List Char)
    (state : Raspijpgs.raspijpgs_state)
    (hf : f ∈ Raspijpgs.enum_options) (hk : opt.env_key = some k)
    (hstr : Libc.getenv state.env k = some str) :
    (str ∉ (Raspijpgs.enum_table f).map Prod.fst →
      Raspijpgs.call_apply hw f opt
        Raspijpgs.config_context.config_context_server_start state
        = Result.exit state "Invalid" ∧
      Raspijpgs.call_apply hw f opt
        Raspijpgs.config_context.config_context_client_request state = Result.ok state) ∧
    (∀ p, (str, p) ∈ Raspijpgs.enum_table f → ∀ context,
      (Raspijpgs.call_apply hw f opt context state).state.trace
        = state.trace ++ [Event.call (Call.mmal_port_parameter_set
            (Port.control Component.camera) p) (hw.status state.trace.length)] ∧
      (Raspijpgs.call_apply hw f opt context state).exited
        = decide (hw.status state.trace.length ≠ MMAL_STATUS_T.MMAL_SUCCESS)) := by
  constructor
  · intro hnot
    rw [Raspijpgs.call_apply_enum hw f opt _ k str state hf hk hstr,
      Raspijpgs.call_apply_enum hw f opt _ k str state hf hk hstr,
      Raspijpgs.enum_param_of_eq_none f str hf hnot]
    exact ⟨rfl, rfl⟩
  · intro p hp context
    rw [Raspijpgs.call_apply_enum hw f opt context k str state hf hk hstr,
      Raspijpgs.enum_param_of_table f hf (str, p) hp]
    exact Raspijpgs.expect_success_trace hw _ _ state

/-- Witness of C13: the row `exposure` of the option table on the running
server, whose environment holds the default `auto`. -/
theorem C13_witness :
    (Raspijpgs.ApplyFn.exposure_apply ∈ Raspijpgs.enum_options ∧
      Libc.getenv Raspijpgs.running_server.env Raspijpgs.RASPIJPGS_EXPOSURE
        = some "auto".toList) ∧
    (Raspijpgs.call_apply (Hardware.allSuccess 3) Raspijpgs.ApplyFn.exposure_apply
      ⟨"exposure".toList, some "ex".toList, some Raspijpgs.RASPIJPGS_EXPOSURE,
        "Set exposure mode".toList, some "auto".toList, Raspijpgs.SetFn.default_set,
        some Raspijpgs.ApplyFn.exposure_apply⟩
      Raspijpgs.config_context.config_context_client_request
      Raspijpgs.running_server).state.trace
      = Raspijpgs.running_server.trace ++ [Event.call (Call.mmal_port_parameter_set
          (Port.control Component.camera)
          (Parameter.exposure_mode MMAL_PARAM_EXPOSUREMODE_T.AUTO))
          ((Hardware.allSuccess 3).status Raspijpgs.running_server.trace.length)] :=
  ⟨⟨by decide, by decide⟩,
    ((C13_enum_value_is_validated_by_context (Hardware.allSuccess 3)
      ⟨"exposure".toList, some "ex".toList, some Raspijpgs.RASPIJPGS_EXPOSURE,
        "Set exposure mode".toList, some "auto".toList, Raspijpgs.SetFn.default_set,
        some Raspijpgs.ApplyFn.exposure_apply⟩
      Raspijpgs.ApplyFn.exposure_apply Raspijpgs.RASPIJPGS_EXPOSURE "auto".toList
      Raspijpgs.running_server (by decide) rfl (by decide)).2
      (Parameter.exposure_mode MMAL_PARAM_EXPOSUREMODE_T.AUTO) (by decide)
      Raspijpgs.config_context.config_context_client_request).1⟩

namespace Raspijpgs

theorem find_long_option_self : ∀ o ∈ opts, find_long_option o.long_option opts = some o := by
  decide

theorem applied_options_use_default_set : ∀ o ∈ opts, o.apply.isSome = true →
    o.set = SetFn.default_set := by
  decide

theorem getenv_setenv_replace (env : List (List Char × List Char)) (k v : List Char) :
    Libc.getenv (Libc.setenv env k v 1) k = some v := by
  induction env with
  | nil => simp [Libc.setenv, Libc.getenv]
  | cons kv rest ih =>
    obtain ⟨k', v'⟩ := kv
    unfold Libc.setenv
    by_cases h : k' = k
    · simp [h, Libc.getenv]
    · simp [h, Libc.getenv, ih]

theorem call_apply_rational (hw : Hardware) (f : ApplyFn) (id : ParameterId)
    (opt : raspi_config_opt) (context : config_context) (k str : List Char)
    (state : raspijpgs_state) (hf : (f, id) ∈ rational_options)
    (hk : opt.env_key = some k) (hstr : Libc.getenv state.env k = some str) :
    call_apply hw f opt context state =
      if Libc.strtoul str > 100 then
        (if context = config_context.config_context_server_start then
          Result.exit state "must be between 0 and 100"
        else Result.ok state)
      else
        expect_success hw (Call.mmal_port_parameter_set (Port.control Component.camera)
          (Parameter.rational id (Libc.strtoul str) 100)) "Could not set" state := by
  simp only [rational_options, List.mem_cons, List.mem_singleton, List.not_mem_nil,
    or_false, Prod.mk.injEq] at hf
  rcases hf with ⟨rfl, rfl⟩ | ⟨rfl, rfl⟩ | ⟨rfl, rfl⟩ | ⟨rfl, rfl⟩ <;>
    simp only [call_apply, rational_param_apply, hk, with_getenv_some k str state _ hstr]

theorem parse_config_line_client_request (hw : Hardware) (line value k : List Char)
    (opt : raspi_config_opt) (f : ApplyFn) (state : raspijpgs_state)
    (hopt : opt ∈ opts) (hf : opt.apply = some f) (hk : opt.env_key = some k)
    (hline : split_config_line line = some (opt.long_option, value)) :
    parse_config_line hw line config_context.config_context_client_request state
      = call_apply hw f opt config_context.config_context_client_request
          { state with env := Libc.setenv state.env k value 1 } := by
  unfold parse_config_line
  rw [hline]
  simp only []
  rw [find_long_option_self opt hopt]
  simp only [call_set, applied_options_use_default_set opt hopt (by rw [hf]; rfl),
    default_set, hk, hf, Result.andThen]

end Raspijpgs

/-- C14 (amended): a live control command for an enum-valued option whose
value is not one of the option's names, or for `sharpness`, `contrast`,
`brightness` or `saturation` whose value reads as a number above 100, is not
applied to the hardware and does not end the process: `parse_config_line` in
the client-request context returns normally without a hardware call.  The
stored setting however is replaced: the environment value of the key is the
rejected text afterwards. -/
theorem C14_invalid_live_value_is_stored_but_not_applied (hw : Hardware)
    (line value k : List Char) (opt : Raspijpgs.raspi_config_opt) (f : Raspijpgs.ApplyFn)
    (state : Raspijpgs.raspijpgs_state)
    (hopt : opt ∈ Raspijpgs.opts) (hf : opt.apply = some f) (hk : opt.env_key = some k)
    (hline : Raspijpgs.split_config_line line = some (opt.long_option, value))
    (hbad : (f ∈ Raspijpgs.enum_options ∧ value ∉ (Raspijpgs.enum_table f).map Prod.fst) ∨
      (f ∈ Raspijpgs.rational_options.map Prod.fst ∧ 100 < Libc.strtoul value)) :
    Raspijpgs.parse_config_line hw line
      Raspijpgs.config_context.config_context_client_request state
      = Result.ok { state with env := Libc.setenv state.env k value 1 } ∧
    Libc.getenv (Libc.setenv state.env k value 1) k = some value := by
  refine ⟨?_, Raspijpgs.getenv_setenv_replace _ _ _⟩
  rw [Raspijpgs.parse_config_line_client_request hw line value k opt f state hopt hf hk hline]
  rcases hbad with ⟨henum, hnot⟩ | ⟨hrat, hbig⟩
  · rw [Raspijpgs.call_apply_enum hw f opt _ k value _ henum hk
        (Raspijpgs.getenv_setenv_replace _ _ _),
      Raspijpgs.enum_param_of_eq_none f value henum hnot]
    rfl
  · obtain ⟨⟨f', id⟩, hmem, rfl⟩ := List.mem_map.mp hrat
    rw [Raspijpgs.call_apply_rational hw f' id opt _ k value _ hmem hk
        (Raspijpgs.getenv_setenv_replace _ _ _), if_pos hbig]
    rfl

/-- Witness of C14: the command `sharpness=500` on the running server. -/
theorem C14_witness :
    ((⟨"sharpness".toList, some "sh".toList, some Raspijpgs.RASPIJPGS_SHARPNESS,
        "Set image sharpness (-100 to 100)".toList, some "0".toList,
        Raspijpgs.SetFn.default_set, some Raspijpgs.ApplyFn.sharpness_apply⟩ :
        Raspijpgs.raspi_config_opt) ∈ Raspijpgs.opts ∧
      Raspijpgs.split_config_line "sharpness=500".toList
        = some ("sharpness".toList, "500".toList) ∧
      Raspijpgs.ApplyFn.sharpness_apply ∈ Raspijpgs.rational_options.map Prod.fst ∧
      100 < Libc.strtoul "500".toList) ∧
    Raspijpgs.parse_config_line (Hardware.allSuccess 3) "sharpness=500".toList
      Raspijpgs.config_context.config_context_client_request Raspijpgs.running_server
      = Result.ok { Raspijpgs.running_server with
          env := Libc.setenv Raspijpgs.running_server.env Raspijpgs.RASPIJPGS_SHARPNESS
            "500".toList 1 } :=
  ⟨⟨by decide, by decide, by decide, by decide⟩,
    (C14_invalid_live_value_is_stored_but_not_applied (Hardware.allSuccess 3)
      "sharpness=500".toList "500".toList Raspijpgs.RASPIJPGS_SHARPNESS
      ⟨"sharpness".toList, some "sh".toList, some Raspijpgs.RASPIJPGS_SHARPNESS,
        "Set image sharpness (-100 to 100)".toList, some "0".toList,
        Raspijpgs.SetFn.default_set, some Raspijpgs.ApplyFn.sharpness_apply⟩
      Raspijpgs.ApplyFn.sharpness_apply Raspijpgs.running_server
      (by decide) rfl rfl (by decide) (Or.inr ⟨by decide, by decide⟩)).1⟩

/-- Counterexample to C14 as stated: on the running server the stored
exposure is `auto`; after the command `exposure=bogus`, which
`parse_config_line` handles without ending the process and without a hardware
call, the stored exposure is `bogus`, not the value it had before. -/
theorem C14_counterexample_bogus_exposure_is_stored :
    Libc.getenv Raspijpgs.running_server.env Raspijpgs.RASPIJPGS_EXPOSURE
      = some "auto".toList ∧
    (Raspijpgs.parse_config_line (Hardware.allSuccess 3) "exposure=bogus".toList
      Raspijpgs.config_context.config_context_client_request
      Raspijpgs.running_server).exited = false ∧
    (Raspijpgs.parse_config_line (Hardware.allSuccess 3) "exposure=bogus".toList
      Raspijpgs.config_context.config_context_client_request
      Raspijpgs.running_server).state.trace = Raspijpgs.running_server.trace ∧
    Libc.getenv (Raspijpgs.parse_config_line (Hardware.allSuccess 3)
      "exposure=bogus".toList Raspijpgs.config_context.config_context_client_request
      Raspijpgs.running_server).state.env Raspijpgs.RASPIJPGS_EXPOSURE
      = some "bogus".toList :=
  ⟨by decide, by decide, by decide, by decide⟩

namespace Raspijpgs

/-- The outcome `r` is a normal return in a state with the environment `env`. -/
theorem runs_andThen {env : List (List Char × List Char)} {r : Result raspijpgs_state}
    {g : raspijpgs_state → Result raspijpgs_state}
    (h1 : r.exited = false ∧ r.state.env = env)
    (h2 : ∀ s1, s1.env = env → (g s1).exited = false ∧ (g s1).state.env = env) :
    (r.andThen g).exited = false ∧ (r.andThen g).state.env = env := by
  cases r with
  | ok s1 => exact h2 s1 h1.2
  | exit s1 msg => exact absurd h1.1 (by simp [Result.exited])

theorem runs_expect_success (n : Nat) (c : Call) (msg : String) (state : raspijpgs_state)
    {env : List (List Char × List Char)} (h : state.env = env) :
    (expect_success (Hardware.allSuccess n) c msg state).exited = false ∧
    (expect_success (Hardware.allSuccess n) c msg state).state.env = env :=
  ⟨rfl, h⟩

theorem runs_expect_success_or_enosys (n : Nat) (c : Call) (msg : String)
    (state : raspijpgs_state) {env : List (List Char × List Char)} (h : state.env = env) :
    (expect_success_or_enosys (Hardware.allSuccess n) c msg state).exited = false ∧
    (expect_success_or_enosys (Hardware.allSuccess n) c msg state).state.env = env :=
  ⟨rfl, h⟩

theorem runs_ignore_status (hw : Hardware) (c : Call) (state : raspijpgs_state)
    {env : List (List Char × List Char)} (h : state.env = env) :
    (ignore_status hw c state).exited = false ∧ (ignore_status hw c state).state.env = env :=
  ⟨rfl, h⟩

theorem runs_with_getenv (k str : List Char) (state : raspijpgs_state)
    (f : List Char → Result raspijpgs_state) {env : List (List Char × List Char)}
    (h : state.env = env) (hk : Libc.getenv env k = some str)
    (hf : (f str).exited = false ∧ (f str).state.env = env) :
    (with_getenv (some k) state f).exited = false ∧
    (with_getenv (some k) state f).state.env = env := by
  rw [with_getenv_some k str state f (by rw [h]; exact hk)]
  exact hf

theorem runs_send_pool_buffers (n k : Nat) (state : raspijpgs_state)
    {env : List (List Char × List Char)} (h : state.env = env) :
    (send_pool_buffers (Hardware.allSuccess n) k state).exited = false ∧
    (send_pool_buffers (Hardware.allSuccess n) k state).state.env = env := by
  induction k generalizing state with
  | zero => exact ⟨rfl, h⟩
  | succ k ih =>
    unfold send_pool_buffers
    simp only [mmal_queue_get, Hardware.allSuccess, expect_success, mmal, Result.andThen]
    exact ih _ h

theorem runs_queue_and_send (n : Nat) (state : raspijpgs_state)
    {env : List (List Char × List Char)} (h : state.env = env) :
    (send_pool_buffers (Hardware.allSuccess n)
      (mmal_queue_length (Hardware.allSuccess n) state).1.toNat
      (mmal_queue_length (Hardware.allSuccess n) state).2).exited = false ∧
    (send_pool_buffers (Hardware.allSuccess n)
      (mmal_queue_length (Hardware.allSuccess n) state).1.toNat
      (mmal_queue_length (Hardware.allSuccess n) state).2).state.env = env :=
  runs_send_pool_buffers n _ _ h

theorem start_all_all_success (n : Nat) (state : raspijpgs_state) (q w : List Char)
    (hq : Libc.getenv state.env RASPIJPGS_QUALITY = some q)
    (hw : Libc.getenv state.env RASPIJPGS_WIDTH = some w) :
    (start_all (Hardware.allSuccess n) state).exited = false ∧
    (start_all (Hardware.allSuccess n) state).state.env = state.env := by
  have h0 : (invoke "start_all" state).env = state.env := rfl
  unfold start_all
  simp only []
  repeat' (first
    | with_reducible apply runs_andThen
    | intro s1 h1
    | with_reducible refine runs_expect_success n _ _ _ ?_
    | with_reducible refine runs_expect_success_or_enosys n _ _ _ ?_
    | with_reducible refine runs_ignore_status _ _ _ ?_
    | with_reducible refine runs_with_getenv _ q _ _ ?_ hq ?_
    | with_reducible refine runs_with_getenv _ w _ _ ?_ hw ?_
    | with_reducible exact runs_queue_and_send n _ (by assumption)
    | assumption)

end Raspijpgs

/-- C15 (amended): raspijpgs.c reads numeric option values with
`strtoul`/`strtol` and never looks at where the number ends, so text that is
not a well-formed number is read as its longest numeric prefix (0 when there
is none) and is not a reason to end the process.  At server start, for the
text `str` stored for an option: `sharpness`, `contrast`, `brightness` and
`saturation` end the process without a hardware call when the number read
exceeds 100, and otherwise hand the number read to the camera and end the
process only when that call fails; `ISO`, `rotation` and `shutter` end the
process only when the hardware call fails; `count` never ends it; and on
hardware where every call succeeds `start_all` returns normally whatever the
texts of `quality` and `width` are. -/
theorem C15_malformed_number_is_not_rejected_at_server_start (hw : Hardware) (n : Nat)
    (opt : Raspijpgs.raspi_config_opt) (k str q w : List Char)
    (state : Raspijpgs.raspijpgs_state)
    (hk : opt.env_key = some k) (hstr : Libc.getenv state.env k = some str)
    (hq : Libc.getenv state.env Raspijpgs.RASPIJPGS_QUALITY = some q)
    (hw' : Libc.getenv state.env Raspijpgs.RASPIJPGS_WIDTH = some w) :
    (∀ f id, (f, id) ∈ Raspijpgs.rational_options →
      (100 < Libc.strtoul str →
        Raspijpgs.call_apply hw f opt
          Raspijpgs.config_context.config_context_server_start state
          = Result.exit state "must be between 0 and 100") ∧
      (Libc.strtoul str ≤ 100 →
        (Raspijpgs.call_apply hw f opt
          Raspijpgs.config_context.config_context_server_start state).state.trace
          = state.trace ++ [Event.call (Call.mmal_port_parameter_set
              (Port.control Component.camera)
              (Parameter.rational id (Libc.strtoul str) 100))
              (hw.status state.trace.length)] ∧
        (Raspijpgs.call_apply hw f opt
          Raspijpgs.config_context.config_context_server_start state).exited
          = decide (hw.status state.trace.length ≠ MMAL_STATUS_T.MMAL_SUCCESS))) ∧
    (∀ f ∈ [Raspijpgs.ApplyFn.ISO_apply, Raspijpgs.ApplyFn.rotation_apply,
        Raspijpgs.ApplyFn.shutter_apply],
      (Raspijpgs.call_apply hw f opt
        Raspijpgs.config_context.config_context_server_start state).exited
        = decide (hw.status state.trace.length ≠ MMAL_STATUS_T.MMAL_SUCCESS)) ∧
    Raspijpgs.call_apply hw Raspijpgs.ApplyFn.count_apply opt
      Raspijpgs.config_context.config_context_server_start state
      = Result.ok { state with count := Libc.to_int32 (Libc.strtol str) } ∧
    (Raspijpgs.start_all (Hardware.allSuccess n) state).exited = false := by
  refine ⟨?_, ?_, ?_, (Raspijpgs.start_all_all_success n state q w hq hw').1⟩
  · intro f id hf
    rw [Raspijpgs.call_apply_rational hw f id opt _ k str state hf hk hstr]
    constructor
    · intro hbig
      rw [if_pos hbig]
      rfl
    · intro hsmall
      rw [if_neg (by omega)]
      exact Raspijpgs.expect_success_trace hw _ _ state
  · intro f hf
    simp only [List.mem_cons, List.mem_singleton, List.not_mem_nil, or_false] at hf
    rcases hf with rfl | rfl | rfl <;>
      simp only [Raspijpgs.call_apply, hk, Raspijpgs.with_getenv_some k str state _ hstr] <;>
      exact (Raspijpgs.expect_success_trace hw _ _ state).2
  · simp only [Raspijpgs.call_apply, hk, Raspijpgs.with_getenv_some k str state _ hstr]

/-- Witness of C15: the row `sharpness` on the running server, whose
environment holds the defaults. -/
theorem C15_witness :
    (Libc.getenv Raspijpgs.running_server.env Raspijpgs.RASPIJPGS_SHARPNESS
        = some "0".toList ∧
      Libc.getenv Raspijpgs.running_server.env Raspijpgs.RASPIJPGS_QUALITY
        = some "75".toList ∧
      Libc.getenv Raspijpgs.running_server.env Raspijpgs.RASPIJPGS_WIDTH
        = some "320".toList) ∧
    (Raspijpgs.start_all (Hardware.allSuccess 3) Raspijpgs.running_server).exited = false :=
  ⟨⟨by decide, by decide, by decide⟩,
    (C15_malformed_number_is_not_rejected_at_server_start (Hardware.allSuccess 3) 3
      ⟨"sharpness".toList, some "sh".toList, some Raspijpgs.RASPIJPGS_SHARPNESS,
        "Set image sharpness (-100 to 100)".toList, some "0".toList,
        Raspijpgs.SetFn.default_set, some Raspijpgs.ApplyFn.sharpness_apply⟩
      Raspijpgs.RASPIJPGS_SHARPNESS "0".toList "75".toList "320".toList
      Raspijpgs.running_server rfl (by decide) (by decide) (by decide)).2.2.2⟩

/-- Counterexample to C15 as stated: the server is started with
`RASPIJPGS_SHARPNESS=12x`, `RASPIJPGS_ISO=abc` and `RASPIJPGS_WIDTH=64px` in
its environment.  `start_all` and `apply_parameters` in the server-start
context do not end the process: the resizer output is 64 wide, the sharpness
is set to 12/100 and the ISO to 0, numbers derived from the malformed texts. -/
theorem C15_counterexample_malformed_numbers_are_accepted :
    (Raspijpgs.server_loop (Hardware.allSuccess 3) Raspijpgs.System.allSuccess []
      (Raspijpgs.startup (Hardware.allSuccess 3) (fun _ => none) ["raspijpgs".toList]
        [(Raspijpgs.RASPIJPGS_SHARPNESS, "12x".toList),
         (Raspijpgs.RASPIJPGS_ISO, "abc".toList),
         (Raspijpgs.RASPIJPGS_WIDTH, "64px".toList)]).state).exited = false ∧
    Event.call (Call.mmal_port_parameter_set (Port.control Component.camera)
        (Parameter.rational ParameterId.SHARPNESS 12 100)) MMAL_STATUS_T.MMAL_SUCCESS ∈
      (Raspijpgs.server_loop (Hardware.allSuccess 3) Raspijpgs.System.allSuccess []
        (Raspijpgs.startup (Hardware.allSuccess 3) (fun _ => none) ["raspijpgs".toList]
          [(Raspijpgs.RASPIJPGS_SHARPNESS, "12x".toList),
           (Raspijpgs.RASPIJPGS_ISO, "abc".toList),
           (Raspijpgs.RASPIJPGS_WIDTH, "64px".toList)]).state).state.trace ∧
    Event.call (Call.mmal_port_parameter_set (Port.control Component.camera)
        (Parameter.uint32 ParameterId.ISO 0)) MMAL_STATUS_T.MMAL_SUCCESS ∈
      (Raspijpgs.server_loop (Hardware.allSuccess 3) Raspijpgs.System.allSuccess []
        (Raspijpgs.startup (Hardware.allSuccess 3) (fun _ => none) ["raspijpgs".toList]
          [(Raspijpgs.RASPIJPGS_SHARPNESS, "12x".toList),
           (Raspijpgs.RASPIJPGS_ISO, "abc".toList),
           (Raspijpgs.RASPIJPGS_WIDTH, "64px".toList)]).state).state.trace ∧
    resizer_output_width
      (Raspijpgs.server_loop (Hardware.allSuccess 3) Raspijpgs.System.allSuccess []
        (Raspijpgs.startup (Hardware.allSuccess 3) (fun _ => none) ["raspijpgs".toList]
          [(Raspijpgs.RASPIJPGS_SHARPNESS, "12x".toList),
           (Raspijpgs.RASPIJPGS_ISO, "abc".toList),
           (Raspijpgs.RASPIJPGS_WIDTH, "64px".toList)]).state).state.trace none
      = some 64 :=
  ⟨by decide, by decide, by decide, by decide⟩

namespace Raspijpgs

theorem datagrams_sent_append (a b : List Event) :
    datagrams_sent (a ++ b) = datagrams_sent a ++ datagrams_sent b := by
  induction a with
  | nil => rfl
  | cons e rest ih => cases e <;> simp [datagrams_sent, ih]

theorem assemble_fields (buffer : MMAL_BUFFER_HEADER_T) (s : raspijpgs_state) :
    (assemble buffer s).client_addrs = s.client_addrs ∧ (assemble buffer s).count = s.count ∧
    (assemble buffer s).env = s.env := by
  unfold assemble
  split
  · exact ⟨rfl, rfl, rfl⟩
  · split
    · exact ⟨rfl, rfl, rfl⟩
    · split <;> exact ⟨rfl, rfl, rfl⟩

theorem assemble_extends_of (P : Event → Prop) (hdist : ∀ frame, P (Event.distribute_jpeg frame))
    (hwarn : ∀ msg, P (Event.warnx msg)) (buffer : MMAL_BUFFER_HEADER_T)
    (s : raspijpgs_state) : Extends P raspijpgs_state.trace s (assemble buffer s) := by
  unfold assemble
  split
  · exact Extends.one _ rfl (hdist _)
  · split
    · exact Extends.one _ rfl (hwarn _)
    · split
      · exact Extends.one _ rfl (hdist _)
      · exact Extends.refl _ _ _

theorem spec_recycling_calls (hw : Hardware) (port : MMAL_PORT_T)
    (buffer : MMAL_BUFFER_HEADER_T) (n : Nat) :
    ∀ e ∈ spec_recycling hw port buffer n, ∃ c status, e = Event.call c status := by
  intro e he
  unfold spec_recycling at he
  rcases List.mem_cons.mp he with h | h
  · exact ⟨_, _, h⟩
  · cases hp : port.is_enabled
    · simp [hp] at h
    · simp only [hp, if_true] at h
      cases hq : hw.queue_get (n + 1) with
      | none =>
        simp only [hq, List.mem_singleton] at h
        exact ⟨_, _, h⟩
      | some b =>
        simp only [hq, List.mem_cons, List.mem_singleton, List.not_mem_nil, or_false] at h
        rcases h with h | h <;> exact ⟨_, _, h⟩

theorem callback_impl_eq (hw : Hardware) (port : MMAL_PORT_T)
    (buffer : MMAL_BUFFER_HEADER_T) (s : raspijpgs_state) :
    ∃ s3 : raspijpgs_state,
      s3 = mmal_void (Call.mmal_buffer_header_mem_unlock buffer.handle)
        (assemble buffer (mmal hw (Call.mmal_buffer_header_mem_lock buffer.handle) s).2) ∧
      (jpegencoder_buffer_callback_impl hw (some (port, buffer)) s).state
        = { s3 with
            count := if s3.count ≥ 0 then s3.count - 1 else s3.count
            trace := s3.trace ++ spec_recycling hw port buffer s3.trace.length } := by
  refine ⟨_, rfl, ?_⟩
  unfold jpegencoder_buffer_callback_impl
  simp only [release_and_resubmit_state]
  split <;> rfl

theorem callback_impl_state (hw : Hardware) (port : MMAL_PORT_T)
    (buffer : MMAL_BUFFER_HEADER_T) (s : raspijpgs_state) :
    (jpegencoder_buffer_callback_impl hw (some (port, buffer)) s).state.client_addrs
      = s.client_addrs ∧
    (jpegencoder_buffer_callback_impl hw (some (port, buffer)) s).state.count
      = (if s.count ≥ 0 then s.count - 1 else s.count) ∧
    (jpegencoder_buffer_callback_impl hw (some (port, buffer)) s).state.env = s.env := by
  obtain ⟨s3, h3, heq⟩ := callback_impl_eq hw port buffer s
  have h := assemble_fields buffer (mmal hw (Call.mmal_buffer_header_mem_lock buffer.handle) s).2
  have hc : s3.client_addrs = s.client_addrs := by rw [h3]; exact h.1
  have hn : s3.count = s.count := by rw [h3]; exact h.2.1
  have he : s3.env = s.env := by rw [h3]; exact h.2.2
  rw [heq]
  exact ⟨hc, by rw [← hn], he⟩

theorem callback_impl_extends_of (P : Event → Prop) (hcall : ∀ c status, P (Event.call c status))
    (hdist : ∀ frame, P (Event.distribute_jpeg frame)) (hwarn : ∀ msg, P (Event.warnx msg))
    (hw : Hardware) (port : MMAL_PORT_T) (buffer : MMAL_BUFFER_HEADER_T)
    (s : raspijpgs_state) :
    Extends P raspijpgs_state.trace s
      (jpegencoder_buffer_callback_impl hw (some (port, buffer)) s).state := by
  have hlock : Extends P raspijpgs_state.trace s
      (mmal hw (Call.mmal_buffer_header_mem_lock buffer.handle) s).2 :=
    Extends.one _ rfl (hcall _ _)
  have hasm := assemble_extends_of P hdist hwarn buffer
    (mmal hw (Call.mmal_buffer_header_mem_lock buffer.handle) s).2
  have hunlock : Extends P raspijpgs_state.trace
      (assemble buffer (mmal hw (Call.mmal_buffer_header_mem_lock buffer.handle) s).2)
      (mmal_void (Call.mmal_buffer_header_mem_unlock buffer.handle)
        (assemble buffer (mmal hw (Call.mmal_buffer_header_mem_lock buffer.handle) s).2)) :=
    Extends.one _ rfl (hcall _ _)
  have hall := Extends.trans (Extends.trans hlock hasm) hunlock
  obtain ⟨s3, h3, heq⟩ := callback_impl_eq hw port buffer s
  rw [← h3] at hall
  refine Extends.trans hall ?_
  rw [heq]
  refine ⟨spec_recycling hw port buffer s3.trace.length, rfl, ?_⟩
  intro e he
  obtain ⟨c, status, rfl⟩ := spec_recycling_calls hw port buffer _ e he
  exact hcall c status

theorem datagrams_sent_of_extends {s s' : raspijpgs_state}
    (h : Extends (fun e => datagrams_sent [e] = []) raspijpgs_state.trace s s') :
    datagrams_sent s'.trace = datagrams_sent s.trace := by
  obtain ⟨es, he, hP⟩ := h
  rw [he, datagrams_sent_append]
  suffices hs : datagrams_sent es = [] by rw [hs, List.append_nil]
  clear he
  induction es with
  | nil => rfl
  | cons e rest ih =>
    have h1 := hP e (List.mem_cons_self _ _)
    have h2 := ih (fun e' he' => hP e' (List.mem_cons_of_mem _ he'))
    rw [show e :: rest = [e] ++ rest from rfl, datagrams_sent_append, h1, h2]
    rfl

end Raspijpgs

/-- C17 (code bug): `distribute_jpeg` only prints the length of the frame.
Whatever buffer `jpegencoder_buffer_callback_impl` processes, and so whatever
frame it hands to `distribute_jpeg`, no datagram is sent to any endpoint and
the client registry is left as it is.  On the running server with the client
`/tmp/c1` registered, the frame `[1, 2, 3]` is assembled and handed to
`distribute_jpeg`, and the only datagrams ever sent to the client are the five
`hello` messages of `server_service_client`. -/
theorem C17_assembled_frame_is_sent_to_no_endpoint (hw : Hardware) (port : MMAL_PORT_T)
    (buffer : MMAL_BUFFER_HEADER_T) (state : Raspijpgs.raspijpgs_state) :
    (Raspijpgs.datagrams_sent
        (Raspijpgs.jpegencoder_buffer_callback_impl hw (some (port, buffer)) state).state.trace
      = Raspijpgs.datagrams_sent state.trace ∧
    (Raspijpgs.jpegencoder_buffer_callback_impl hw (some (port, buffer)) state).state.client_addrs
      = state.client_addrs) ∧
    Raspijpgs.registered
      (Raspijpgs.server_service_client (Hardware.allSuccess 3) Raspijpgs.System.allSuccess
        (Raspijpgs.Received.datagram ⟨1, "/tmp/c1".toList⟩ [])
        Raspijpgs.running_server).state = [⟨1, "/tmp/c1".toList⟩] ∧
    Raspijpgs.distributed
      ((Raspijpgs.jpegencoder_buffer_callback_impl (Hardware.allSuccess 3)
        (some (Raspijpgs.encoder_port,
          { handle := 1, data := [1, 2, 3], flags := MMAL_BUFFER_HEADER_FLAG_FRAME_END }))
        (Raspijpgs.server_service_client (Hardware.allSuccess 3) Raspijpgs.System.allSuccess
          (Raspijpgs.Received.datagram ⟨1, "/tmp/c1".toList⟩ [])
          Raspijpgs.running_server).state).state.trace) = [[1, 2, 3]] ∧
    Raspijpgs.datagrams_sent
      ((Raspijpgs.jpegencoder_buffer_callback_impl (Hardware.allSuccess 3)
        (some (Raspijpgs.encoder_port,
          { handle := 1, data := [1, 2, 3], flags := MMAL_BUFFER_HEADER_FLAG_FRAME_END }))
        (Raspijpgs.server_service_client (Hardware.allSuccess 3) Raspijpgs.System.allSuccess
          (Raspijpgs.Received.datagram ⟨1, "/tmp/c1".toList⟩ [])
          Raspijpgs.running_server).state).state.trace)
      = List.replicate 5 ("/tmp/c1".toList, "hello\n".toList) :=
  ⟨⟨Raspijpgs.datagrams_sent_of_extends
      (Raspijpgs.callback_impl_extends_of (fun e => Raspijpgs.datagrams_sent [e] = [])
        (fun _ _ => rfl) (fun _ => rfl) (fun _ => rfl)
        hw port buffer state),
    (Raspijpgs.callback_impl_state hw port buffer state).1⟩,
    by set_option maxRecDepth 8000 in decide,
    by set_option maxRecDepth 8000 in decide,
    by set_option maxRecDepth 8000 in decide⟩

/-- C18 (code bug): `server_service_client` calls `add_client` for every
datagram, and `add_client` takes the first free slot without looking for the
address in the table.  On the running server, the first datagram from the
endpoint `/tmp/c1` registers it once; a second datagram from the same endpoint
registers it a second time, so the address occupies two slots. -/
theorem C18_second_datagram_registers_the_endpoint_again :
    (Raspijpgs.server_service_client (Hardware.allSuccess 3) Raspijpgs.System.allSuccess
      (Raspijpgs.Received.datagram ⟨1, "/tmp/c1".toList⟩ [])
      Raspijpgs.running_server).exited = false ∧
    Raspijpgs.registered
      (Raspijpgs.server_service_client (Hardware.allSuccess 3) Raspijpgs.System.allSuccess
        (Raspijpgs.Received.datagram ⟨1, "/tmp/c1".toList⟩ [])
        Raspijpgs.running_server).state = [⟨1, "/tmp/c1".toList⟩] ∧
    (Raspijpgs.server_service_client (Hardware.allSuccess 3) Raspijpgs.System.allSuccess
      (Raspijpgs.Received.datagram ⟨1, "/tmp/c1".toList⟩ [])
      (Raspijpgs.server_service_client (Hardware.allSuccess 3) Raspijpgs.System.allSuccess
        (Raspijpgs.Received.datagram ⟨1, "/tmp/c1".toList⟩ [])
        Raspijpgs.running_server).state).exited = false ∧
    Raspijpgs.registered
      (Raspijpgs.server_service_client (Hardware.allSuccess 3) Raspijpgs.System.allSuccess
        (Raspijpgs.Received.datagram ⟨1, "/tmp/c1".toList⟩ [])
        (Raspijpgs.server_service_client (Hardware.allSuccess 3) Raspijpgs.System.allSuccess
          (Raspijpgs.Received.datagram ⟨1, "/tmp/c1".toList⟩ [])
          Raspijpgs.running_server).state).state
      = [⟨1, "/tmp/c1".toList⟩, ⟨1, "/tmp/c1".toList⟩] :=
  ⟨by set_option maxRecDepth 8000 in decide,
    by set_option maxRecDepth 8000 in decide,
    by set_option maxRecDepth 16000 in decide,
    by set_option maxRecDepth 16000 in decide⟩

namespace Raspijpgs

theorem pipeline_calls_of_extends {s s' : raspijpgs_state}
    (h : Extends (fun e => pipeline_calls [e] = []) raspijpgs_state.trace s s') :
    pipeline_calls s'.trace = pipeline_calls s.trace := by
  obtain ⟨es, he, hP⟩ := h
  rw [he, pipeline_calls_append]
  suffices hs : pipeline_calls es = [] by rw [hs, List.append_nil]
  clear he
  induction es with
  | nil => rfl
  | cons e rest ih =>
    have h1 := hP e (List.mem_cons_self _ _)
    have h2 := ih (fun e' he' => hP e' (List.mem_cons_of_mem _ he'))
    rw [show e :: rest = [e] ++ rest from rfl, pipeline_calls_append, h1, h2]
    rfl

theorem callback_impl_pipeline_calls (hw : Hardware) (msg : MMAL_PORT_T × MMAL_BUFFER_HEADER_T)
    (s : raspijpgs_state) :
    pipeline_calls (jpegencoder_buffer_callback_impl hw (some msg) s).state.trace
      = pipeline_calls s.trace :=
  pipeline_calls_of_extends
    (callback_impl_extends_of (fun e => pipeline_calls [e] = [])
      (fun _ _ => rfl) (fun _ => rfl) (fun _ => rfl) hw msg.1 msg.2 s)

theorem callback_impl_count (hw : Hardware) (msg : MMAL_PORT_T × MMAL_BUFFER_HEADER_T)
    (s : raspijpgs_state) :
    (jpegencoder_buffer_callback_impl hw (some msg) s).state.count
      = (if s.count ≥ 0 then s.count - 1 else s.count) :=
  (callback_impl_state hw msg.1 msg.2 s).2.1

/-- While `state.count` is negative, the main loop serves buffer after buffer
and is never left. -/
theorem main_loop_negative_count (hw : Hardware) (sys : System)
    (msgs : List (MMAL_PORT_T × MMAL_BUFFER_HEADER_T)) (s : raspijpgs_state)
    (hneg : s.count < 0) :
    pipeline_calls (main_loop hw sys
      (msgs.map (fun m => Step.poll_ready none (some (some m)))) s).state.trace
      = pipeline_calls s.trace ∧
    (main_loop hw sys
      (msgs.map (fun m => Step.poll_ready none (some (some m)))) s).state.count = s.count := by
  induction msgs generalizing s with
  | nil => exact ⟨rfl, rfl⟩
  | cons m rest ih =>
    have hp := callback_impl_pipeline_calls hw m s
    have hc := callback_impl_count hw m s
    rw [if_neg (by omega)] at hc
    simp only [List.map, main_loop, service_ready, server_service_mmal, Result.andThen]
    cases hr : jpegencoder_buffer_callback_impl hw (some m) s with
    | exit s1 msg =>
      rw [hr] at hp hc
      exact ⟨hp, hc⟩
    | ok s1 =>
      rw [hr] at hp hc
      simp only [Result.state] at hp hc
      simp only []
      rw [if_pos (by omega)]
      have h := ih s1 (by omega)
      rw [hp, hc] at h
      exact h

end Raspijpgs

/-- C19 (code bug): `jpegencoder_buffer_callback_impl` decrements
`state.count` whenever it is not negative, also when it is 0.  A buffer
processed after `term_sighandler` has set the count to 0 makes it -1.  When the
signal is handled while the server is not waiting in `poll` and buffers
arrive afterwards, the loop condition `state.count != 0` holds at every later
evaluation: however many buffers follow, `stop_all` is not executed and the
count stays -1.  Only a signal that interrupts `poll` (which then fails with
`EINTR`) leads to `stop_all`. -/
theorem C19_termination_request_is_lost_when_a_buffer_follows (hw : Hardware)
    (sys : Raspijpgs.System) (msg : MMAL_PORT_T × MMAL_BUFFER_HEADER_T)
    (msgs : List (MMAL_PORT_T × MMAL_BUFFER_HEADER_T))
    (state : Raspijpgs.raspijpgs_state) :
    (Raspijpgs.jpegencoder_buffer_callback_impl hw (some msg)
      (Raspijpgs.term_sighandler state)).state.count = -1 ∧
    pipeline_calls (Raspijpgs.main_loop hw sys
      (Raspijpgs.Step.term_signal ::
        (msg :: msgs).map (fun m => Raspijpgs.Step.poll_ready none (some (some m))))
      state).state.trace = pipeline_calls state.trace ∧
    (Raspijpgs.main_loop hw sys
      (Raspijpgs.Step.term_signal ::
        (msg :: msgs).map (fun m => Raspijpgs.Step.poll_ready none (some (some m))))
      state).state.count = -1 ∧
    pipeline_calls (Raspijpgs.main_loop hw sys
      [Raspijpgs.Step.term_signal, Raspijpgs.Step.poll_eintr] state).state.trace
      = pipeline_calls state.trace ++ ["stop_all"] := by
  have hc := Raspijpgs.callback_impl_count hw msg (Raspijpgs.term_sighandler state)
  have hp := Raspijpgs.callback_impl_pipeline_calls hw msg (Raspijpgs.term_sighandler state)
  have hc' : (Raspijpgs.jpegencoder_buffer_callback_impl hw (some msg)
      (Raspijpgs.term_sighandler state)).state.count = -1 := by
    rw [hc]
    rfl
  refine ⟨hc', ?_, ?_, ?_⟩
  · simp only [List.map, Raspijpgs.main_loop, Raspijpgs.service_ready,
      Raspijpgs.server_service_mmal, Result.andThen]
    cases hr : Raspijpgs.jpegencoder_buffer_callback_impl hw (some msg)
        (Raspijpgs.term_sighandler state) with
    | exit s1 m => rw [hr] at hp; exact hp
    | ok s1 =>
      rw [hr] at hp hc'
      simp only [Result.state] at hp hc'
      simp only []
      rw [if_pos (by omega)]
      rw [(Raspijpgs.main_loop_negative_count hw sys msgs s1 (by omega)).1]
      exact hp
  · simp only [List.map, Raspijpgs.main_loop, Raspijpgs.service_ready,
      Raspijpgs.server_service_mmal, Result.andThen]
    cases hr : Raspijpgs.jpegencoder_buffer_callback_impl hw (some msg)
        (Raspijpgs.term_sighandler state) with
    | exit s1 m => rw [hr] at hc'; exact hc'
    | ok s1 =>
      rw [hr] at hc'
      simp only [Result.state] at hc'
      simp only []
      rw [if_pos (by omega)]
      rw [(Raspijpgs.main_loop_negative_count hw sys msgs s1 (by omega)).2]
      exact hc'
  · simp [Raspijpgs.main_loop, Raspijpgs.term_sighandler, Raspijpgs.leave_loop,
      Raspijpgs.stop_all, Raspijpgs.mmal, Raspijpgs.mmal_void, Raspijpgs.invoke,
      pipeline_calls_append, pipeline_calls, Result.state]

/-- C20 (code bug): `jpegencoder_buffer_callback_impl` decrements
`state.count` once for every buffer it processes, not once for every frame it
emits.  The server started with `--count 2` and fed two frames of two buffers
each leaves its main loop after the second buffer: `stop_all` runs when two
buffers have been processed (those with the handles 1 and 2) and one frame,
`[1, 2]`, has been emitted, where the option asks for two frames.  With the
default count -1 the same buffers leave the counter at -1 and the loop is not
left. -/
theorem C20_count_is_decremented_per_buffer_not_per_frame :
    (Raspijpgs.run_server ["raspijpgs".toList, "--count".toList, "2".toList]
      Raspijpgs.two_fragmented_frames).exited = false ∧
    pipeline_calls (Raspijpgs.run_server ["raspijpgs".toList, "--count".toList, "2".toList]
      Raspijpgs.two_fragmented_frames).state.trace = ["start_all", "stop_all"] ∧
    (calls_of (Raspijpgs.run_server ["raspijpgs".toList, "--count".toList, "2".toList]
      Raspijpgs.two_fragmented_frames).state.trace).filter
        (fun c => c matches Call.mmal_buffer_header_mem_lock _)
      = [Call.mmal_buffer_header_mem_lock 1, Call.mmal_buffer_header_mem_lock 2] ∧
    Raspijpgs.distributed (Raspijpgs.run_server
      ["raspijpgs".toList, "--count".toList, "2".toList]
      Raspijpgs.two_fragmented_frames).state.trace = [[1, 2]] ∧
    pipeline_calls (Raspijpgs.run_server ["raspijpgs".toList]
      Raspijpgs.two_fragmented_frames).state.trace = ["start_all"] ∧
    (Raspijpgs.run_server ["raspijpgs".toList]
      Raspijpgs.two_fragmented_frames).state.count = -1 :=
  ⟨by set_option maxRecDepth 8000 in decide,
    by set_option maxRecDepth 8000 in decide,
    by set_option maxRecDepth 8000 in decide,
    by set_option maxRecDepth 8000 in decide,
    by set_option maxRecDepth 8000 in decide,
    by set_option maxRecDepth 8000 in decide⟩

namespace Raspijpgs

theorem getenv_setenv_keep (env : List (List Char × List Char)) (k v : List Char) :
    Libc.getenv (Libc.setenv env k v 0) k = some ((Libc.getenv env k).getD v) := by
  induction env with
  | nil => simp [Libc.setenv, Libc.getenv]
  | cons kv rest ih =>
    obtain ⟨k', v'⟩ := kv
    unfold Libc.setenv
    by_cases h : k' = k
    · simp [h, Libc.getenv]
    · simp [h, Libc.getenv, ih]

theorem getenv_setenv_other (env : List (List Char × List Char)) (k k' v : List Char)
    (replace : Int) (h : k' ≠ k) :
    Libc.getenv (Libc.setenv env k' v replace) k = Libc.getenv env k := by
  induction env with
  | nil => simp [Libc.setenv, Libc.getenv, h]
  | cons kv rest ih =>
    obtain ⟨k'', v''⟩ := kv
    unfold Libc.setenv
    by_cases h1 : k'' = k'
    · subst h1
      by_cases h2 : replace ≠ 0
      · simp [h2, Libc.getenv, h]
      · simp [h2, Libc.getenv, h]
    · rw [if_neg h1]
      by_cases h2 : k'' = k
      · simp [h2, Libc.getenv]
      · simp [h2, Libc.getenv, ih]

theorem getenv_setenv_keep_of_some (env : List (List Char × List Char)) (k k' v v' : List Char)
    (h : Libc.getenv env k = some v) :
    Libc.getenv (Libc.setenv env k' v' 0) k = some v := by
  by_cases hk : k' = k
  · subst hk
    rw [getenv_setenv_keep, h]
    rfl
  · rw [getenv_setenv_other _ _ _ _ _ hk, h]

theorem fillin_defaults_from_of_some (os : List raspi_config_opt) (s : raspijpgs_state)
    (k v : List Char) (h : Libc.getenv s.env k = some v) :
    Libc.getenv (fillin_defaults_from os s).env k = some v := by
  induction os generalizing s with
  | nil => exact h
  | cons o rest ih =>
    unfold fillin_defaults_from
    split
    · exact ih _ (getenv_setenv_keep_of_some _ _ _ _ _ h)
    · exact ih _ h

theorem fillin_defaults_from_of_mem (os : List raspi_config_opt) (s : raspijpgs_state)
    (o : raspi_config_opt) (k d : List Char) (ho : o ∈ os) (hk : o.env_key = some k)
    (hd : o.default_value = some d)
    (huniq : ∀ o' ∈ os, o'.env_key = some k → o'.default_value = some d) :
    Libc.getenv (fillin_defaults_from os s).env k
      = some ((Libc.getenv s.env k).getD d) := by
  induction os generalizing s with
  | nil => exact absurd ho (List.not_mem_nil _)
  | cons o' rest ih =>
    cases hs : Libc.getenv s.env k with
    | some v => exact fillin_defaults_from_of_some _ s k v hs
    | none =>
      unfold fillin_defaults_from
      split
      · rename_i k' d' hk' hd'
        by_cases hkk : k' = k
        · subst hkk
          have := huniq o' (List.mem_cons_self _ _) hk'
          rw [hd'] at this
          cases this
          apply fillin_defaults_from_of_some
          simp only []
          rw [getenv_setenv_keep, hs]
        · rcases List.mem_cons.mp ho with h | h
          · subst h
            rw [hk] at hk'
            cases hk'
            exact absurd rfl hkk
          · rw [ih _ h (fun o'' ho'' => huniq o'' (List.mem_cons_of_mem _ ho''))]
            simp only []
            rw [getenv_setenv_other _ _ _ _ _ hkk, hs]
      · rename_i hno
        rcases List.mem_cons.mp ho with h | h
        · subst h
          exact absurd hd (by
            intro hd'
            exact hno k d hk hd')
        · have := ih s h (fun o'' ho'' => huniq o'' (List.mem_cons_of_mem _ ho''))
          rw [this, hs]

theorem env_keys_unique : ∀ o ∈ opts, ∀ o' ∈ opts, o.env_key.isSome = true →
    o'.env_key = o.env_key → o'.default_value = o.default_value := by
  decide

theorem fillin_defaults_getenv (s : raspijpgs_state) (o : raspi_config_opt) (k d : List Char)
    (ho : o ∈ opts) (hk : o.env_key = some k) (hd : o.default_value = some d) :
    Libc.getenv (fillin_defaults s).env k = some ((Libc.getenv s.env k).getD d) := by
  apply fillin_defaults_from_of_mem opts s o k d ho hk hd
  intro o' ho' hk'
  rw [← hd]
  exact env_keys_unique o ho o' ho' (by rw [hk]; rfl) (by rw [hk, hk'])

end Raspijpgs

namespace Raspijpgs

theorem env_options_use_default_set : ∀ o ∈ opts, o.env_key.isSome = true →
    o.set = SetFn.default_set := by
  decide

theorem call_set_env_option (o : raspi_config_opt) (k v : List Char) (replace : Int)
    (s : raspijpgs_state) (ho : o ∈ opts) (hk : o.env_key = some k) :
    call_set o (some v) replace s
      = Result.ok { s with env := Libc.setenv s.env k v replace } := by
  simp only [call_set, env_options_use_default_set o ho (by rw [hk]; rfl), default_set, hk]

theorem parse_arg_long_with_value (o : raspi_config_opt) (v : List Char) (s : raspijpgs_state)
    (ho : o ∈ opts) (hl : is_long_option v = false) (hs : is_short_option v = false) :
    parse_arg ('-' :: '-' :: o.long_option) (some v) s = (call_set o (some v) 1 s, true) := by
  obtain ⟨hne, _, heq, _, _⟩ := long_options_shape o ho
  have h1 : is_long_option ('-' :: '-' :: o.long_option) = true := by
    cases h : o.long_option with
    | nil => exact absurd h hne
    | cons a t => rfl
  have h2 : (('-' :: '-' :: o.long_option).drop 2).takeWhile (fun c => c ≠ '=')
      = o.long_option := by
    simp only [List.drop]
    rw [List.takeWhile_eq_self_iff]
    intro c hc
    simpa using fun hh : c = '=' => heq (hh ▸ hc)
  have h3 : ¬ '=' ∈ ('-' :: '-' :: o.long_option) := by
    intro h
    rcases List.mem_cons.mp h with h | h
    · exact absurd h (by decide)
    · rcases List.mem_cons.mp h with h | h
      · exact absurd h (by decide)
      · exact heq h
  unfold parse_arg
  rw [if_pos h1, h2, find_long_option_self o ho]
  simp only []
  rw [if_neg h3]
  simp only [hl, hs, Bool.not_false, Bool.and_self, if_true]

theorem andThen_ok (r : Result raspijpgs_state) :
    r.andThen (fun s => Result.ok s) = r := by
  cases r <;> rfl

theorem parse_args_from_long_with_value (o : raspi_config_opt) (v : List Char)
    (rest : List (List Char)) (s : raspijpgs_state)
    (ho : o ∈ opts) (hl : is_long_option v = false) (hs : is_short_option v = false) :
    parse_args_from (('-' :: '-' :: o.long_option) :: v :: rest) s
      = (call_set o (some v) 1 s).andThen (parse_args_from rest) := by
  rw [parse_args_from, parse_arg_long_with_value o v s ho hl hs]
  rfl

theorem parse_config_line_file (hw : Hardware) (line v : List Char) (o : raspi_config_opt)
    (s : raspijpgs_state) (ho : o ∈ opts)
    (hline : split_config_line line = some (o.long_option, v)) :
    parse_config_line hw line config_context.config_context_file s
      = call_set o (some v) 0 s := by
  unfold parse_config_line
  rw [hline]
  simp only []
  rw [find_long_option_self o ho]

theorem load_config_file_one_line (hw : Hardware) (fs : List Char → Option (List Char))
    (path content line v : List Char) (o : raspi_config_opt) (s : raspijpgs_state)
    (ho : o ∈ opts) (hpath : s.config_filename = some path)
    (hfs : fs path = some content) (hlines : fgets_lines content.length content = [line])
    (hline : split_config_line (Libc.cstr line) = some (o.long_option, v)) :
    load_config_file hw fs s = call_set o (some v) 0 s := by
  unfold load_config_file
  rw [hpath]
  simp only []
  rw [hfs]
  simp only []
  rw [hlines]
  simp only [parse_config_lines]
  rw [parse_config_line_file hw _ v o s ho hline]
  cases call_set o (some v) 0 s <;> rfl

theorem expect_success_env (hw : Hardware) (c : Call) (msg : String) (s : raspijpgs_state) :
    (expect_success hw c msg s).state.env = s.env := by
  unfold expect_success mmal
  cases hw.status s.trace.length <;> rfl

theorem with_getenv_env (key : Option (List Char)) (s : raspijpgs_state)
    (f : List Char → Result raspijpgs_state) (hf : ∀ str, (f str).state.env = s.env) :
    (with_getenv key s f).state.env = s.env := by
  unfold with_getenv
  cases key with
  | none => rfl
  | some k =>
    simp only []
    cases Libc.getenv s.env k with
    | none => rfl
    | some str => exact hf str

theorem enum_param_apply_env (hw : Hardware) (p : Option Parameter) (context : config_context)
    (s : raspijpgs_state) : (enum_param_apply hw p context s).state.env = s.env := by
  unfold enum_param_apply
  cases p with
  | none =>
    simp only []
    split <;> rfl
  | some p => exact expect_success_env hw _ _ s

theorem rational_param_apply_env (hw : Hardware) (id : ParameterId) (opt : raspi_config_opt)
    (context : config_context) (s : raspijpgs_state) :
    (rational_param_apply hw id opt context s).state.env = s.env := by
  unfold rational_param_apply
  apply with_getenv_env
  intro str
  simp only []
  split
  · split <;> rfl
  · exact expect_success_env hw _ _ s

theorem call_apply_env (hw : Hardware) (f : ApplyFn) (opt : raspi_config_opt)
    (context : config_context) (s : raspijpgs_state) :
    (call_apply hw f opt context s).state.env = s.env := by
  cases f <;> simp only [call_apply, exposure_apply, awb_apply, imxfx_apply, metering_apply,
    colfx_apply, flip_apply, Result.state] <;>
    first
    | rfl
    | exact rational_param_apply_env hw _ opt context s
    | (apply with_getenv_env
       intro str
       first
       | exact expect_success_env hw _ _ s
       | exact enum_param_apply_env hw _ context s
       | rfl
       | (apply with_getenv_env
          intro str2
          exact expect_success_env hw _ _ s))

theorem parse_config_line_client_request_env (hw : Hardware) (line v k : List Char)
    (o : raspi_config_opt) (s : raspijpgs_state) (ho : o ∈ opts) (hk : o.env_key = some k)
    (hline : split_config_line line = some (o.long_option, v)) :
    Libc.getenv (parse_config_line hw line config_context.config_context_client_request
      s).state.env k = some v := by
  unfold parse_config_line
  rw [hline]
  simp only []
  rw [find_long_option_self o ho]
  simp only []
  rw [call_set_env_option o k v 1 s ho hk]
  simp only [Result.andThen]
  cases o.apply with
  | none => exact getenv_setenv_replace _ _ _
  | some f =>
    simp only []
    rw [call_apply_env]
    exact getenv_setenv_replace _ _ _

end Raspijpgs

namespace Raspijpgs

theorem parse_args_config (path : List Char) (rest : List (List Char)) (s : raspijpgs_state)
    (hl : is_long_option path = false) (hs : is_short_option path = false) :
    parse_args_from ("--config".toList :: path :: rest) s
      = parse_args_from rest { s with config_filename := some path } :=
  parse_args_from_long_with_value
    ⟨"config".toList, some "c".toList, none,
      "Specify a config file to read for options".toList, none, SetFn.config_set, none⟩
    path rest s (by decide) hl hs

theorem startup_eq (hw : Hardware) (fs : List Char → Option (List Char))
    (opt : raspi_config_opt) (k d path content line : List Char)
    (a c : Option (List Char)) (environ : List (List Char × List Char))
    (hopt : opt ∈ opts) (hk : opt.env_key = some k)
    (ha : ∀ v ∈ a, is_long_option v = false ∧ is_short_option v = false)
    (hpath : is_long_option path = false ∧ is_short_option path = false)
    (hfile : ∀ v ∈ c, fs path = some content ∧
      fgets_lines content.length content = [line] ∧
      split_config_line (Libc.cstr line) = some (opt.long_option, v)) :
    ∃ s : raspijpgs_state,
      startup hw fs (command_line opt (c.map fun _ => path) a) environ
        = Result.ok (fillin_defaults s) ∧
      (Libc.getenv s.env k).getD d
        = a.getD ((Libc.getenv environ k).getD (c.getD d)) := by
  cases c with
  | none =>
    cases a with
    | none => exact ⟨process_start environ, rfl, rfl⟩
    | some va =>
      obtain ⟨hl, hs⟩ := ha va rfl
      refine ⟨{ process_start environ with env := Libc.setenv environ k va 1 }, ?_,
        by simp only []; rw [getenv_setenv_replace]; rfl⟩
      simp only [startup, command_line, parse_args, Option.map, List.nil_append, List.drop]
      rw [parse_args_from_long_with_value opt va [] _ hopt hl hs,
        call_set_env_option opt k va 1 _ hopt hk]
      rfl
  | some vc =>
    obtain ⟨hfs, hlines, hline⟩ := hfile vc rfl
    cases a with
    | none =>
      refine ⟨{ process_start environ with
          config_filename := some path, env := Libc.setenv environ k vc 0 }, ?_, ?_⟩
      · simp only [startup, command_line, parse_args, Option.map, List.append_nil, List.drop]
        rw [parse_args_config path [] _ hpath.1 hpath.2]
        simp only [parse_args_from, Result.andThen]
        rw [load_config_file_one_line hw fs path content line vc opt _ hopt rfl hfs hlines
            hline,
          call_set_env_option opt k vc 0 _ hopt hk]
        rfl
      · simp only []
        rw [getenv_setenv_keep]
        rfl
    | some va =>
      obtain ⟨hl, hs⟩ := ha va rfl
      refine ⟨{ process_start environ with
          config_filename := some path
          env := Libc.setenv (Libc.setenv environ k va 1) k vc 0 }, ?_, ?_⟩
      · simp only [startup, command_line, parse_args, Option.map, List.cons_append,
          List.nil_append, List.drop]
        rw [parse_args_config path _ _ hpath.1 hpath.2,
          parse_args_from_long_with_value opt va [] _ hopt hl hs,
          call_set_env_option opt k va 1 _ hopt hk]
        simp only [parse_args_from, Result.andThen]
        rw [load_config_file_one_line hw fs path content line vc opt _ hopt rfl hfs hlines
            hline,
          call_set_env_option opt k vc 0 _ hopt hk]
        rfl
      · simp only []
        rw [getenv_setenv_keep, getenv_setenv_replace]
        rfl

theorem parse_arg_long_with_equals (o : raspi_config_opt) (k value : List Char)
    (next : Option (List Char)) (s : raspijpgs_state) (ho : o ∈ opts)
    (hk : o.env_key = some k) :
    (parse_arg ('-' :: '-' :: (o.long_option ++ '=' :: value)) next s).1
      = Result.ok { s with env := Libc.setenv s.env k [] 1 } := by
  obtain ⟨hne, _, heq, _, _⟩ := long_options_shape o ho
  have h1 : is_long_option ('-' :: '-' :: (o.long_option ++ '=' :: value)) = true := by
    cases h : o.long_option with
    | nil => exact absurd h hne
    | cons a t => rfl
  have h2 : (('-' :: '-' :: (o.long_option ++ '=' :: value)).drop 2).takeWhile
      (fun c => c ≠ '=') = o.long_option := by
    simp only [List.drop]
    rw [List.takeWhile_append_of_pos
      (fun c hc => by simpa using fun hh : c = '=' => heq (hh ▸ hc))]
    simp [List.takeWhile]
  have h3 : '=' ∈ ('-' :: '-' :: (o.long_option ++ '=' :: value)) := by simp
  unfold parse_arg
  rw [if_pos h1, h2, find_long_option_self o ho]
  simp only []
  rw [if_pos h3, call_set_env_option o k [] 1 s ho hk]

end Raspijpgs

/-- C11 (amended): for every option `opt` of the table that has an environment
key `k`, supplied on the command line (`--name value`), in the configuration
file (one line that `parse_config_line` reads as the entry of `opt`) and in
the environment of the process, each source present or not: the start-up of
`main` (`parse_args`, `load_config_file`, `fillin_defaults`) returns normally
and the value in effect afterwards is the one of the highest-ranked source
present, in the order command-line argument > pre-existing environment value >
configuration-file entry > built-in default; and a later live control command
for `opt`, handled by `parse_config_line` in the client-request context,
replaces the value whatever it was. -/
theorem C11_precedence_of_setting_sources (hw : Hardware)
    (fs : List Char → Option (List Char)) (opt : Raspijpgs.raspi_config_opt)
    (k d path content line : List Char) (a c : Option (List Char))
    (environ : List (List Char × List Char))
    (hopt : opt ∈ Raspijpgs.opts) (hk : opt.env_key = some k)
    (hd : opt.default_value = some d)
    (ha : ∀ v ∈ a, Raspijpgs.is_long_option v = false ∧ Raspijpgs.is_short_option v = false)
    (hpath : Raspijpgs.is_long_option path = false ∧ Raspijpgs.is_short_option path = false)
    (hfile : ∀ v ∈ c, fs path = some content ∧
      Raspijpgs.fgets_lines content.length content = [line] ∧
      Raspijpgs.split_config_line (Libc.cstr line) = some (opt.long_option, v)) :
    (Raspijpgs.startup hw fs (Raspijpgs.command_line opt (c.map fun _ => path) a)
      environ).exited = false ∧
    Libc.getenv (Raspijpgs.startup hw fs (Raspijpgs.command_line opt (c.map fun _ => path) a)
      environ).state.env k
      = some (a.getD ((Libc.getenv environ k).getD (c.getD d))) ∧
    (∀ (state : Raspijpgs.raspijpgs_state) (command value : List Char),
      Raspijpgs.split_config_line command = some (opt.long_option, value) →
      Libc.getenv (Raspijpgs.parse_config_line hw command
        Raspijpgs.config_context.config_context_client_request state).state.env k
        = some value) := by
  obtain ⟨s, hs, henv⟩ := Raspijpgs.startup_eq hw fs opt k d path content line a c environ
    hopt hk ha hpath hfile
  refine ⟨by rw [hs]; rfl, ?_, ?_⟩
  · rw [hs]
    simp only [Result.state]
    rw [Raspijpgs.fillin_defaults_getenv s opt k d hopt hk hd, henv]
  · intro state command value hcommand
    exact Raspijpgs.parse_config_line_client_request_env hw command value k opt state hopt hk
      hcommand

/-- Witness of C11: the option `width` with the command-line value `640`, the
configuration file `rc` holding `width=200` and `RASPIJPGS_WIDTH=100` in the
environment. -/
theorem C11_witness :
    ((⟨"width".toList, some "w".toList, some Raspijpgs.RASPIJPGS_WIDTH,
        "Set image width <size>".toList, some "320".toList, Raspijpgs.SetFn.default_set,
        some Raspijpgs.ApplyFn.width_apply⟩ : Raspijpgs.raspi_config_opt) ∈ Raspijpgs.opts ∧
      (Raspijpgs.is_long_option "640".toList = false ∧
        Raspijpgs.is_short_option "640".toList = false) ∧
      (Raspijpgs.is_long_option "rc".toList = false ∧
        Raspijpgs.is_short_option "rc".toList = false) ∧
      Raspijpgs.one_file "rc".toList "width=200\n".toList "rc".toList
        = some "width=200\n".toList ∧
      Raspijpgs.fgets_lines "width=200\n".toList.length "width=200\n".toList
        = ["width=200\n".toList] ∧
      Raspijpgs.split_config_line (Libc.cstr "width=200\n".toList)
        = some ("width".toList, "200".toList)) ∧
    Libc.getenv (Raspijpgs.startup (Hardware.allSuccess 3)
      (Raspijpgs.one_file "rc".toList "width=200\n".toList)
      ["raspijpgs".toList, "--config".toList, "rc".toList, "--width".toList, "640".toList]
      [(Raspijpgs.RASPIJPGS_WIDTH, "100".toList)]).state.env Raspijpgs.RASPIJPGS_WIDTH
      = some "640".toList :=
  ⟨⟨by decide, ⟨by decide, by decide⟩, ⟨by decide, by decide⟩, by decide, by decide,
      by decide⟩,
    (C11_precedence_of_setting_sources (Hardware.allSuccess 3)
      (Raspijpgs.one_file "rc".toList "width=200\n".toList)
      ⟨"width".toList, some "w".toList, some Raspijpgs.RASPIJPGS_WIDTH,
        "Set image width <size>".toList, some "320".toList, Raspijpgs.SetFn.default_set,
        some Raspijpgs.ApplyFn.width_apply⟩
      Raspijpgs.RASPIJPGS_WIDTH "320".toList "rc".toList "width=200\n".toList
      "width=200\n".toList (some "640".toList) (some "200".toList)
      [(Raspijpgs.RASPIJPGS_WIDTH, "100".toList)]
      (by decide) rfl rfl
      (fun v hv => by cases hv; exact ⟨by decide, by decide⟩)
      ⟨by decide, by decide⟩
      (fun v hv => by cases hv; exact ⟨by decide, by decide, by decide⟩)).2.1⟩

/-- Counterexample to C11 as stated: the process is started with
`RASPIJPGS_WIDTH=100` in its environment and with `--config rc`, where the
file `rc` holds the line `width=200`; no width is given on the command line.
After the start-up the width in effect is `100`, the value of the
environment, not the `200` of the configuration file. -/
theorem C11_counterexample_environment_overrides_config_file :
    (Raspijpgs.startup (Hardware.allSuccess 3)
      (Raspijpgs.one_file "rc".toList "width=200\n".toList)
      ["raspijpgs".toList, "--config".toList, "rc".toList]
      [(Raspijpgs.RASPIJPGS_WIDTH, "100".toList)]).exited = false ∧
    (Raspijpgs.startup (Hardware.allSuccess 3)
      (Raspijpgs.one_file "rc".toList "width=200\n".toList)
      ["raspijpgs".toList, "--config".toList, "rc".toList]
      [(Raspijpgs.RASPIJPGS_WIDTH, "100".toList)]).state.config_filename
      = some "rc".toList ∧
    Libc.getenv (Raspijpgs.startup (Hardware.allSuccess 3)
      (Raspijpgs.one_file "rc".toList "width=200\n".toList)
      ["raspijpgs".toList, "--config".toList, "rc".toList]
      [(Raspijpgs.RASPIJPGS_WIDTH, "100".toList)]).state.env Raspijpgs.RASPIJPGS_WIDTH
      = some "100".toList ∧
    Libc.getenv (Raspijpgs.startup (Hardware.allSuccess 3)
      (Raspijpgs.one_file "rc".toList "width=200\n".toList)
      ["raspijpgs".toList, "--config".toList, "rc".toList]
      []).state.env Raspijpgs.RASPIJPGS_WIDTH
      = some "200".toList :=
  ⟨by decide, by decide, by decide, by decide⟩

namespace Raspijpgs

theorem distributed_eq_nil_of_calls (es : List Event)
    (h : ∀ e ∈ es, ∃ c status, e = Event.call c status) : distributed es = [] := by
  induction es with
  | nil => rfl
  | cons e rest ih =>
    obtain ⟨c, status, rfl⟩ := h e (List.mem_cons_self _ _)
    exact ih (fun e' he' => h e' (List.mem_cons_of_mem _ he'))

theorem callback_impl_frame (hw : Hardware) (port : MMAL_PORT_T)
    (buffer : MMAL_BUFFER_HEADER_T) (s : raspijpgs_state) :
    (jpegencoder_buffer_callback_impl hw (some (port, buffer)) s).state.buffer
      = (assemble buffer s).buffer ∧
    (jpegencoder_buffer_callback_impl hw (some (port, buffer)) s).state.buffer_ix
      = (assemble buffer s).buffer_ix ∧
    distributed (jpegencoder_buffer_callback_impl hw (some (port, buffer)) s).state.trace
      = distributed (assemble buffer s).trace := by
  obtain ⟨s3, h3, heq⟩ := callback_impl_eq hw port buffer s
  rw [heq]
  simp only []
  rw [distributed_append,
    distributed_eq_nil_of_calls _ (spec_recycling_calls hw port buffer _), List.append_nil, h3]
  simp only [mmal_void, distributed_append]
  unfold assemble mmal
  simp only []
  split
  · simp [distribute_jpeg, distributed_append, distributed]
  · split
    · simp [warnx, distributed_append, distributed]
    · split
      · simp [distribute_jpeg, distributed_append, distributed]
      · simp [distributed_append, distributed]

end Raspijpgs

/-- C22 (code bug): when `jpegencoder_buffer_callback_impl` appends a buffer
with the frame-end flag to a non-empty pending frame and the accumulated
length fits `MAX_DATA_BUFFER_SIZE`, the accumulated bytes are handed to
`distribute_jpeg`, but the pending frame is not reset: `state.buffer_ix` is
the accumulated length when the function returns, not 0. -/
theorem C22_frame_end_leaves_the_accumulated_length (hw : Hardware) (port : MMAL_PORT_T)
    (buffer : MMAL_BUFFER_HEADER_T) (state : Raspijpgs.raspijpgs_state)
    (hpending : 0 < state.buffer_ix) (hend : buffer.frame_end = true)
    (hfit : state.buffer_ix + buffer.length ≤ Raspijpgs.MAX_DATA_BUFFER_SIZE) :
    Raspijpgs.distributed
      (Raspijpgs.jpegencoder_buffer_callback_impl hw (some (port, buffer)) state).state.trace
      = Raspijpgs.distributed state.trace ++
        [(memcpy state.buffer state.buffer_ix buffer.data buffer.length).take
          (state.buffer_ix + buffer.length)] ∧
    (Raspijpgs.jpegencoder_buffer_callback_impl hw (some (port, buffer)) state).state.buffer_ix
      = state.buffer_ix + buffer.length ∧
    (Raspijpgs.jpegencoder_buffer_callback_impl hw (some (port, buffer)) state).state.buffer_ix
      ≠ 0 := by
  obtain ⟨_, hix, hdist⟩ := Raspijpgs.callback_impl_frame hw port buffer state
  have hmax : Raspijpgs.MAX_DATA_BUFFER_SIZE = 65536 := rfl
  have hmod : (state.buffer_ix + buffer.length) % 2 ^ 32 = state.buffer_ix + buffer.length :=
    Nat.mod_eq_of_lt (by omega)
  have hasm : Raspijpgs.assemble buffer state
      = Raspijpgs.distribute_jpeg
          (memcpy state.buffer state.buffer_ix buffer.data buffer.length)
          (state.buffer_ix + buffer.length)
          { state with
            buffer := memcpy state.buffer state.buffer_ix buffer.data buffer.length
            buffer_ix := state.buffer_ix + buffer.length } := by
    unfold Raspijpgs.assemble
    rw [if_neg (by omega), if_neg (by rw [hmod]; omega)]
    simp only [hend, if_true, hmod]
  rw [hix, hdist, hasm]
  refine ⟨?_, rfl, ?_⟩
  · simp [Raspijpgs.distribute_jpeg, Raspijpgs.distributed_append, Raspijpgs.distributed]
  · simp only [Raspijpgs.distribute_jpeg]
    omega

/-- Witness of C22: the pending frame holds the byte `[1]` and the buffer
`[2]` with the frame-end flag arrives. -/
theorem C22_witness :
    (0 < ({ Raspijpgs.initial_state [1, 0, 0] with buffer_ix := 1 } :
        Raspijpgs.raspijpgs_state).buffer_ix ∧
      ({ handle := 2, data := [2], flags := MMAL_BUFFER_HEADER_FLAG_FRAME_END } :
        MMAL_BUFFER_HEADER_T).frame_end = true) ∧
    (Raspijpgs.jpegencoder_buffer_callback_impl (Hardware.allSuccess 3)
      (some (Raspijpgs.encoder_port,
        { handle := 2, data := [2], flags := MMAL_BUFFER_HEADER_FLAG_FRAME_END }))
      { Raspijpgs.initial_state [1, 0, 0] with buffer_ix := 1 }).state.buffer_ix ≠ 0 :=
  ⟨⟨by decide, by decide⟩,
    (C22_frame_end_leaves_the_accumulated_length (Hardware.allSuccess 3)
      Raspijpgs.encoder_port
      { handle := 2, data := [2], flags := MMAL_BUFFER_HEADER_FLAG_FRAME_END }
      { Raspijpgs.initial_state [1, 0, 0] with buffer_ix := 1 }
      (by decide) (by decide) (by decide)).2.2⟩

/-- C23: in `jpegencoder_buffer_callback_impl`, when the pending frame is empty
(`buffer_ix = 0`) and the delivered buffer carries the frame-end flag and has
at most `MAX_DATA_BUFFER_SIZE` bytes, `distribute_jpeg` is called exactly once,
with exactly the payload of that buffer, and `state.buffer` and
`state.buffer_ix` are left as they were. -/
theorem C23_single_buffer_frame_bypasses_the_pending_frame (hw : Hardware)
    (port : MMAL_PORT_T) (buffer : MMAL_BUFFER_HEADER_T)
    (state : Raspijpgs.raspijpgs_state)
    (hempty : state.buffer_ix = 0) (hend : buffer.frame_end = true)
    (hfit : buffer.length ≤ Raspijpgs.MAX_DATA_BUFFER_SIZE) :
    Raspijpgs.distributed
      (Raspijpgs.jpegencoder_buffer_callback_impl hw (some (port, buffer)) state).state.trace
      = Raspijpgs.distributed state.trace ++ [buffer.data] ∧
    (Raspijpgs.jpegencoder_buffer_callback_impl hw (some (port, buffer)) state).state.buffer
      = state.buffer ∧
    (Raspijpgs.jpegencoder_buffer_callback_impl hw (some (port, buffer)) state).state.buffer_ix
      = 0 := by
  obtain ⟨hbuf, hix, hdist⟩ := Raspijpgs.callback_impl_frame hw port buffer state
  have hasm : Raspijpgs.assemble buffer state
      = Raspijpgs.distribute_jpeg buffer.data buffer.length state := by
    unfold Raspijpgs.assemble
    rw [if_pos ⟨hempty, hend, hfit⟩]
  rw [hbuf, hix, hdist, hasm]
  refine ⟨?_, rfl, hempty⟩
  simp [Raspijpgs.distribute_jpeg, Raspijpgs.distributed_append, Raspijpgs.distributed,
    MMAL_BUFFER_HEADER_T.length]

/-- Witness of C23: the frame `[1, 2, 3]` delivered in one buffer to the running
server. -/
theorem C23_witness :
    (Raspijpgs.running_server.buffer_ix = 0 ∧
      ({ handle := 1, data := [1, 2, 3], flags := MMAL_BUFFER_HEADER_FLAG_FRAME_END } :
        MMAL_BUFFER_HEADER_T).frame_end = true ∧
      ({ handle := 1, data := [1, 2, 3], flags := MMAL_BUFFER_HEADER_FLAG_FRAME_END } :
        MMAL_BUFFER_HEADER_T).length ≤ Raspijpgs.MAX_DATA_BUFFER_SIZE) ∧
    Raspijpgs.distributed
      (Raspijpgs.jpegencoder_buffer_callback_impl (Hardware.allSuccess 3)
        (some (Raspijpgs.encoder_port,
          { handle := 1, data := [1, 2, 3], flags := MMAL_BUFFER_HEADER_FLAG_FRAME_END }))
        Raspijpgs.running_server).state.trace
      = Raspijpgs.distributed Raspijpgs.running_server.trace ++ [[1, 2, 3]] :=
  ⟨⟨by decide, by decide, by decide⟩,
    (C23_single_buffer_frame_bypasses_the_pending_frame (Hardware.allSuccess 3)
      Raspijpgs.encoder_port
      { handle := 1, data := [1, 2, 3], flags := MMAL_BUFFER_HEADER_FLAG_FRAME_END }
      Raspijpgs.running_server (by decide) (by decide) (by decide)).1⟩

/-- C21 (code bug): `rational_param_apply` reads the value with `strtoul` into
an `unsigned int` and rejects it when it exceeds 100, so every negative value
is rejected.  A server started with the configuration file line
`sharpness=-50` (`contrast=-50`, `saturation=-1`) ends in `apply_parameters`
with "must be between 0 and 100" and never hands the value to the camera,
although the option table documents the range -100 to 100; the value 50 is
accepted and handed over as 50/100. -/
theorem C21_negative_sharpness_is_rejected_at_server_start :
    Libc.strtoul "-50".toList = 4294967246 ∧
    (Raspijpgs.server_loop (Hardware.allSuccess 3) Raspijpgs.System.allSuccess []
      (Raspijpgs.startup (Hardware.allSuccess 3)
        (Raspijpgs.one_file "rc".toList "sharpness=-50\n".toList)
        ["raspijpgs".toList, "--config".toList, "rc".toList] []).state).message
      = some "must be between 0 and 100" ∧
    (new_calls [] (Raspijpgs.server_loop (Hardware.allSuccess 3)
      Raspijpgs.System.allSuccess []
      (Raspijpgs.startup (Hardware.allSuccess 3)
        (Raspijpgs.one_file "rc".toList "sharpness=-50\n".toList)
        ["raspijpgs".toList, "--config".toList, "rc".toList] []).state).state.trace).filter
        (fun c => c matches Call.mmal_port_parameter_set _ (Parameter.rational _ _ _))
      = [] ∧
    (Raspijpgs.server_loop (Hardware.allSuccess 3) Raspijpgs.System.allSuccess []
      (Raspijpgs.startup (Hardware.allSuccess 3)
        (Raspijpgs.one_file "rc".toList "contrast=-50\n".toList)
        ["raspijpgs".toList, "--config".toList, "rc".toList] []).state).message
      = some "must be between 0 and 100" ∧
    (Raspijpgs.server_loop (Hardware.allSuccess 3) Raspijpgs.System.allSuccess []
      (Raspijpgs.startup (Hardware.allSuccess 3)
        (Raspijpgs.one_file "rc".toList "saturation=-1\n".toList)
        ["raspijpgs".toList, "--config".toList, "rc".toList] []).state).message
      = some "must be between 0 and 100" ∧
    (Raspijpgs.server_loop (Hardware.allSuccess 3) Raspijpgs.System.allSuccess []
      (Raspijpgs.startup (Hardware.allSuccess 3)
        (Raspijpgs.one_file "rc".toList "sharpness=50\n".toList)
        ["raspijpgs".toList, "--config".toList, "rc".toList] []).state).exited = false ∧
    Call.mmal_port_parameter_set (Port.control Component.camera)
        (Parameter.rational ParameterId.SHARPNESS 50 100) ∈
      new_calls [] (Raspijpgs.server_loop (Hardware.allSuccess 3)
        Raspijpgs.System.allSuccess []
        (Raspijpgs.startup (Hardware.allSuccess 3)
          (Raspijpgs.one_file "rc".toList "sharpness=50\n".toList)
          ["raspijpgs".toList, "--config".toList, "rc".toList] []).state).state.trace :=
  ⟨by decide, by decide, by decide, by decide, by decide, by decide, by decide⟩

theorem new_calls_append (before es : List Event) :
    new_calls before (before ++ es) = calls_of es := by
  unfold new_calls
  rw [List.drop_left]

theorem new_calls_self (before : List Event) : new_calls before before = [] := by
  unfold new_calls
  rw [List.drop_length]
  rfl

namespace Raspijpgs

theorem enum_param_apply_new_calls (hw : Hardware) (p : Option Parameter)
    (context : config_context) (s : raspijpgs_state) :
    new_calls s.trace (enum_param_apply hw p context s).state.trace
      = (p.map (Call.mmal_port_parameter_set (Port.control Component.camera))).toList := by
  cases p with
  | none =>
    unfold enum_param_apply
    simp only []
    split <;> exact new_calls_self _
  | some p =>
    unfold enum_param_apply
    simp only []
    rw [(expect_success_trace hw _ _ s).1, new_calls_append]
    rfl

end Raspijpgs

namespace RaspiMJPEG

theorem mjpeg_expect_success_new_calls (hw : Hardware) (c : Call) (msg : String)
    (s : RaspiMJPEG_state) :
    new_calls s.trace (expect_success hw c msg s).state.trace = [c] := by
  rw [mjpeg_expect_success_state]
  simp only [mmal]
  rw [new_calls_append]
  rfl

theorem cam_set_em_new_calls (hw : Hardware) (s : RaspiMJPEG_state) :
    new_calls s.trace (cam_set_em hw s).state.trace
      = ((exposure_mode_of s.cam_setting_em).map (fun m => Call.mmal_port_parameter_set
          (Port.control Component.camera) (Parameter.exposure_mode m))).toList := by
  unfold cam_set_em
  cases exposure_mode_of s.cam_setting_em with
  | none => exact new_calls_self _
  | some m => exact mjpeg_expect_success_new_calls hw _ _ s

theorem cam_set_wb_new_calls (hw : Hardware) (s : RaspiMJPEG_state) :
    new_calls s.trace (cam_set_wb hw s).state.trace
      = ((awb_mode_of s.cam_setting_wb).map (fun m => Call.mmal_port_parameter_set
          (Port.control Component.camera) (Parameter.awb_mode m))).toList := by
  unfold cam_set_wb
  cases awb_mode_of s.cam_setting_wb with
  | none => exact new_calls_self _
  | some m => exact mjpeg_expect_success_new_calls hw _ _ s

theorem cam_set_ie_new_calls (hw : Hardware) (s : RaspiMJPEG_state) :
    new_calls s.trace (cam_set_ie hw s).state.trace
      = ((imagefx_of s.cam_setting_ie).map (fun m => Call.mmal_port_parameter_set
          (Port.control Component.camera) (Parameter.image_effect m))).toList := by
  unfold cam_set_ie
  cases imagefx_of s.cam_setting_ie with
  | none => exact new_calls_self _
  | some m => exact mjpeg_expect_success_new_calls hw _ _ s

theorem cam_set_mm_new_calls (hw : Hardware) (s : RaspiMJPEG_state) :
    new_calls s.trace (cam_set_mm hw s).state.trace
      = ((metering_mode_of s.cam_setting_mm).map (fun m => Call.mmal_port_parameter_set
          (Port.control Component.camera) (Parameter.exp_metering_mode m))).toList := by
  unfold cam_set_mm
  cases metering_mode_of s.cam_setting_mm with
  | none => exact new_calls_self _
  | some m => exact mjpeg_expect_success_new_calls hw _ _ s

end RaspiMJPEG

/-- C28: the two programs agree on every enum name and on the mirror value.
For every string `s`, stored for the option in the environment of raspijpgs
and in the setting of RaspiMJPEG: `exposure_apply` and `cam_set_em`,
`awb_apply` and `cam_set_wb`, `imxfx_apply` and `cam_set_ie`, `metering_apply`
and `cam_set_mm` make the same hardware call, namely none when `s` is not a
name of the option and the setting of the same mode when it is; and
`flip_apply` and `cam_set_flip` set the same mirror value when the horizontal
and vertical flip flags of the two programs agree. -/
theorem C28_both_programs_select_the_same_modes (hw1 hw2 : Hardware)
    (opt : Raspijpgs.raspi_config_opt) (context : Raspijpgs.config_context)
    (k s hflip vflip : List Char) (st : Raspijpgs.raspijpgs_state)
    (t : RaspiMJPEG.RaspiMJPEG_state)
    (hk : opt.env_key = some k) (hs : Libc.getenv st.env k = some s)
    (hh : Libc.getenv st.env Raspijpgs.RASPIJPGS_HFLIP = some hflip)
    (hv : Libc.getenv st.env Raspijpgs.RASPIJPGS_VFLIP = some vflip)
    (hth : t.cam_setting_hflip ≠ 0 ↔ hflip = "on".toList)
    (htv : t.cam_setting_vflip ≠ 0 ↔ vflip = "on".toList) :
    new_calls st.trace (Raspijpgs.call_apply hw1 Raspijpgs.ApplyFn.exposure_apply opt
        context st).state.trace
      = new_calls t.trace
          (RaspiMJPEG.cam_set_em hw2 { t with cam_setting_em := s }).state.trace ∧
    new_calls st.trace (Raspijpgs.call_apply hw1 Raspijpgs.ApplyFn.awb_apply opt
        context st).state.trace
      = new_calls t.trace
          (RaspiMJPEG.cam_set_wb hw2 { t with cam_setting_wb := s }).state.trace ∧
    new_calls st.trace (Raspijpgs.call_apply hw1 Raspijpgs.ApplyFn.imxfx_apply opt
        context st).state.trace
      = new_calls t.trace
          (RaspiMJPEG.cam_set_ie hw2 { t with cam_setting_ie := s }).state.trace ∧
    new_calls st.trace (Raspijpgs.call_apply hw1 Raspijpgs.ApplyFn.metering_apply opt
        context st).state.trace
      = new_calls t.trace
          (RaspiMJPEG.cam_set_mm hw2 { t with cam_setting_mm := s }).state.trace ∧
    new_calls st.trace (Raspijpgs.call_apply hw1 Raspijpgs.ApplyFn.flip_apply opt
        context st).state.trace
      = new_calls t.trace (RaspiMJPEG.cam_set_flip hw2 t).state.trace := by
  refine ⟨?_, ?_, ?_, ?_, ?_⟩
  · rw [Raspijpgs.call_apply_enum hw1 _ opt context k s st (by decide) hk hs,
      Raspijpgs.enum_param_apply_new_calls]
    have h := RaspiMJPEG.cam_set_em_new_calls hw2 { t with cam_setting_em := s }
    rw [show ({ t with cam_setting_em := s } : RaspiMJPEG.RaspiMJPEG_state).trace = t.trace
      from rfl] at h
    rw [h]
    show (Option.map _ ((Raspijpgs.exposure_mode_of s).map Parameter.exposure_mode)).toList
      = (Option.map _ (Raspijpgs.exposure_mode_of s)).toList
    cases Raspijpgs.exposure_mode_of s <;> rfl
  · rw [Raspijpgs.call_apply_enum hw1 _ opt context k s st (by decide) hk hs,
      Raspijpgs.enum_param_apply_new_calls]
    have h := RaspiMJPEG.cam_set_wb_new_calls hw2 { t with cam_setting_wb := s }
    rw [show ({ t with cam_setting_wb := s } : RaspiMJPEG.RaspiMJPEG_state).trace = t.trace
      from rfl] at h
    rw [h]
    show (Option.map _ ((Raspijpgs.awb_mode_of s).map Parameter.awb_mode)).toList
      = (Option.map _ (Raspijpgs.awb_mode_of s)).toList
    cases Raspijpgs.awb_mode_of s <;> rfl
  · rw [Raspijpgs.call_apply_enum hw1 _ opt context k s st (by decide) hk hs,
      Raspijpgs.enum_param_apply_new_calls]
    have h := RaspiMJPEG.cam_set_ie_new_calls hw2 { t with cam_setting_ie := s }
    rw [show ({ t with cam_setting_ie := s } : RaspiMJPEG.RaspiMJPEG_state).trace = t.trace
      from rfl] at h
    rw [h]
    show (Option.map _ ((Raspijpgs.imagefx_of s).map Parameter.image_effect)).toList
      = (Option.map _ (Raspijpgs.imagefx_of s)).toList
    cases Raspijpgs.imagefx_of s <;> rfl
  · rw [Raspijpgs.call_apply_enum hw1 _ opt context k s st (by decide) hk hs,
      Raspijpgs.enum_param_apply_new_calls]
    have h := RaspiMJPEG.cam_set_mm_new_calls hw2 { t with cam_setting_mm := s }
    rw [show ({ t with cam_setting_mm := s } : RaspiMJPEG.RaspiMJPEG_state).trace = t.trace
      from rfl] at h
    rw [h]
    show (Option.map _ ((Raspijpgs.metering_mode_of s).map Parameter.exp_metering_mode)).toList
      = (Option.map _ (Raspijpgs.metering_mode_of s)).toList
    cases Raspijpgs.metering_mode_of s <;> rfl
  · simp only [Raspijpgs.call_apply, Raspijpgs.flip_apply,
      Raspijpgs.with_getenv_some _ hflip st _ hh, Raspijpgs.with_getenv_some _ vflip st _ hv]
    rw [(Raspijpgs.expect_success_trace hw1 _ _ st).1, new_calls_append]
    unfold RaspiMJPEG.cam_set_flip
    simp only []
    rw [RaspiMJPEG.mjpeg_expect_success_new_calls]
    have e1 : "on".toList = ['o', 'n'] := rfl
    rw [e1] at hth htv
    by_cases h1 : hflip = ['o', 'n'] <;> by_cases h2 : vflip = ['o', 'n'] <;>
      simp [calls_of, h1, h2, hth, htv]

/-- Witness of C28: the running raspijpgs server with its default settings
and RaspiMJPEG with its configured defaults. -/
theorem C28_witness :
    (Libc.getenv Raspijpgs.running_server.env Raspijpgs.RASPIJPGS_EXPOSURE
        = some "auto".toList ∧
      Libc.getenv Raspijpgs.running_server.env Raspijpgs.RASPIJPGS_HFLIP
        = some "off".toList ∧
      Libc.getenv Raspijpgs.running_server.env Raspijpgs.RASPIJPGS_VFLIP
        = some "off".toList ∧
      (RaspiMJPEG.configured.cam_setting_hflip ≠ 0 ↔ "off".toList = "on".toList) ∧
      (RaspiMJPEG.configured.cam_setting_vflip ≠ 0 ↔ "off".toList = "on".toList)) ∧
    new_calls Raspijpgs.running_server.trace
      (Raspijpgs.call_apply (Hardware.allSuccess 3) Raspijpgs.ApplyFn.flip_apply
        ⟨"exposure".toList, some "ex".toList, some Raspijpgs.RASPIJPGS_EXPOSURE,
          "Set exposure mode".toList, some "auto".toList, Raspijpgs.SetFn.default_set,
          some Raspijpgs.ApplyFn.exposure_apply⟩
        Raspijpgs.config_context.config_context_client_request
        Raspijpgs.running_server).state.trace
      = new_calls RaspiMJPEG.configured.trace
          (RaspiMJPEG.cam_set_flip (Hardware.allSuccess 3) RaspiMJPEG.configured).state.trace :=
  ⟨⟨by decide, by decide, by decide, by decide, by decide⟩,
    (C28_both_programs_select_the_same_modes (Hardware.allSuccess 3) (Hardware.allSuccess 3)
      ⟨"exposure".toList, some "ex".toList, some Raspijpgs.RASPIJPGS_EXPOSURE,
        "Set exposure mode".toList, some "auto".toList, Raspijpgs.SetFn.default_set,
        some Raspijpgs.ApplyFn.exposure_apply⟩
      Raspijpgs.config_context.config_context_client_request
      Raspijpgs.RASPIJPGS_EXPOSURE "auto".toList "off".toList "off".toList
      Raspijpgs.running_server RaspiMJPEG.configured rfl (by decide) (by decide) (by decide)
      (by decide) (by decide)).2.2.2.2⟩

theorem to_uint32_natCast (w : Nat) (h : w < 2 ^ 32) : Libc.to_uint32 (w : Int) = w := by
  unfold Libc.to_uint32
  have : ((w : Int) % 2 ^ 32) = (w : Int) := Int.emod_eq_of_lt (by omega) (by exact_mod_cast h)
  rw [this]
  exact Int.toNat_natCast w

/-- C29 (amended): for every stream width `w` whose product with 1080 fits the
32-bit `unsigned long` of the target (`w * 1080 < 2 ^ 32`, that is
`w <= 3976821`), with the capture size 1920x1080, the resizer output height
computed by `start_all` in raspijpgs.c and in RaspiMJPEG.c is the largest
multiple of 16 that does not exceed `floor(w * 1080 / 1920)`; it is 176 for
the default width 320 and 0 for every `w <= 28`. -/
theorem C29_resizer_height_is_rounded_down_to_a_multiple_of_16 (w : Nat)
    (hfit : w * 1080 < 2 ^ 32) :
    Raspijpgs.height_temp (w : Int) 1080 1920 = RaspiMJPEG.height_temp w 1080 1920 ∧
    16 ∣ RaspiMJPEG.height_temp w 1080 1920 ∧
    RaspiMJPEG.height_temp w 1080 1920 ≤ w * 1080 / 1920 ∧
    (∀ m, 16 ∣ m → m ≤ w * 1080 / 1920 → m ≤ RaspiMJPEG.height_temp w 1080 1920) ∧
    (w ≤ 28 → RaspiMJPEG.height_temp w 1080 1920 = 0) ∧
    RaspiMJPEG.height_temp 320 1080 1920 = 176 ∧
    Raspijpgs.height_temp 320 1080 1920 = 176 := by
  have hw : w < 2 ^ 32 := by omega
  have h1 : Raspijpgs.height_temp (w : Int) 1080 1920 = RaspiMJPEG.height_temp w 1080 1920 := by
    unfold Raspijpgs.height_temp RaspiMJPEG.height_temp
    rw [to_uint32_natCast w hw]
  have h2 : RaspiMJPEG.height_temp w 1080 1920 = w * 1080 / 1920 - w * 1080 / 1920 % 16 := by
    unfold RaspiMJPEG.height_temp
    simp only [Libc.LONG_BITS]
    rw [Nat.mod_eq_of_lt hfit]
  refine ⟨h1, ?_, ?_, ?_, ?_, by decide, by decide⟩
  · rw [h2]
    omega
  · rw [h2]
    omega
  · intro m hm hle
    rw [h2]
    omega
  · intro hsmall
    rw [h2]
    omega

/-- Witness of C29: the width 640. -/
theorem C29_witness :
    640 * 1080 < 2 ^ 32 ∧ RaspiMJPEG.height_temp 640 1080 1920 ≤ 640 * 1080 / 1920 :=
  ⟨by decide, (C29_resizer_height_is_rounded_down_to_a_multiple_of_16 640 (by decide)).2.2.1⟩

/-- Counterexample to C29 as stated: for the width 3976822 the product
`w * 1080` does not fit the 32-bit `unsigned long`; both programs compute the
height 0, where the largest multiple of 16 that does not exceed
`floor(3976822 * 1080 / 1920) = 2236962` is 2236960. -/
theorem C29_counterexample_product_overflows_unsigned_long :
    Raspijpgs.height_temp 3976822 1080 1920 = 0 ∧
    RaspiMJPEG.height_temp 3976822 1080 1920 = 0 ∧
    3976822 * 1080 / 1920 = 2236962 ∧
    2236962 - 2236962 % 16 = 2236960 :=
  ⟨by decide, by decide, by decide, by decide⟩

theorem find_range_lowest (p : Nat → Bool) (n i : Nat) (hi : i < n) (hp : p i = true)
    (hlow : ∀ j, j < i → p j = false) : (List.range n).find? p = some i := by
  induction n with
  | zero => omega
  | succ n ih =>
    rw [List.range_succ, List.find?_append]
    by_cases h : i < n
    · rw [ih h]
      rfl
    · have hin : i = n := by omega
      subst hin
      have hnone : (List.range i).find? p = none := by
        rw [List.find?_eq_none]
        intro x hx
        rw [List.mem_range] at hx
        simp [hlow x hx]
      rw [hnone]
      simp [List.find?, hp]

namespace Raspijpgs

theorem add_client_length (client_addr : sockaddr_un) (state : raspijpgs_state) :
    (add_client client_addr state).client_addrs.length = state.client_addrs.length := by
  unfold add_client
  split
  · simp
  · rfl

theorem evict_client_length (j : Nat) (state : raspijpgs_state) :
    (evict_client j state).client_addrs.length = state.client_addrs.length := by
  unfold evict_client
  split
  · rfl
  · simp

theorem run_registry_ops_length (ops : List RegistryOp) (state : raspijpgs_state) :
    (run_registry_ops ops state).client_addrs.length = state.client_addrs.length := by
  induction ops generalizing state with
  | nil => rfl
  | cons op rest ih =>
    cases op with
    | add client_addr =>
      show (run_registry_ops rest (add_client client_addr state)).client_addrs.length = _
      rw [ih, add_client_length]
    | evict j =>
      show (run_registry_ops rest (evict_client j state)).client_addrs.length = _
      rw [ih, evict_client_length]

/-- C24: `add_client` on a registry with a free slot stores the endpoint in
the lowest-indexed free slot `i` and leaves every other slot (and every other
field of the state) unchanged; on a registry whose slots are all occupied it
leaves the registry unchanged and only prints a warning.  Consequently, for a
registry of `MAX_CLIENTS` slots, the number of registered endpoints never
exceeds 8 after any sequence of `add_client` calls and evictions. -/
theorem C24_add_client_fills_the_lowest_free_slot (client_addr : sockaddr_un)
    (state : raspijpgs_state) (hlen : state.client_addrs.length = MAX_CLIENTS) :
    (∀ i, i < MAX_CLIENTS →
        (state.client_addrs[i]?).map (fun a => a.sun_family) = some 0 →
        (∀ j, j < i → (state.client_addrs[j]?).map (fun a => a.sun_family) ≠ some 0) →
        add_client client_addr state
          = { state with client_addrs := state.client_addrs.set i client_addr } ∧
        (add_client client_addr state).client_addrs[i]? = some client_addr ∧
        ∀ j, j ≠ i →
          (add_client client_addr state).client_addrs[j]? = state.client_addrs[j]?) ∧
    ((∀ a, a ∈ state.client_addrs → a.sun_family ≠ 0) →
        add_client client_addr state = warnx "Reached max number of clients" state ∧
        (add_client client_addr state).client_addrs = state.client_addrs ∧
        registered (add_client client_addr state) = registered state) ∧
    (∀ ops : List RegistryOp, (registered (run_registry_ops ops state)).length ≤ 8) := by
  refine ⟨?_, ?_, ?_⟩
  · intro i hi hfree hlow
    have hfind : (List.range MAX_CLIENTS).find?
        (fun i => (state.client_addrs[i]?).map (fun a => a.sun_family) = some 0) = some i := by
      apply find_range_lowest _ _ _ hi
      · simpa using hfree
      · intro j hj
        simpa using hlow j hj
    have heq : add_client client_addr state
        = { state with client_addrs := state.client_addrs.set i client_addr } := by
      unfold add_client
      rw [hfind]
    refine ⟨heq, ?_, ?_⟩
    · rw [heq]
      show (state.client_addrs.set i client_addr)[i]? = some client_addr
      simp [List.getElem?_set, hlen, hi]
    · intro j hj
      rw [heq]
      show (state.client_addrs.set i client_addr)[j]? = state.client_addrs[j]?
      rw [List.getElem?_set_ne (Ne.symm hj)]
  · intro hfull
    have hfind : (List.range MAX_CLIENTS).find?
        (fun i => (state.client_addrs[i]?).map (fun a => a.sun_family) = some 0) = none := by
      rw [List.find?_eq_none]
      intro x _
      cases hx : state.client_addrs[x]? with
      | none => simp
      | some a =>
        have hmem : a ∈ state.client_addrs := by
          obtain ⟨hb, hget⟩ := List.getElem?_eq_some.mp hx
          rw [← hget]
          exact List.getElem_mem hb
        simpa using hfull a hmem
    have heq : add_client client_addr state = warnx "Reached max number of clients" state := by
      unfold add_client
      rw [hfind]
    exact ⟨heq, by rw [heq]; rfl, by rw [heq]; rfl⟩
  · intro ops
    have h1 : (registered (run_registry_ops ops state)).length
        ≤ (run_registry_ops ops state).client_addrs.length := List.length_filter_le _ _
    rw [run_registry_ops_length, hlen] at h1
    exact h1

end Raspijpgs

namespace Raspijpgs

theorem split_lines_ne_nil (s : List Char) : split_lines s ≠ [] := by
  induction s with
  | nil => simp [split_lines]
  | cons c cs ih =>
    unfold split_lines
    split
    · simp
    · split <;> simp

theorem split_lines_of_no_newline (v : List Char) (h : '\n' ∉ v) : split_lines v = [v] := by
  induction v with
  | nil => rfl
  | cons c cs ih =>
    have hc : c ≠ '\n' := fun e => h (by simp [e])
    have hcs : '\n' ∉ cs := fun e => h (List.mem_cons_of_mem _ e)
    unfold split_lines
    rw [if_neg hc, ih hcs]

theorem split_lines_append_newline (v rest : List Char) (h : '\n' ∉ v) :
    split_lines (v ++ '\n' :: rest) = v :: split_lines rest := by
  induction v with
  | nil =>
    show split_lines ('\n' :: rest) = _
    rw [split_lines]
    simp
  | cons c cs ih =>
    have hc : c ≠ '\n' := fun e => h (by simp [e])
    have hcs : '\n' ∉ cs := fun e => h (List.mem_cons_of_mem _ e)
    show split_lines (c :: (cs ++ '\n' :: rest)) = _
    rw [split_lines, if_neg hc, ih hcs]

theorem split_lines_joined (values : List (List Char)) (hne : values ≠ [])
    (hnl : ∀ v, v ∈ values → '\n' ∉ v) :
    split_lines (joined_with_newlines values) = values := by
  induction values with
  | nil => exact absurd rfl hne
  | cons v rest ih =>
    cases rest with
    | nil => exact split_lines_of_no_newline v (hnl v (by simp))
    | cons w rest =>
      show split_lines (v ++ '\n' :: joined_with_newlines (w :: rest)) = _
      rw [split_lines_append_newline v _ (hnl v (by simp)),
        ih (by simp) (fun x hx => hnl x (List.mem_cons_of_mem _ hx))]

theorem foldl_newline_append (rest : List (List Char)) (a b : List Char) :
    rest.foldl (fun acc v => acc ++ '\n' :: v) (a ++ b)
      = a ++ rest.foldl (fun acc v => acc ++ '\n' :: v) b := by
  induction rest generalizing b with
  | nil => rfl
  | cons w rest ih =>
    show rest.foldl _ ((a ++ b) ++ '\n' :: w) = a ++ rest.foldl _ (b ++ '\n' :: w)
    rw [List.append_assoc, ih]

theorem joined_with_newlines_cons (v : List Char) (rest : List (List Char)) :
    joined_with_newlines (v :: rest) = rest.foldl (fun acc v => acc ++ '\n' :: v) v := by
  induction rest generalizing v with
  | nil => rfl
  | cons w rest ih =>
    show v ++ '\n' :: joined_with_newlines (w :: rest) = rest.foldl _ (v ++ '\n' :: w)
    rw [ih w]
    have := foldl_newline_append rest (v ++ ['\n']) w
    simpa using this.symm

theorem set_set_all_of_some (values : List (List Char)) (state : raspijpgs_state)
    (old : List Char) (hold : state.setlist = some old)
    (hkeys : ∀ v, v ∈ values →
      find_long_option (v.takeWhile (fun c => c ≠ '=')) opts ≠ none) :
    set_set_all values state
      = Result.ok { state with
          setlist := some (values.foldl (fun acc v => acc ++ '\n' :: v) old) } := by
  induction values generalizing state old with
  | nil =>
    show Result.ok state = _
    cases state
    simp only at hold
    simp [hold]
  | cons v rest ih =>
    have hv := hkeys v (by simp)
    have hstep : set_set v state
        = Result.ok { state with setlist := some (old ++ '\n' :: v) } := by
      unfold set_set
      cases hf : find_long_option (v.takeWhile (fun c => c ≠ '=')) opts with
      | none => exact absurd hf hv
      | some o => simp only [hold]
    show (set_set v state).andThen (set_set_all rest) = _
    rw [hstep]
    show set_set_all rest _ = _
    rw [ih _ (old ++ '\n' :: v) rfl (fun x hx => hkeys x (List.mem_cons_of_mem _ hx))]
    rfl

theorem set_set_all_of_none (values : List (List Char)) (state : raspijpgs_state)
    (hne : values ≠ []) (hnone : state.setlist = none)
    (hkeys : ∀ v, v ∈ values →
      find_long_option (v.takeWhile (fun c => c ≠ '=')) opts ≠ none) :
    set_set_all values state
      = Result.ok { state with setlist := some (joined_with_newlines values) } := by
  cases values with
  | nil => exact absurd rfl hne
  | cons v rest =>
    have hv := hkeys v (by simp)
    have hstep : set_set v state = Result.ok { state with setlist := some v } := by
      unfold set_set
      cases hf : find_long_option (v.takeWhile (fun c => c ≠ '=')) opts with
      | none => exact absurd hf hv
      | some o => simp only [hnone]
    show (set_set v state).andThen (set_set_all rest) = _
    rw [hstep]
    show set_set_all rest _ = _
    rw [set_set_all_of_some rest _ v rfl (fun x hx => hkeys x (List.mem_cons_of_mem _ hx)),
      joined_with_newlines_cons]

theorem set_set_all_keys_of_ok (values : List (List Char)) (state s' : raspijpgs_state)
    (h : set_set_all values state = Result.ok s') :
    ∀ v, v ∈ values → find_long_option (v.takeWhile (fun c => c ≠ '=')) opts ≠ none := by
  induction values generalizing state with
  | nil => intro v hv; cases hv
  | cons w rest ih =>
    have h0 : (set_set w state).andThen (set_set_all rest) = Result.ok s' := h
    intro v hv
    cases hf : find_long_option (w.takeWhile (fun c => c ≠ '=')) opts with
    | none =>
      have : set_set w state = Result.exit state "Unexpected key used in --set. Check help" := by
        unfold set_set
        rw [hf]
      rw [this] at h0
      cases h0
    | some o =>
      rcases List.mem_cons.mp hv with e | hmem
      · rw [e, hf]
        simp
      · cases hr : set_set w state with
        | exit s m =>
          rw [hr] at h0
          cases h0
        | ok s1 =>
          rw [hr] at h0
          exact ih s1 h0 v hmem

/-- C30: for every non-empty list of `--set` values none of which contains a
newline character, the set list built by successive `set_set` calls from the
empty set list is the values joined with newlines (the calls all return when
every value starts with an option name, and whenever they all return this is
the list they leave), and this list, split into lines the way
`server_service_client` does, yields exactly the original values in their
original order, so that the server parses one line per `--set` option. -/
theorem C30_set_list_splits_into_the_original_values (hw : Hardware)
    (values : List (List Char)) (state : raspijpgs_state)
    (hne : values ≠ []) (hnl : ∀ v, v ∈ values → '\n' ∉ v)
    (hnone : state.setlist = none) :
    ((∀ v, v ∈ values → find_long_option (v.takeWhile (fun c => c ≠ '=')) opts ≠ none) →
      set_set_all values state
        = Result.ok { state with setlist := some (joined_with_newlines values) }) ∧
    (∀ s', set_set_all values state = Result.ok s' →
      s'.setlist = some (joined_with_newlines values) ∧
      ∃ setlist, s'.setlist = some setlist ∧ split_lines setlist = values) ∧
    split_lines (joined_with_newlines values) = values ∧
    (∀ s, parse_config_lines hw config_context.config_context_client_request
        (split_lines (joined_with_newlines values)) s
      = parse_config_lines hw config_context.config_context_client_request values s) := by
  have hsplit := split_lines_joined values hne hnl
  refine ⟨set_set_all_of_none values state hne hnone, ?_, hsplit, ?_⟩
  · intro s' hs'
    have hkeys := set_set_all_keys_of_ok values state s' hs'
    rw [set_set_all_of_none values state hne hnone hkeys] at hs'
    cases hs'
    exact ⟨rfl, _, rfl, hsplit⟩
  · intro s
    rw [hsplit]

/-- Witness of C30: the two values of `--set sharpness=10 --set contrast=20`. -/
theorem C30_witness :
    (["sharpness=10".toList, "contrast=20".toList] ≠ [] ∧
      (∀ v, v ∈ ["sharpness=10".toList, "contrast=20".toList] → '\n' ∉ v) ∧
      (initial_state []).setlist = none) ∧
    split_lines (joined_with_newlines ["sharpness=10".toList, "contrast=20".toList])
      = ["sharpness=10".toList, "contrast=20".toList] :=
  ⟨⟨by decide, by decide, rfl⟩,
    (C30_set_list_splits_into_the_original_values (Hardware.allSuccess 3)
      ["sharpness=10".toList, "contrast=20".toList] (initial_state [])
      (by decide) (by decide) rfl).2.2.1⟩

/-- Witness of C24: the empty registry of the freshly started process. -/
theorem C24_witness :
    (initial_state []).client_addrs.length = MAX_CLIENTS ∧
    (add_client ⟨1, "client".toList⟩ (initial_state [])).client_addrs[0]?
      = some ⟨1, "client".toList⟩ :=
  ⟨by decide,
    ((C24_add_client_fills_the_lowest_free_slot ⟨1, "client".toList⟩ (initial_state [])
      (by decide)).1 0 (by decide) (by decide) (by intro j hj; omega)).2.1⟩

end Raspijpgs

namespace Raspijpgs

theorem memcpy_beyond (dst src : List Nat) (off n : Nat)
    (hend : dst.length ≤ off + n) (hn : src.length = n) :
    memcpy dst off src n = dst.take off ++ src := by
  subst hn
  unfold memcpy
  rw [List.take_length, List.drop_of_length_le hend, List.append_nil]

theorem assemble_buffer_ix_le (buffer : MMAL_BUFFER_HEADER_T) (state : raspijpgs_state)
    (h : state.buffer_ix ≤ MAX_DATA_BUFFER_SIZE) :
    (assemble buffer state).buffer_ix ≤ MAX_DATA_BUFFER_SIZE := by
  unfold assemble
  split
  · exact h
  · split
    · exact h
    · rename_i hguard
      have hle : (state.buffer_ix + buffer.length) % 2 ^ 32 ≤ MAX_DATA_BUFFER_SIZE :=
        Nat.le_of_not_gt hguard
      dsimp only
      split
      · exact hle
      · exact hle

theorem wrapped_guard_run (garbage d2 : List Nat) (h2 : d2.length = 4294967295)
    (hg : garbage.length = 65536) :
    (server_service_mmal_all (Hardware.allSuccess 3)
      [(encoder_port, { handle := 1, data := [7], flags := 0 }),
       (encoder_port, { handle := 2, data := d2, flags := 0 })]
      (initial_state garbage)).exited = false ∧
    (server_service_mmal_all (Hardware.allSuccess 3)
      [(encoder_port, { handle := 1, data := [7], flags := 0 })]
      (initial_state garbage)).state.buffer_ix = 1 ∧
    warnings (server_service_mmal_all (Hardware.allSuccess 3)
      [(encoder_port, { handle := 1, data := [7], flags := 0 }),
       (encoder_port, { handle := 2, data := d2, flags := 0 })]
      (initial_state garbage)).state.trace = [] ∧
    (server_service_mmal_all (Hardware.allSuccess 3)
      [(encoder_port, { handle := 1, data := [7], flags := 0 }),
       (encoder_port, { handle := 2, data := d2, flags := 0 })]
      (initial_state garbage)).state.buffer = 7 :: d2 ∧
    (server_service_mmal_all (Hardware.allSuccess 3)
      [(encoder_port, { handle := 1, data := [7], flags := 0 }),
       (encoder_port, { handle := 2, data := d2, flags := 0 })]
      (initial_state garbage)).state.buffer_ix = 0 := by
  have l1 : (memcpy garbage 0 [7] 1).length = 65536 := by
    rw [memcpy_length garbage [7] 0 1 (by omega) rfl, hg]
  have e1 : (memcpy garbage 0 [7] 1).take 1 = [7] := by
    have := memcpy_take garbage [7] 0 1 (by omega) rfl
    simpa using this
  have e2 : memcpy (memcpy garbage 0 [7] 1) 1 d2 4294967295 = 7 :: d2 := by
    rw [memcpy_beyond _ d2 1 4294967295 (by omega) h2, e1]
    rfl
  simp [server_service_mmal_all, jpegencoder_buffer_callback_impl, encoder_port, assemble,
    Result.andThen, mmal, mmal_void, release_and_resubmit, mmal_queue_get,
    Hardware.allSuccess, initial_state, MMAL_BUFFER_HEADER_T.length,
    MMAL_BUFFER_HEADER_T.frame_end, MMAL_BUFFER_HEADER_FLAG_FRAME_END, MAX_DATA_BUFFER_SIZE,
    warnx, distribute_jpeg, Result.state, Result.exited, warnings,
    warnings_append, h2, hg, e2]

/-- C26 (code bug): the guard `state.buffer_ix + buffer->length >
MAX_DATA_BUFFER_SIZE` of `jpegencoder_buffer_callback_impl` adds an `int` and a
`uint32_t`, so the sum wraps modulo 2^32.  From `buffer_ix = 0` and a buffer
of 65536 bytes, a first buffer of one byte without frame end leaves
`buffer_ix = 1`; a second buffer of length 4294967295 makes the sum wrap to 0,
the guard accepts it without warning, and `memcpy` copies its 4294967295
bytes to the offsets 1 .. 4294967295: the bytes after the copy are the first
byte followed by the whole buffer, 4294967296 bytes where the allocation has
65536, and the offset 65536 has been written.  `buffer_ix` is 0 afterwards,
inside its bounds. -/
theorem C26_wrapped_guard_admits_a_buffer_that_does_not_fit :
    (1 + 4294967295) % 2 ^ 32 = 0 ∧
    (server_service_mmal_all (Hardware.allSuccess 3)
      [(encoder_port, { handle := 1, data := [7], flags := 0 }),
       (encoder_port, { handle := 2, data := List.replicate 4294967295 9, flags := 0 })]
      (initial_state (List.replicate 65536 0))).exited = false ∧
    (server_service_mmal_all (Hardware.allSuccess 3)
      [(encoder_port, { handle := 1, data := [7], flags := 0 })]
      (initial_state (List.replicate 65536 0))).state.buffer_ix = 1 ∧
    warnings (server_service_mmal_all (Hardware.allSuccess 3)
      [(encoder_port, { handle := 1, data := [7], flags := 0 }),
       (encoder_port, { handle := 2, data := List.replicate 4294967295 9, flags := 0 })]
      (initial_state (List.replicate 65536 0))).state.trace = [] ∧
    (server_service_mmal_all (Hardware.allSuccess 3)
      [(encoder_port, { handle := 1, data := [7], flags := 0 }),
       (encoder_port, { handle := 2, data := List.replicate 4294967295 9, flags := 0 })]
      (initial_state (List.replicate 65536 0))).state.buffer
        = 7 :: List.replicate 4294967295 9 ∧
    (server_service_mmal_all (Hardware.allSuccess 3)
      [(encoder_port, { handle := 1, data := [7], flags := 0 }),
       (encoder_port, { handle := 2, data := List.replicate 4294967295 9, flags := 0 })]
      (initial_state (List.replicate 65536 0))).state.buffer_ix = 0 ∧
    (7 :: List.replicate 4294967295 9).length = 4294967296 ∧
    (7 :: List.replicate 4294967295 9)[MAX_DATA_BUFFER_SIZE]? = some 9 :=
  ⟨by norm_num,
    (wrapped_guard_run (List.replicate 65536 0) (List.replicate 4294967295 9)
      (List.length_replicate _ _) (List.length_replicate _ _)).1,
    (wrapped_guard_run (List.replicate 65536 0) (List.replicate 4294967295 9)
      (List.length_replicate _ _) (List.length_replicate _ _)).2.1,
    (wrapped_guard_run (List.replicate 65536 0) (List.replicate 4294967295 9)
      (List.length_replicate _ _) (List.length_replicate _ _)).2.2.1,
    (wrapped_guard_run (List.replicate 65536 0) (List.replicate 4294967295 9)
      (List.length_replicate _ _) (List.length_replicate _ _)).2.2.2.1,
    (wrapped_guard_run (List.replicate 65536 0) (List.replicate 4294967295 9)
      (List.length_replicate _ _) (List.length_replicate _ _)).2.2.2.2,
    by rw [List.length_cons, List.length_replicate],
    by
      rw [show MAX_DATA_BUFFER_SIZE = 65535 + 1 from rfl, List.getElem?_cons_succ,
        List.getElem?_replicate, if_pos (by norm_num)]⟩

end Raspijpgs

namespace Raspijpgs

theorem test_send_slot_buffer (sys : System) (j : Nat) (state : raspijpgs_state) :
    (test_send_slot sys j state).buffer = state.buffer := by
  unfold test_send_slot
  split
  · rfl
  · split
    · split <;> rfl
    · rfl

theorem foldl_buffer {α : Type} (f : raspijpgs_state → α → raspijpgs_state)
    (hf : ∀ s a, (f s a).buffer = s.buffer) (l : List α) (state : raspijpgs_state) :
    (l.foldl f state).buffer = state.buffer := by
  induction l generalizing state with
  | nil => rfl
  | cons a rest ih =>
    show (rest.foldl f (f state a)).buffer = _
    rw [ih, hf]

theorem test_sending_buffer (sys : System) (state : raspijpgs_state) :
    (test_sending sys state).buffer = state.buffer := by
  unfold test_sending
  apply foldl_buffer
  intro s _
  apply foldl_buffer
  intro s j
  exact test_send_slot_buffer sys j s

theorem add_client_buffer (client_addr : sockaddr_un) (state : raspijpgs_state) :
    (add_client client_addr state).buffer = state.buffer := by
  unfold add_client
  split <;> rfl

theorem cstr_comment (l : List Nat) (h : ∀ x, x ∈ l → x = 35) :
    Libc.cstr (l.map Char.ofNat) = l.map Char.ofNat := by
  unfold Libc.cstr
  rw [List.takeWhile_eq_self_iff]
  intro c hc
  obtain ⟨x, hx, rfl⟩ := List.mem_map.mp hc
  rw [h x hx]
  decide

theorem no_newline_comment (l : List Nat) (h : ∀ x, x ∈ l → x = 35) :
    '\n' ∉ l.map Char.ofNat := by
  intro hc
  obtain ⟨x, hx, e⟩ := List.mem_map.mp hc
  rw [h x hx] at e
  exact absurd e (by decide)

theorem full_datagram_run (hw : Hardware) (sys : System) (from_addr : sockaddr_un)
    (d : List Nat) (state : raspijpgs_state) (hd : d.length = 65536)
    (hc : ∀ x, x ∈ d → x = 35) (hb : state.buffer.length = 65536) :
    (d.take MAX_DATA_BUFFER_SIZE).length = MAX_DATA_BUFFER_SIZE ∧
    (server_service_client hw sys (Received.datagram from_addr d) state).exited = false ∧
    (server_service_client hw sys (Received.datagram from_addr d) state).state.buffer = d := by
  have hne : d ≠ [] := by
    intro e
    rw [e] at hd
    cases hd
  obtain ⟨x, rest, rfl⟩ := List.exists_cons_of_ne_nil hne
  have hx : x = 35 := hc x (by simp)
  have htake : (x :: rest).take 65536 = x :: rest := List.take_of_length_le (by omega)
  have hmem : memcpy state.buffer 0 (x :: rest) 65536 = x :: rest := by
    rw [memcpy_beyond state.buffer (x :: rest) 0 65536 (by omega) hd]
    rfl
  have hset : (x :: rest).set 65536 0 = x :: rest := List.set_eq_of_length_le (by omega)
  have hlines : split_lines (Libc.cstr ((x :: rest).map Char.ofNat))
      = [(x :: rest).map Char.ofNat] := by
    rw [cstr_comment _ hc, split_lines_of_no_newline _ (no_newline_comment _ hc)]
  have hline : ∀ s, parse_config_line hw (Libc.cstr ((x :: rest).map Char.ofNat))
      config_context.config_context_client_request s = Result.ok s := by
    intro s
    rw [cstr_comment _ hc]
    have : split_config_line ((x :: rest).map Char.ofNat) = none := by
      subst hx
      simp [split_config_line, trim_whitespace]
    unfold parse_config_line
    rw [this]
  refine ⟨?_, ?_, ?_⟩
  · show ((x :: rest).take 65536).length = 65536
    rw [htake, hd]
  · unfold server_service_client
    simp only [MAX_DATA_BUFFER_SIZE, htake, hd, hmem, add_client_buffer, hset, hlines,
      parse_config_lines, hline, Result.andThen]
    rfl
  · unfold server_service_client
    simp only [MAX_DATA_BUFFER_SIZE, htake, hd, hmem, add_client_buffer, hset, hlines,
      parse_config_lines, hline, Result.andThen, Result.state, test_sending_buffer]

end Raspijpgs

/-- C27 (code bug): the write that terminates a received message can land
outside the receiving buffer in both programs.
RaspiMJPEG.c: when `read(fd, readbuf, 60)` returns 60 (here for the 60-byte
command `an xxx...`), the branch `an` runs with `length = 60` and its write
`readbuf[length] = 0` addresses index 60 of the 60-byte array: afterwards
`readbuf` holds no NUL and the annotation read from `readbuf + 3` runs to the
end of the array.  When `read` returns -1 after the command `em auto`, which
left `em` at the start of `readbuf`, the branch `em` runs with `length = -1`
and writes `readbuf[-1]`.
raspijpgs.c: when `recvfrom` fills the buffer (a datagram of
`MAX_DATA_BUFFER_SIZE` bytes `#`), `bytes_received` is `MAX_DATA_BUFFER_SIZE`
and `state.buffer[bytes_received] = 0` addresses the index
`MAX_DATA_BUFFER_SIZE` of the `MAX_DATA_BUFFER_SIZE`-byte buffer: afterwards
the buffer holds the datagram and no NUL. -/
theorem C27_terminating_write_lands_outside_the_buffer :
    (((RaspiMJPEG.sixty_byte_command.take 60).length : Int) = 60 ∧
      RaspiMJPEG.configured.readbuf.length = 60 ∧
      RaspiMJPEG.loop_iteration (Hardware.allSuccess 3) Libc.OS.allSuccess
          ⟨true, some RaspiMJPEG.sixty_byte_command⟩ RaspiMJPEG.configured
        = RaspiMJPEG.command_an 60
            { RaspiMJPEG.configured with readbuf := RaspiMJPEG.sixty_byte_command } ∧
      index_in_bounds RaspiMJPEG.sixty_byte_command 60 = false ∧
      (RaspiMJPEG.loop_iteration (Hardware.allSuccess 3) Libc.OS.allSuccess
          ⟨true, some RaspiMJPEG.sixty_byte_command⟩ RaspiMJPEG.configured).exited = false ∧
      (RaspiMJPEG.loop_iteration (Hardware.allSuccess 3) Libc.OS.allSuccess
          ⟨true, some RaspiMJPEG.sixty_byte_command⟩ RaspiMJPEG.configured).state.readbuf
        = "   ".toList ++ List.replicate 57 'x' ∧
      Char.ofNat 0 ∉ (RaspiMJPEG.loop_iteration (Hardware.allSuccess 3) Libc.OS.allSuccess
          ⟨true, some RaspiMJPEG.sixty_byte_command⟩ RaspiMJPEG.configured).state.readbuf ∧
      (RaspiMJPEG.loop_iteration (Hardware.allSuccess 3) Libc.OS.allSuccess
          ⟨true, some RaspiMJPEG.sixty_byte_command⟩
          RaspiMJPEG.configured).state.cam_setting_annotation
        = some (List.replicate 57 'x')) ∧
    ((RaspiMJPEG.loop_iteration (Hardware.allSuccess 3) Libc.OS.allSuccess
          ⟨true, some "em auto".toList⟩ RaspiMJPEG.configured).exited = false ∧
      (RaspiMJPEG.loop_iteration (Hardware.allSuccess 3) Libc.OS.allSuccess
          ⟨true, some "em auto".toList⟩ RaspiMJPEG.configured).state.readbuf
        = "em auto".toList ++ Char.ofNat 0 :: List.replicate 52 ' ' ∧
      RaspiMJPEG.loop_iteration (Hardware.allSuccess 3) Libc.OS.allSuccess ⟨true, none⟩
          (RaspiMJPEG.loop_iteration (Hardware.allSuccess 3) Libc.OS.allSuccess
            ⟨true, some "em auto".toList⟩ RaspiMJPEG.configured).state
        = RaspiMJPEG.command_em (Hardware.allSuccess 3) (-1)
            (RaspiMJPEG.loop_iteration (Hardware.allSuccess 3) Libc.OS.allSuccess
              ⟨true, some "em auto".toList⟩ RaspiMJPEG.configured).state ∧
      index_in_bounds (RaspiMJPEG.loop_iteration (Hardware.allSuccess 3) Libc.OS.allSuccess
          ⟨true, some "em auto".toList⟩ RaspiMJPEG.configured).state.readbuf (-1) = false) ∧
    (((List.replicate 65536 35).take Raspijpgs.MAX_DATA_BUFFER_SIZE).length
        = Raspijpgs.MAX_DATA_BUFFER_SIZE ∧
      (Raspijpgs.initial_state (List.replicate 65536 0)).buffer.length
        = Raspijpgs.MAX_DATA_BUFFER_SIZE ∧
      index_in_bounds (Raspijpgs.initial_state (List.replicate 65536 0)).buffer
        (Raspijpgs.MAX_DATA_BUFFER_SIZE : Nat) = false ∧
      (Raspijpgs.server_service_client (Hardware.allSuccess 3) Raspijpgs.System.allSuccess
        (Raspijpgs.Received.datagram ⟨1, "client".toList⟩ (List.replicate 65536 35))
        (Raspijpgs.initial_state (List.replicate 65536 0))).exited = false ∧
      (Raspijpgs.server_service_client (Hardware.allSuccess 3) Raspijpgs.System.allSuccess
        (Raspijpgs.Received.datagram ⟨1, "client".toList⟩ (List.replicate 65536 35))
        (Raspijpgs.initial_state (List.replicate 65536 0))).state.buffer
        = List.replicate 65536 35 ∧
      0 ∉ List.replicate 65536 35) :=
  ⟨⟨by decide, by decide, rfl, by decide, by decide, by decide, by decide, by decide⟩,
    ⟨by decide, by decide, rfl, by decide⟩,
    ⟨(Raspijpgs.full_datagram_run (Hardware.allSuccess 3) Raspijpgs.System.allSuccess
        ⟨1, "client".toList⟩ (List.replicate 65536 35)
        (Raspijpgs.initial_state (List.replicate 65536 0)) (List.length_replicate _ _)
        (fun _ hx => List.eq_of_mem_replicate hx) (List.length_replicate _ _)).1,
      List.length_replicate _ _,
      by
        rw [index_in_bounds, show (Raspijpgs.initial_state (List.replicate 65536 0)).buffer.length
          = 65536 from List.length_replicate _ _]
        rfl,
      (Raspijpgs.full_datagram_run (Hardware.allSuccess 3) Raspijpgs.System.allSuccess
        ⟨1, "client".toList⟩ (List.replicate 65536 35)
        (Raspijpgs.initial_state (List.replicate 65536 0)) (List.length_replicate _ _)
        (fun _ hx => List.eq_of_mem_replicate hx) (List.length_replicate _ _)).2.1,
      (Raspijpgs.full_datagram_run (Hardware.allSuccess 3) Raspijpgs.System.allSuccess
        ⟨1, "client".toList⟩ (List.replicate 65536 35)
        (Raspijpgs.initial_state (List.replicate 65536 0)) (List.length_replicate _ _)
        (fun _ hx => List.eq_of_mem_replicate hx) (List.length_replicate _ _)).2.2,
      fun h => absurd (List.eq_of_mem_replicate h) (by decide)⟩⟩

namespace Raspijpgs

end Raspijpgs

namespace Raspijpgs

end Raspijpgs

namespace Raspijpgs

end Raspijpgs
